import Mathlib

/-!
# Objectness detection, template-matcher training, the classifier pipeline and the
particle fitness

A shallow embedding of `src/objdetect/objectness.cpp`,
`src/objdetect/template_matcher.cpp`, `src/objdetect/classifier.cpp` and
`Particle::objFun` and `Particle::progress` of `src/core/particle.cpp` (with
`src/core/window.h`), followed by the properties proved about them.

Conventions of the embedding:

* `float` values are exact rationals (`ℚ`); the images involved hold small
  integer-valued or 8-bit data, on which `float` arithmetic is exact. In
  `Particle::objFun`, where NaN matters, a `float` is a rational or NaN (`FloatV`).
* `int`/`uint` values are unbounded `Int`/`Nat`; signed overflow is undefined
  behaviour in C++ and is not modelled.
* `assert` is a fatal abort (`Fault.assertion`).
* A `for`/`while` loop whose trip count is not bounded by its own header runs
  on a fuel budget; `Fault.fuel` means the budget ran out while the loop
  condition was still true.
* OpenCV functions and functions of headers that are not part of the sources
  (`processing.h`, `triplet.h`, `classifier_criteria.h`, `parser.h`, `hasher.h`) are
  parameters.
* A method of `Classifier` yields a `Run`: the state reached and, if it aborted, the
  fault; the text written to `std::cout` is part of the state.
* `Particle::progress` works on a `Swarm`: the `Particle` objects by address, so that
  the reference `gBest` may or may not be the particle itself, the state of the random
  generator, and the numbers written to `std::cout`; its `float`s are rationals.
-/

set_option autoImplicit false

namespace tless

/-! ## Shared data model -/

/-- Ways in which a call does not return normally. -/
inductive Fault where
  /-- An `assert` failed: fatal abort. -/
  | assertion
  /-- A matrix access outside the matrix. -/
  | outOfBounds
  /-- The loop budget was used up while the loop condition still held. -/
  | fuel
  deriving DecidableEq, Repr

deriving instance DecidableEq for Except

/-- Dense single-channel matrix (`cv::Mat`): `px r c` is the element in row `r`,
column `c`; only `r < rows`, `c < cols` is part of the matrix. -/
structure Mat (α : Type) where
  rows : Nat
  cols : Nat
  px : Nat → Nat → α

/-- Transcription of `cv::Mat::empty()`. -/
def Mat.empty {α : Type} (m : Mat α) : Bool :=
  m.rows == 0 || m.cols == 0

/-- Bounds-checked `m.at<T>(r, c)`. -/
def Mat.at? {α : Type} (m : Mat α) (r c : Nat) : Option α :=
  if r < m.rows ∧ c < m.cols then some (m.px r c) else none

/-- Pixel coordinate (`cv::Point`). -/
structure Point where
  x : Int
  y : Int
  deriving DecidableEq, Repr

/-- Dimensions of a template (`cv::Size`). -/
structure Size where
  width : Nat
  height : Nat
  deriving DecidableEq, Repr

/-- Transcription of `cv::Size::area()`. -/
def Size.area (s : Size) : Nat :=
  s.width * s.height

/-- `Window` of `src/core/window.h`; candidates are template handles. -/
structure Window where
  x : Int
  y : Int
  width : Int
  height : Int
  edgels : Int
  candidates : List Nat
  deriving DecidableEq, Repr

/-- The part of `criteria.info` read by the objectness detector. -/
structure DataSetInfo where
  smallestTemplate : Size
  minEdgels : Int

/-- The part of `ClassifierCriteria` read by the objectness detector
(`classifier_criteria.h` is not among the sources; the stride is a count of
pixels). -/
structure ClassifierCriteria where
  windowStep : Nat
  objectnessFactor : ℚ
  info : DataSetInfo

/-- Filters of `processing.h` (not among the sources). Each rewrites an image of
unchanged geometry, so it is given as the new element function. -/
structure Processing where
  filterSobel : Mat ℚ → Bool → Bool → Nat → Nat → ℚ
  thresholdMinMax : Mat ℚ → ℚ → ℚ → Nat → Nat → ℚ

/-! ## Objectness (`src/objdetect/objectness.cpp`) -/

/-- Sum of `f 0, ..., f (n - 1)`. -/
def sumBelow : Nat → (Nat → ℚ) → ℚ
  | 0, _ => 0
  | n + 1, f => sumBelow n f + f n

/-- Summed-area table computed by `cv::integral(src, sum, CV_32F)`: one row and one
column larger than `src`, with `sum(r, c)` the sum of `src` over rows `< r`
and columns `< c`. -/
def integral (src : Mat ℚ) : Mat ℚ :=
  { rows := src.rows + 1
    cols := src.cols + 1
    px := fun r c => sumBelow r (fun i => sumBelow c (fun j => src.px i j)) }

/-- Brute-force sum of `m` over rows `y .. y+sizeY-1`, columns `x .. x+sizeX-1`. -/
def windowSum (m : Mat ℚ) (x y sizeX sizeY : Nat) : ℚ :=
  sumBelow sizeY (fun i => sumBelow sizeX (fun j => m.px (y + i) (x + j)))

/-- Conversion `static_cast<int>(float)`: truncation towards zero. -/
def truncToInt (v : ℚ) : Int :=
  if 0 ≤ v then ⌊v⌋ else ⌈v⌉

/-- Conversion `static_cast<uint>(float)`: truncation; a negative value, for which the
C++ conversion is undefined, is taken to 0. -/
def floatToUInt (v : ℚ) : Nat :=
  (truncToInt v).toNat

/-- Conversion `static_cast<uint>(int)`; at its call site (line 52) the argument is
the product of a positive `int` and the stride, which is not negative. -/
def intToUInt (v : Int) : Nat :=
  v.toNat

/-- The expression of `objectness.cpp` lines 62-65: four reads of the integral
image combined by inclusion-exclusion; `none` when a read is outside it. -/
def fourLookups (sIntegral : Mat ℚ) (x y sizeX sizeY : Nat) : Option ℚ :=
  match sIntegral.at? (y + sizeY) (x + sizeX), sIntegral.at? y (x + sizeX),
      sIntegral.at? (y + sizeY) x, sIntegral.at? y x with
  | some a, some b, some c, some d => some (a - b - c + d)
  | _, _, _, _ => none

/-- Inner loop of `Objectness::objectness` (line 58) for row `y`, from column `x`.
The loop condition is evaluated on `int`s; `emplace_back` stores the `uint` edge sum in
the `int` field `edgels`. -/
def scanRow (criteria : ClassifierCriteria) (sSobel sIntegral : Mat ℚ) (edgels : Nat)
    (y : Nat) : Nat → Nat → List Window → Except Fault (List Window)
  | 0, x, windows =>
    if (x : Int) < (sSobel.cols : Int) - (criteria.info.smallestTemplate.width : Int) then
      .error .fuel
    else .ok windows
  | fuel + 1, x, windows =>
    if (x : Int) < (sSobel.cols : Int) - (criteria.info.smallestTemplate.width : Int) then
      match fourLookups sIntegral x y criteria.info.smallestTemplate.width
          criteria.info.smallestTemplate.height with
      | none => .error .outOfBounds
      | some v =>
        let sceneEdgels := floatToUInt v
        scanRow criteria sSobel sIntegral edgels y fuel (x + criteria.windowStep)
          (if sceneEdgels ≥ edgels then
            windows ++ [⟨x, y, criteria.info.smallestTemplate.width,
              criteria.info.smallestTemplate.height, sceneEdgels, []⟩]
          else windows)
    else .ok windows

/-- Outer loop of `Objectness::objectness` (line 57), from row `y`; every inner
loop gets the budget `budget`. -/
def scanRows (criteria : ClassifierCriteria) (sSobel sIntegral : Mat ℚ) (edgels : Nat)
    (budget : Nat) : Nat → Nat → List Window → Except Fault (List Window)
  | 0, y, windows =>
    if (y : Int) < (sSobel.rows : Int) - (criteria.info.smallestTemplate.height : Int) then
      .error .fuel
    else .ok windows
  | fuel + 1, y, windows =>
    if (y : Int) < (sSobel.rows : Int) - (criteria.info.smallestTemplate.height : Int) then
      match scanRow criteria sSobel sIntegral edgels y budget 0 windows with
      | .error e => .error e
      | .ok windows => scanRows criteria sSobel sIntegral edgels budget fuel
          (y + criteria.windowStep) windows
    else .ok windows

/-- The thresholded Sobel response computed at lines 44-46 (and 21-22). -/
def sobelMask (P : Processing) (src : Mat ℚ) : Mat ℚ :=
  let sSobel : Mat ℚ := ⟨src.rows, src.cols, P.filterSobel src true true⟩
  ⟨sSobel.rows, sSobel.cols, P.thresholdMinMax sSobel (1 / 100) (1 / 10)⟩

/-- The scan of lines 48-72 over an edge mask `sSobel`. -/
def objectnessScan (criteria : ClassifierCriteria) (fuel : Nat) (sSobel : Mat ℚ)
    (windows : List Window) : Except Fault (List Window) :=
  let sIntegral := integral sSobel
  let edgels := intToUInt (criteria.info.minEdgels * (criteria.windowStep : Int))
  scanRows criteria sSobel sIntegral edgels fuel fuel 0 windows

/-- Transcription of `Objectness::objectness`; `windows` is the output vector as it is
on entry. -/
def objectness (P : Processing) (criteria : ClassifierCriteria) (fuel : Nat)
    (sceneDepthNorm : Mat ℚ) (windows : List Window) : Except Fault (List Window) :=
  if ¬ (criteria.info.smallestTemplate.area > 0) then .error .assertion
  else if ¬ (criteria.info.minEdgels > 0) then .error .assertion
  else if ¬ (criteria.objectnessFactor > 0) then .error .assertion
  else if sceneDepthNorm.empty then .error .assertion
  else objectnessScan criteria fuel (sobelMask P sceneDepthNorm) windows

/-- Trip count of `for (v = start; v < bound; v += step)` when `step ≥ 1`. -/
def tripCount (step bound start : Nat) : Nat :=
  (bound - start + step - 1) / step

/-- Values taken by `v` in `for (v = start; v < bound; v += step)` when `step ≥ 1`. -/
def stridePositions (step bound start : Nat) : List Nat :=
  (List.range (tripCount step bound start)).map (fun k => start + k * step)

/-- The window the scan emits at `(x, y)`, if any, computed from the brute-force
window sum. -/
def windowAt (criteria : ClassifierCriteria) (sSobel : Mat ℚ) (edgels : Nat)
    (x y : Nat) : Option Window :=
  let sceneEdgels := floatToUInt (windowSum sSobel x y criteria.info.smallestTemplate.width
    criteria.info.smallestTemplate.height)
  if sceneEdgels ≥ edgels then
    some ⟨x, y, criteria.info.smallestTemplate.width, criteria.info.smallestTemplate.height,
      sceneEdgels, []⟩
  else none

/-- Windows the scan appends while it is in row `y`, from column `x`. -/
def rowWindows (criteria : ClassifierCriteria) (sSobel : Mat ℚ) (edgels : Nat)
    (y x : Nat) : List Window :=
  (stridePositions criteria.windowStep
    (sSobel.cols - criteria.info.smallestTemplate.width) x).filterMap
    (fun x => windowAt criteria sSobel edgels x y)

/-- Windows the scan appends from row `y` on. -/
def scanWindows (criteria : ClassifierCriteria) (sSobel : Mat ℚ) (edgels : Nat)
    (y : Nat) : List Window :=
  (stridePositions criteria.windowStep
    (sSobel.rows - criteria.info.smallestTemplate.height) y).flatMap
    (fun y => rowWindows criteria sSobel edgels y 0)

/-- Threshold of line 52. -/
def edgelsThreshold (criteria : ClassifierCriteria) : Nat :=
  intToUInt (criteria.info.minEdgels * (criteria.windowStep : Int))

/-- Position `(x, y)` is reached by the two loop headers of lines 57-58. -/
def Visits (criteria : ClassifierCriteria) (sSobel : Mat ℚ) (x y : Nat) : Prop :=
  criteria.windowStep ∣ x ∧ criteria.windowStep ∣ y ∧
  (x : Int) < (sSobel.cols : Int) - (criteria.info.smallestTemplate.width : Int) ∧
  (y : Int) < (sSobel.rows : Int) - (criteria.info.smallestTemplate.height : Int)

/-- The assertions of lines 37-40 all hold. -/
def objectnessPre (criteria : ClassifierCriteria) (sceneDepthNorm : Mat ℚ) : Prop :=
  criteria.info.smallestTemplate.area > 0 ∧ criteria.info.minEdgels > 0 ∧
  criteria.objectnessFactor > 0 ∧ sceneDepthNorm.empty = false

/-- Sample filters: both leave the image as it is. -/
def sampleProcessing : Processing :=
  ⟨fun m _ _ => m.px, fun m _ _ => m.px⟩

/-- Sample mask: every pixel is an edge pixel. -/
def sampleMask (rows cols : Nat) : Mat ℚ :=
  ⟨rows, cols, fun _ _ => 1⟩

/-- Sample criteria with the given stride, template size and edgel minimum. -/
def sampleCriteria (step width height : Nat) (minEdgels : Int) : ClassifierCriteria :=
  ⟨step, 3 / 10, ⟨⟨width, height⟩, minEdgels⟩⟩

/-! ## Template matcher (`src/objdetect/template_matcher.cpp`) -/

/-- Transcription of `TemplateMatcher::quantizeOrientationGradients`. -/
def quantizeOrientationGradients (deg : ℚ) : Except Fault Int :=
  if ¬ (deg ≥ 0) then .error .assertion
  else if ¬ (deg ≤ 360) then .error .assertion
  else
    let degNormalized : Int := Int.tmod (truncToInt deg) 180
    if degNormalized ≥ 0 ∧ degNormalized < 36 then .ok 0
    else if degNormalized ≥ 36 ∧ degNormalized < 72 then .ok 1
    else if degNormalized ≥ 72 ∧ degNormalized < 108 then .ok 2
    else if degNormalized ≥ 108 ∧ degNormalized < 144 then .ok 3
    else .ok 4

/-- The reference quantizer in the words of the specification: `deg` reduced to
`[0, 180)`, then bucketed into five equal 36-degree bins, `floor((deg mod 180) / 36)`. -/
def referenceOrientationBin (deg : ℚ) : Int :=
  ⌊(deg - 180 * (⌊deg / 180⌋ : ℚ)) / 36⌋

/-- Lines 115 and 121-122 of `TemplateMatcher::extractGradientOrientations` for one
feature point whose gradient angle (`cv::fastAtan2`) is `deg`: the bin stored in
`features.orientationGradients[i]`, after the two range assertions on it. -/
def orientationFeature (deg : ℚ) : Except Fault Int :=
  match quantizeOrientationGradients deg with
  | .error e => .error e
  | .ok bin =>
    if ¬ (bin ≥ 0) then .error .assertion
    else if ¬ (bin < 5) then .error .assertion
    else .ok bin

/-- Configuration fields of `TemplateMatcher`. -/
structure TemplateMatcher where
  featurePointsCount : Nat
  cannyThreshold1 : Nat
  cannyThreshold2 : Nat
  sobelMaxThreshold : Nat
  grayscaleMinThreshold : Nat

/-- Axis-aligned rectangle in image coordinates (`cv::Rect`). -/
structure Rect where
  x : Nat
  y : Nat
  width : Nat
  height : Nat
  deriving DecidableEq, Repr

/-- The part of `Template` (`core/template.h`) used by feature-point generation and
by min-edgel extraction. -/
structure Template where
  src : Mat ℚ
  stablePoints : List Point
  edgePoints : List Point
  srcDepth : Mat ℚ
  objBB : Rect

/-- Group of templates (`TemplateGroup`). -/
structure TemplateGroup where
  templates : List Template

/-- OpenCV filters called by `generateFeaturePoints`. Each yields an image of the
geometry of its input and is given as the element function of that image. -/
structure OpenCV where
  convertScaleAbs : Mat ℚ → ℚ → Nat → Nat → Nat
  blur : Mat Nat → Nat → Nat → Nat
  Canny : Mat Nat → Nat → Nat → Nat → Nat → Nat
  Sobel : Mat Nat → Nat → Nat → Nat → Nat → Nat
  addWeighted : Mat Nat → Mat Nat → Nat → Nat → Nat

/-- The two sources of randomness of `generateFeaturePoints`.

* `shuffle v` is `std::shuffle(v.begin(), v.end(), engine(1))`: the engine is
  constructed on the spot from the constant seed 1, so the result is a function
  of the sequence.
* `random g min max` is `(int) Triplet::random(min, max)` (`core/triplet.h` is not
  among the sources): a draw from a generator that lives across calls; `g` is the
  state of that generator before the call, the result is the value drawn and the
  state after the call. -/
structure RandomSources where
  shuffle : List Point → List Point
  random : Nat → Int → Int → Int × Nat

/-- Unchecked `v[i]` of `std::vector<cv::Point>`; a read outside the vector yields an
unspecified point, fixed here as the origin. -/
def vectorAt (v : List Point) (i : Int) : Point :=
  if 0 ≤ i then v.getD i.toNat ⟨0, 0⟩ else ⟨0, 0⟩

/-- Points `(x, y)` pushed by the loops of lines 52-62 for one of the two tests, in
push order (row by row). -/
def collectPoints (rows cols : Nat) (test : Nat → Nat → Bool) : List Point :=
  (List.range rows).flatMap (fun y =>
    (List.range cols).filterMap (fun x => if test y x then some ⟨x, y⟩ else none))

/-- The blurred 8-bit image `src_8uc1` of lines 40-43. -/
def blurred8u (cv : OpenCV) (t : Template) : Mat Nat :=
  let src_8uc1 : Mat Nat := ⟨t.src.rows, t.src.cols, cv.convertScaleAbs t.src 255⟩
  ⟨src_8uc1.rows, src_8uc1.cols, cv.blur src_8uc1⟩

/-- The image `canny` of line 44. -/
def cannyImage (tm : TemplateMatcher) (cv : OpenCV) (t : Template) : Mat Nat :=
  let src_8uc1 := blurred8u cv t
  ⟨src_8uc1.rows, src_8uc1.cols, cv.Canny src_8uc1 tm.cannyThreshold1 tm.cannyThreshold2⟩

/-- The image `sobel` of lines 47-49. -/
def sobelImage (cv : OpenCV) (t : Template) : Mat Nat :=
  let src_8uc1 := blurred8u cv t
  let sobelX : Mat Nat := ⟨src_8uc1.rows, src_8uc1.cols, cv.Sobel src_8uc1 1 0⟩
  let sobelY : Mat Nat := ⟨src_8uc1.rows, src_8uc1.cols, cv.Sobel src_8uc1 0 1⟩
  ⟨sobelX.rows, sobelX.cols, cv.addWeighted sobelX sobelY⟩

/-- The vector `cannyPoints` after the loops of lines 52-62. -/
def cannyCandidates (tm : TemplateMatcher) (cv : OpenCV) (t : Template) : List Point :=
  let canny := cannyImage tm cv t
  collectPoints canny.rows canny.cols (fun y x => decide (canny.px y x > 0))

/-- The vector `stablePoints` after the loops of lines 52-62. -/
def stableCandidates (tm : TemplateMatcher) (cv : OpenCV) (t : Template) : List Point :=
  let canny := cannyImage tm cv t
  let src_8uc1 := blurred8u cv t
  let sobel := sobelImage cv t
  collectPoints canny.rows canny.cols (fun y x =>
    decide (src_8uc1.px y x > tm.grayscaleMinThreshold ∧ sobel.px y x ≤ tm.sobelMaxThreshold))

/-- The loop of lines 73-80, with `count` iterations left. -/
def pickPoints (R : RandomSources) (stablePoints cannyPoints : List Point) :
    Nat → Nat → Template → Template × Nat
  | 0, g, t => (t, g)
  | count + 1, g, t =>
    let r1 := R.random g 0 ((stablePoints.length : Int) - 1)
    let t1 : Template := { t with stablePoints := t.stablePoints ++ [vectorAt stablePoints r1.1] }
    let r2 := R.random r1.2 0 ((cannyPoints.length : Int) - 1)
    let t2 : Template := { t1 with edgePoints := t1.edgePoints ++ [vectorAt cannyPoints r2.1] }
    pickPoints R stablePoints cannyPoints count r2.2 t2

/-- Body of the loop over templates (lines 35-80) for the template `t`, entered with
the generator of `Triplet::random` in state `g`. -/
def generateTemplatePoints (tm : TemplateMatcher) (cv : OpenCV) (R : RandomSources)
    (g : Nat) (t : Template) : Except Fault (Template × Nat) :=
  let cannyPoints := cannyCandidates tm cv t
  let stablePoints := stableCandidates tm cv t
  if ¬ (stablePoints.length > tm.featurePointsCount) then .error .assertion
  else if ¬ (cannyPoints.length > tm.featurePointsCount) then .error .assertion
  else
    let stablePoints := R.shuffle stablePoints
    let cannyPoints := R.shuffle cannyPoints
    .ok (pickPoints R stablePoints cannyPoints tm.featurePointsCount g t)

/-- The loop over the templates of one group (line 34). -/
def generateTemplatesPoints (tm : TemplateMatcher) (cv : OpenCV) (R : RandomSources) :
    Nat → List Template → Except Fault (List Template × Nat)
  | g, [] => .ok ([], g)
  | g, t :: ts =>
    match generateTemplatePoints tm cv R g t with
    | .error e => .error e
    | .ok (t', g') =>
      match generateTemplatesPoints tm cv R g' ts with
      | .error e => .error e
      | .ok (ts', g'') => .ok (t' :: ts', g'')

/-- Transcription of `TemplateMatcher::generateFeaturePoints`: the groups after the call
and the state in which the generator of `Triplet::random` is left. -/
def generateFeaturePoints (tm : TemplateMatcher) (cv : OpenCV) (R : RandomSources) :
    Nat → List TemplateGroup → Except Fault (List TemplateGroup × Nat)
  | g, [] => .ok ([], g)
  | g, group :: groups =>
    match generateTemplatesPoints tm cv R g group.templates with
    | .error e => .error e
    | .ok (ts', g') =>
      match generateFeaturePoints tm cv R g' groups with
      | .error e => .error e
      | .ok (groups', g'') => .ok ({ group with templates := ts' } :: groups', g'')

/-- The `stablePoints` and `edgePoints` lists of every template, group by group. -/
def selectedPoints (groups : List TemplateGroup) : List (List (List Point × List Point)) :=
  groups.map (fun group => group.templates.map (fun t => (t.stablePoints, t.edgePoints)))

/-- The point-count precondition asserted at lines 65-66. -/
def enoughPoints (tm : TemplateMatcher) (cv : OpenCV) (t : Template) : Prop :=
  (stableCandidates tm cv t).length > tm.featurePointsCount ∧
  (cannyCandidates tm cv t).length > tm.featurePointsCount

/-- `Triplet::random` keeps to the range it is given. -/
def RandomInRange (R : RandomSources) : Prop :=
  ∀ (g : Nat) (lo hi : Int), lo ≤ hi →
    lo ≤ (R.random g lo hi).1 ∧ (R.random g lo hi).1 ≤ hi

/-- `std::shuffle` permutes the sequence. -/
def ShufflePermutes (R : RandomSources) : Prop :=
  ∀ v : List Point, (R.shuffle v).Perm v

/-- Sample filters: the 8-bit image is `255 * src` cut to a whole number, blurring
leaves it as it is, every pixel is a Canny edge and the Sobel response is 0. -/
def sampleOpenCV : OpenCV :=
  { convertScaleAbs := fun m alpha y x => floatToUInt (alpha * m.px y x)
    blur := fun m => m.px
    Canny := fun _ _ _ _ _ => 255
    Sobel := fun _ _ _ _ _ => 0
    addWeighted := fun _ _ _ _ => 0 }

/-- Sample configuration with the given feature-point count. -/
def sampleMatcher (featurePointsCount : Nat) : TemplateMatcher :=
  ⟨featurePointsCount, 100, 200, 50, 50⟩

/-- Sample template: one row of `cols` bright pixels, no points chosen yet; the depth
image is 2 by 2 with the raw value 32768 everywhere and the bounding box covers it. -/
def sampleTemplate (cols : Nat) : Template :=
  ⟨⟨1, cols, fun _ _ => 1⟩, [], [], ⟨2, 2, fun _ _ => 32768⟩, ⟨0, 0, 2, 2⟩⟩

/-- Sample random sources: the shuffle reverses the sequence, and the generator is a
counter whose draw is `min + state mod (max - min + 1)`, always within `[min, max]`. -/
def sampleRandom : RandomSources :=
  { shuffle := List.reverse
    random := fun g lo hi => (lo + (g : Int) % (hi - lo + 1), g + 1) }

/-- Sample random sources whose generator always draws `min`. -/
def sampleRandomMin : RandomSources :=
  { shuffle := List.reverse
    random := fun g lo _ => (lo, g + 1) }

/-- The first `n` calls of `Triplet::random` return the same values from the generator
states `g1` and `g2`, whatever ranges they are asked for. -/
def SameDraws (R : RandomSources) : Nat → Nat → Nat → Prop
  | 0, _, _ => True
  | n + 1, g1, g2 =>
    ∀ lo hi : Int, (R.random g1 lo hi).1 = (R.random g2 lo hi).1 ∧
      SameDraws R n (R.random g1 lo hi).2 (R.random g2 lo hi).2

/-- Modelled from the spec: the generator behind `Triplet::random` (`core/triplet.h` and
its implementation are not among the sources). The specification has the points chosen
"using a reproducible random sequence (fixed seed)": two runs, whose generators start in
the states `g1` and `g2`, are handed the same sequence of values, call by call. Two runs
that start from the same state (the fixed seed) are the case `g1 = g2`. -/
def ReproducibleSequence (R : RandomSources) (g1 g2 : Nat) : Prop :=
  ∀ n, SameDraws R n g1 g2

/-- Sample random sources whose draws depend on the generator state: the shuffle reverses
the sequence, and the generator is a counter whose draw is
`min + (state mod 4) mod (max - min + 1)`, so that its sequence has period 4. -/
def sampleRandomCycle : RandomSources :=
  { shuffle := List.reverse
    random := fun g lo hi => (lo + ((g % 4 : Nat) : Int) % (hi - lo + 1), g + 1) }

/-! ## Min-edgel extraction (`Objectness::extractMinEdgels`, `objectness.cpp` lines 9-32) -/

/-- Call `src.convertTo(dst, CV_32F, alpha)`: every element scaled by `alpha`. -/
def convertTo (src : Mat ℚ) (alpha : ℚ) : Mat ℚ :=
  ⟨src.rows, src.cols, fun r c => src.px r c * alpha⟩

/-- Submatrix `m(roi)`; OpenCV raises an error when `roi` is not inside `m`. -/
def Mat.roi (m : Mat ℚ) (roi : Rect) : Option (Mat ℚ) :=
  if roi.x + roi.width ≤ m.cols ∧ roi.y + roi.height ≤ m.rows then
    some ⟨roi.height, roi.width, fun r c => m.px (roi.y + r) (roi.x + c)⟩
  else none

/-- The image `tNorm` of lines 18-19: the depth scaled into `[0, 1)` and cropped to the
bounding box. -/
def normalizedCrop (t : Template) : Option (Mat ℚ) :=
  (convertTo t.srcDepth (1 / 65536)).roi t.objBB

/-- Lines 18-26 for one template: the value assigned to `edgels`. The thresholded
Sobel response `tSobel` is computed at lines 21-22; the integral image of line 25 is
taken of `tNorm`. -/
def templateEdgels (P : Processing) (t : Template) : Except Fault Int :=
  match normalizedCrop t with
  | none => .error .outOfBounds
  | some tNorm =>
    let _tSobel := sobelMask P tNorm
    let tIntegral := integral tNorm
    match tIntegral.at? (tIntegral.rows - 1) (tIntegral.cols - 1) with
    | none => .error .outOfBounds
    | some v => .ok (truncToInt v)

/-- The loop of lines 16-31 over the remaining templates. -/
def extractMinEdgelsLoop (P : Processing) :
    ClassifierCriteria → List Template → Except Fault ClassifierCriteria
  | criteria, [] => .ok criteria
  | criteria, t :: templates =>
    match templateEdgels P t with
    | .error e => .error e
    | .ok edgels =>
      extractMinEdgelsLoop P
        (if edgels < criteria.info.minEdgels then
          { criteria with info := { criteria.info with minEdgels := edgels } }
        else criteria)
        templates

/-- Transcription of `Objectness::extractMinEdgels`: the criteria after the call. -/
def extractMinEdgels (P : Processing) (criteria : ClassifierCriteria)
    (templates : List Template) : Except Fault ClassifierCriteria :=
  if templates.isEmpty then .error .assertion
  else extractMinEdgelsLoop P criteria templates

/-- The number of edgels in the bounding box in the words of the specification: the
sum, over the bounding box, of the thresholded Sobel edge mask of the normalized
depth. -/
def boundingBoxEdgels (P : Processing) (t : Template) : Option ℚ :=
  match normalizedCrop t with
  | none => none
  | some tNorm => some (windowSum (sobelMask P tNorm) 0 0 tNorm.cols tNorm.rows)

/-- Sample filters: the Sobel response is the sum of the absolute central differences
in both axes, and the threshold marks the responses within `[min, max]` with 1. -/
def gradientProcessing : Processing :=
  { filterSobel := fun m _ _ y x =>
      |m.px y (x + 1) - m.px y (x - 1)| + |m.px (y + 1) x - m.px (y - 1) x|
    thresholdMinMax := fun m lo hi y x => if lo ≤ m.px y x ∧ m.px y x ≤ hi then 1 else 0 }

/-! ## Template-matcher setters and matching (`template_matcher.cpp` lines 16-19, 152-199) -/

deriving instance DecidableEq for TemplateMatcher

/-- Transcription of `TemplateMatcher::getFeaturePointsCount`. -/
def TemplateMatcher.getFeaturePointsCount (tm : TemplateMatcher) : Nat :=
  tm.featurePointsCount

/-- Transcription of `TemplateMatcher::getCannyThreshold1`. -/
def TemplateMatcher.getCannyThreshold1 (tm : TemplateMatcher) : Nat :=
  tm.cannyThreshold1

/-- Transcription of `TemplateMatcher::getCannyThreshold2`. -/
def TemplateMatcher.getCannyThreshold2 (tm : TemplateMatcher) : Nat :=
  tm.cannyThreshold2

/-- Transcription of `TemplateMatcher::getSobelMaxThreshold`. -/
def TemplateMatcher.getSobelMaxThreshold (tm : TemplateMatcher) : Nat :=
  tm.sobelMaxThreshold

/-- Transcription of `TemplateMatcher::getGrayscaleMinThreshold`. -/
def TemplateMatcher.getGrayscaleMinThreshold (tm : TemplateMatcher) : Nat :=
  tm.grayscaleMinThreshold

/-- Transcription of `TemplateMatcher::setFeaturePointsCount`; the assertion is on the
argument, which hides the member of the same name. -/
def TemplateMatcher.setFeaturePointsCount (tm : TemplateMatcher) (featurePointsCount : Nat) :
    Except Fault TemplateMatcher :=
  if ¬ (featurePointsCount > 0) then .error .assertion
  else .ok { tm with featurePointsCount := featurePointsCount }

/-- Transcription of `TemplateMatcher::setCannyThreshold1`; both assertions are on the
member `featurePointsCount`. -/
def TemplateMatcher.setCannyThreshold1 (tm : TemplateMatcher) (cannyThreshold1 : Nat) :
    Except Fault TemplateMatcher :=
  if ¬ (tm.featurePointsCount > 0) then .error .assertion
  else if ¬ (tm.featurePointsCount < 256) then .error .assertion
  else .ok { tm with cannyThreshold1 := cannyThreshold1 }

/-- Transcription of `TemplateMatcher::setCannyThreshold2`. -/
def TemplateMatcher.setCannyThreshold2 (tm : TemplateMatcher) (cannyThreshold2 : Nat) :
    Except Fault TemplateMatcher :=
  if ¬ (tm.featurePointsCount > 0) then .error .assertion
  else if ¬ (tm.featurePointsCount < 256) then .error .assertion
  else .ok { tm with cannyThreshold2 := cannyThreshold2 }

/-- Transcription of `TemplateMatcher::setSobelMaxThreshold`. -/
def TemplateMatcher.setSobelMaxThreshold (tm : TemplateMatcher) (sobelMaxThreshold : Nat) :
    Except Fault TemplateMatcher :=
  if ¬ (tm.featurePointsCount > 0) then .error .assertion
  else if ¬ (tm.featurePointsCount < 256) then .error .assertion
  else .ok { tm with sobelMaxThreshold := sobelMaxThreshold }

/-- Transcription of `TemplateMatcher::setGrayscaleMinThreshold`. -/
def TemplateMatcher.setGrayscaleMinThreshold (tm : TemplateMatcher)
    (grayscaleMinThreshold : Nat) : Except Fault TemplateMatcher :=
  if ¬ (tm.featurePointsCount > 0) then .error .assertion
  else if ¬ (tm.featurePointsCount < 256) then .error .assertion
  else .ok { tm with grayscaleMinThreshold := grayscaleMinThreshold }

/-- Colour pixel (`cv::Vec3b`). -/
abbrev Color := Nat × Nat × Nat

/-- Verified detection (`TemplateMatch`, declared in a header that is not among the
sources); the classifier reads its bounding box. -/
structure TemplateMatch where
  objBB : Rect
  deriving DecidableEq, Repr

/-- Transcription of `TemplateMatcher::match`, whose body is empty: the two vectors
passed by reference, as they are after the call. -/
def TemplateMatcher.«match» (_tm : TemplateMatcher) (_srcColor : Mat Color)
    (_srcGrayscale _srcDepth : Mat ℚ) (windows : List Window)
    («matches» : List TemplateMatch) : List Window × List TemplateMatch :=
  (windows, «matches»)

/-! ## Classifier (`src/objdetect/classifier.cpp`) -/

/-- Hash table of the hasher (`hash_table.h` is not among the sources): buckets of
template handles under a key. -/
structure HashTable where
  buckets : List (Nat × List Nat)

/-- State of a `Classifier`, with the two pieces of process state its methods touch:
the generator behind `Triplet::random` and the text written to `std::cout` (one entry
per output statement, its leading literal). -/
structure Classifier where
  basePath : String
  templateFolders : List String
  scenePath : String
  sceneName : String
  templateMatcher : TemplateMatcher
  templateGroups : List TemplateGroup
  info : DataSetInfo
  hashTables : List HashTable
  scene : Mat Color
  sceneHSV : Mat Color
  sceneGray : Mat ℚ
  sceneDepth : Mat ℚ
  sceneDepthNorm : Mat ℚ
  windows : List Window
  «matches» : List TemplateMatch
  generator : Nat
  cout : List String

/-- What `Classifier` calls outside `classifier.cpp` and `template_matcher.cpp`: OpenCV
image input and colour conversion, and the methods of its members `parser`,
`objectness` and `hasher` in the overloads used here, whose definitions are not among
the sources. Each takes the arguments passed by reference and yields them as they are
after the call, or a fault. `extractGradientOrientations` stands for the method of
`template_matcher.cpp`, which stores into `Template::features` (`template.h`) through
`Hasher` (`hasher.h`). -/
structure Members where
  cv : OpenCV
  random : RandomSources
  imreadColor : String → Mat Color
  imreadDepth : String → Mat ℚ
  bgr2hsv : Color → Color
  bgr2gray : Color → ℚ
  parse : String → List String → List TemplateGroup → DataSetInfo →
    Except Fault (List TemplateGroup × DataSetInfo)
  extractMinEdgels : List TemplateGroup → DataSetInfo →
    Except Fault (List TemplateGroup × DataSetInfo)
  hasherTrain : List TemplateGroup → List HashTable → DataSetInfo → Nat →
    Except Fault (List TemplateGroup × List HashTable × DataSetInfo × Nat)
  extractGradientOrientations : List TemplateGroup → Except Fault (List TemplateGroup)
  objectness : Mat ℚ → List Window → DataSetInfo → Except Fault (List Window × DataSetInfo)
  verifyTemplateCandidates : Mat ℚ → List HashTable → List Window → DataSetInfo →
    Except Fault (List HashTable × List Window × DataSetInfo)

/-- Outcome of a method call: the state reached and, when the call did not return
normally, the fault that stopped it in that state. -/
structure Run (σ : Type) where
  state : σ
  fault : Option Fault

/-- Sequencing of two calls: the second runs only if the first returned normally. -/
def Run.andThen {σ : Type} (r : Run σ) (next : σ → Run σ) : Run σ :=
  match r.fault with
  | none => next r.state
  | some _ => r

/-- The path ends with a slash (`path[path.length() - 1] == '/'`). -/
def endsWithSlash (path : String) : Bool :=
  path.data.getLast? == some '/'

/-- Transcription of `TemplateMatcher::train`. -/
def TemplateMatcher.train (tm : TemplateMatcher) (M : Members) (g : Nat)
    (groups : List TemplateGroup) : Except Fault (List TemplateGroup × Nat) :=
  match generateFeaturePoints tm M.cv M.random g groups with
  | .error e => .error e
  | .ok (groups, g) =>
    match M.extractGradientOrientations groups with
    | .error e => .error e
    | .ok groups => .ok (groups, g)

/-- Transcription of `Classifier::setBasePath`. -/
def Classifier.setBasePath (c : Classifier) (basePath : String) : Except Fault Classifier :=
  if ¬ (basePath.length > 0) then .error .assertion
  else if ¬ (endsWithSlash basePath = true) then .error .assertion
  else .ok { c with basePath := basePath }

/-- Transcription of `Classifier::setScenePath`. -/
def Classifier.setScenePath (c : Classifier) (scenePath : String) : Except Fault Classifier :=
  if ¬ (scenePath.length > 0) then .error .assertion
  else if ¬ (endsWithSlash scenePath = true) then .error .assertion
  else .ok { c with scenePath := scenePath }

/-- Transcription of `Classifier::setSceneName`. -/
def Classifier.setSceneName (c : Classifier) (sceneName : String) : Except Fault Classifier :=
  if ¬ (sceneName.length > 0) then .error .assertion
  else .ok { c with sceneName := sceneName }

/-- Transcription of `Classifier::setTemplateFolders`. -/
def Classifier.setTemplateFolders (c : Classifier) (templateFolders : List String) :
    Except Fault Classifier :=
  if ¬ (templateFolders.length > 0) then .error .assertion
  else .ok { c with templateFolders := templateFolders }

/-- Transcription of `Classifier::setTemplateGroups`. -/
def Classifier.setTemplateGroups (c : Classifier) (templateGroups : List TemplateGroup) :
    Except Fault Classifier :=
  if ¬ (templateGroups.length > 0) then .error .assertion
  else .ok { c with templateGroups := templateGroups }

/-- Transcription of `Classifier::setScene`. -/
def Classifier.setScene (c : Classifier) (scene : Mat Color) : Except Fault Classifier :=
  if scene.empty then .error .assertion
  else .ok { c with scene := scene }

/-- Transcription of `Classifier::setSceneDepth`. -/
def Classifier.setSceneDepth (c : Classifier) (sceneDepth : Mat ℚ) : Except Fault Classifier :=
  if sceneDepth.empty then .error .assertion
  else .ok { c with sceneDepth := sceneDepth }

/-- The template-matcher settings made by the constructor (lines 30-37). -/
def initTemplateMatcher (tm : TemplateMatcher) : Except Fault TemplateMatcher :=
  match tm.setFeaturePointsCount 100 with
  | .error e => .error e
  | .ok tm =>
    match tm.setCannyThreshold1 100 with
    | .error e => .error e
    | .ok tm =>
      match tm.setCannyThreshold2 200 with
      | .error e => .error e
      | .ok tm =>
        match tm.setSobelMaxThreshold 50 with
        | .error e => .error e
        | .ok tm => tm.setGrayscaleMinThreshold 50

/-- Transcription of the constructor `Classifier::Classifier`, run on the object `c` as
its members are default-initialised. -/
def Classifier.init (c : Classifier) (basePath : String) (templateFolders : List String)
    (scenePath sceneName : String) : Except Fault Classifier :=
  match c.setBasePath basePath with
  | .error e => .error e
  | .ok c =>
    match c.setTemplateFolders templateFolders with
    | .error e => .error e
    | .ok c =>
      match c.setScenePath scenePath with
      | .error e => .error e
      | .ok c =>
        match c.setSceneName sceneName with
        | .error e => .error e
        | .ok c =>
          match initTemplateMatcher c.templateMatcher with
          | .error e => .error e
          | .ok tm => .ok { c with templateMatcher := tm }

/-- Transcription of `Classifier::loadScene`. -/
def Classifier.loadScene (M : Members) (c : Classifier) : Run Classifier :=
  if ¬ (c.basePath.length > 0) then ⟨c, some .assertion⟩
  else if ¬ (endsWithSlash c.basePath = true) then ⟨c, some .assertion⟩
  else if ¬ (c.scenePath.length > 0) then ⟨c, some .assertion⟩
  else if ¬ (endsWithSlash c.scenePath = true) then ⟨c, some .assertion⟩
  else if ¬ (c.sceneName.length > 0) then ⟨c, some .assertion⟩
  else
    let c := { c with cout := c.cout ++ ["Loading scene... "] }
    match c.setScene (M.imreadColor (c.basePath ++ c.scenePath ++ "rgb/" ++ c.sceneName)) with
    | .error e => ⟨c, some e⟩
    | .ok c =>
      match c.setSceneDepth
          (M.imreadDepth (c.basePath ++ c.scenePath ++ "depth/" ++ c.sceneName)) with
      | .error e => ⟨c, some e⟩
      | .ok c =>
        let c := { c with
          sceneHSV := ⟨c.scene.rows, c.scene.cols, fun y x => M.bgr2hsv (c.scene.px y x)⟩ }
        let c := { c with
          sceneGray := ⟨c.scene.rows, c.scene.cols, fun y x => M.bgr2gray (c.scene.px y x)⟩ }
        let c := { c with sceneGray := convertTo c.sceneGray (1 / 255) }
        let c := { c with sceneDepth := convertTo c.sceneDepth 1 }
        let c := { c with sceneDepthNorm := convertTo c.sceneDepth (1 / 65536) }
        if c.sceneHSV.empty then ⟨c, some .assertion⟩
        else if c.sceneGray.empty then ⟨c, some .assertion⟩
        else if c.sceneDepthNorm.empty then ⟨c, some .assertion⟩
        else ⟨{ c with cout := c.cout ++ ["DONE!"] }, none⟩

/-- Transcription of `Classifier::parseTemplates`. -/
def Classifier.parseTemplates (M : Members) (c : Classifier) : Run Classifier :=
  if ¬ (c.basePath.length > 0) then ⟨c, some .assertion⟩
  else if ¬ (c.templateFolders.length > 0) then ⟨c, some .assertion⟩
  else
    let c := { c with cout := c.cout ++ ["Parsing... "] }
    match M.parse c.basePath c.templateFolders c.templateGroups c.info with
    | .error e => ⟨c, some e⟩
    | .ok (templateGroups, info) =>
      let c := { c with templateGroups := templateGroups, info := info }
      if ¬ (c.templateGroups.length > 0) then ⟨c, some .assertion⟩
      else
        ⟨{ c with cout := c.cout ++ ["  |_ Smallest template found: ",
          "  |_ Largest template found: ", "DONE! "] }, none⟩

/-- Transcription of `Classifier::extractMinEdgels`. -/
def Classifier.extractMinEdgels (M : Members) (c : Classifier) : Run Classifier :=
  if ¬ (c.templateGroups.length > 0) then ⟨c, some .assertion⟩
  else
    let c := { c with cout := c.cout ++ ["Extracting min edgels... "] }
    match M.extractMinEdgels c.templateGroups c.info with
    | .error e => ⟨c, some e⟩
    | .ok (templateGroups, info) =>
      ⟨{ c with
          templateGroups := templateGroups
          info := info
          cout := c.cout ++ ["DONE! ", "  |_ Minimum edgels found: "] }, none⟩

/-- Transcription of `Classifier::trainHashTables`. -/
def Classifier.trainHashTables (M : Members) (c : Classifier) : Run Classifier :=
  if ¬ (c.templateGroups.length > 0) then ⟨c, some .assertion⟩
  else
    let c := { c with cout := c.cout ++ ["Training hash tables... "] }
    match M.hasherTrain c.templateGroups c.hashTables c.info c.generator with
    | .error e => ⟨c, some e⟩
    | .ok (templateGroups, hashTables, info, generator) =>
      let c := { c with
        templateGroups := templateGroups
        hashTables := hashTables
        info := info
        generator := generator }
      if ¬ (c.hashTables.length > 0) then ⟨c, some .assertion⟩
      else ⟨{ c with cout := c.cout ++ ["DONE! took: "] }, none⟩

/-- Transcription of `Classifier::trainTemplates`. -/
def Classifier.trainTemplates (M : Members) (c : Classifier) : Run Classifier :=
  if ¬ (c.templateGroups.length > 0) then ⟨c, some .assertion⟩
  else
    let c := { c with cout := c.cout ++ ["Training templates for template matching... "] }
    match c.templateMatcher.train M c.generator c.templateGroups with
    | .error e => ⟨c, some e⟩
    | .ok (templateGroups, generator) =>
      ⟨{ c with
          templateGroups := templateGroups
          generator := generator
          cout := c.cout ++ ["DONE! took: "] }, none⟩

/-- Transcription of `Classifier::detectObjectness`. -/
def Classifier.detectObjectness (M : Members) (c : Classifier) : Run Classifier :=
  if ¬ (c.info.smallestTemplate.area > 0) then ⟨c, some .assertion⟩
  else if ¬ (c.info.minEdgels > 0) then ⟨c, some .assertion⟩
  else
    let c := { c with cout := c.cout ++ ["Objectness detection started... "] }
    match M.objectness c.sceneDepthNorm c.windows c.info with
    | .error e => ⟨c, some e⟩
    | .ok (windows, info) =>
      ⟨{ c with
          windows := windows
          info := info
          cout := c.cout ++ ["  |_ Windows classified as containing object extracted: ",
            "DONE! took: "] }, none⟩

/-- Transcription of `Classifier::verifyTemplateCandidates`. -/
def Classifier.verifyTemplateCandidates (M : Members) (c : Classifier) : Run Classifier :=
  if ¬ (c.hashTables.length > 0) then ⟨c, some .assertion⟩
  else
    let c := { c with cout := c.cout
      ++ ["Verification of template candidates, using trained HashTables started... "] }
    match M.verifyTemplateCandidates c.sceneDepth c.hashTables c.windows c.info with
    | .error e => ⟨c, some e⟩
    | .ok (hashTables, windows, info) =>
      ⟨{ c with
          hashTables := hashTables
          windows := windows
          info := info
          cout := c.cout ++ ["DONE! took: "] }, none⟩

/-- Transcription of `Classifier::matchTemplates`. -/
def Classifier.matchTemplates (c : Classifier) : Run Classifier :=
  if ¬ (c.windows.length > 0) then ⟨c, some .assertion⟩
  else
    let c := { c with cout := c.cout ++ ["Template matching started... "] }
    let r := c.templateMatcher.«match» c.sceneHSV c.sceneGray c.sceneDepth c.windows c.«matches»
    ⟨{ c with
        windows := r.1
        «matches» := r.2
        cout := c.cout ++ ["Template matching took: ", "SIZE: ", "Classification took: "] },
      none⟩

/-- Transcription of `Classifier::classify`. -/
def Classifier.classify (M : Members) (c : Classifier) : Run Classifier :=
  (((((((Classifier.loadScene M c).andThen (Classifier.parseTemplates M)).andThen
    (Classifier.extractMinEdgels M)).andThen (Classifier.trainHashTables M)).andThen
    (Classifier.trainTemplates M)).andThen (Classifier.detectObjectness M)).andThen
    (Classifier.verifyTemplateCandidates M)).andThen Classifier.matchTemplates

/-! ## Particle fitness (`src/core/particle.cpp`, `Particle::objFun`) -/

/-- Value of a `float` in `Particle::objFun`: a number, or `none` for NaN. Every
operation on a NaN gives NaN and every comparison with a NaN is false. Rounding,
overflow and the infinities are not modelled. -/
abbrev FloatV := Option ℚ

/-- Sum of two `float`s. -/
def FloatV.add (a b : FloatV) : FloatV :=
  match a, b with
  | some x, some y => some (x + y)
  | _, _ => none

/-- Difference of two `float`s. -/
def FloatV.sub (a b : FloatV) : FloatV :=
  match a, b with
  | some x, some y => some (x - y)
  | _, _ => none

/-- Product of two `float`s. -/
def FloatV.mul (a b : FloatV) : FloatV :=
  match a, b with
  | some x, some y => some (x * y)
  | _, _ => none

/-- Quotient of two `float`s. -/
def FloatV.div (a b : FloatV) : FloatV :=
  match a, b with
  | some x, some y => some (x / y)
  | _, _ => none

/-- Negation of a `float`. -/
def FloatV.neg (a : FloatV) : FloatV :=
  a.map (fun x => -x)

/-- Call `std::abs(a)`. -/
def FloatV.abs (a : FloatV) : FloatV :=
  a.map (fun x => |x|)

/-- Comparison `a > b`. -/
def FloatV.gt (a b : FloatV) : Bool :=
  match a, b with
  | some x, some y => decide (x > y)
  | _, _ => false

/-- Call `std::isnan(a)`. -/
def FloatV.isnan (a : FloatV) : Bool :=
  a.isNone

/-- Element of a normal map (`cv::Vec3f`). -/
structure Vec3f where
  x : FloatV
  y : FloatV
  z : FloatV

/-- Dot product `a.dot(b)`. -/
def Vec3f.dot (a b : Vec3f) : FloatV :=
  ((a.x.mul b.x).add (a.y.mul b.y)).add (a.z.mul b.z)

/-- The constant `tD` of line 83. -/
def tD : FloatV := some 200

/-- The constant `inf` of line 84, `std::numeric_limits<float>::max()`. -/
def inf : FloatV := some 340282346638528859811704183484516925440

/-- The term added to `sumE` at line 106 for an edge pixel whose distance-transform
value is `poseT`. -/
def edgeTerm (poseT : FloatV) : FloatV :=
  FloatV.div (some 1) (poseT.add (some 1))

/-- The term added to `sumD` at lines 116-117. -/
def depthTerm (gt pose : FloatV) : FloatV :=
  let dDiff := (gt.sub pose).abs
  if dDiff.gt tD then FloatV.div (some 1) (inf.add (some 1))
  else FloatV.div (some 1) (dDiff.add (some 1))

/-- The term added to `sumU` at lines 121-122. -/
def normalTerm (gtNormal poseNormal : Vec3f) : FloatV :=
  let dot := (gtNormal.dot poseNormal).abs
  if dot.isnan then FloatV.div (some 1) (inf.add (some 1))
  else FloatV.div (some 1) (dot.add (some 1))

/-- The three accumulators of `objFun`. -/
structure Sums where
  sumD : FloatV
  sumU : FloatV
  sumE : FloatV

/-- Body of the loops of lines 102-125 at pixel `(x, y)`; the writes to the local
images `matD`, `matE`, `matU`, which are never read, are left out. -/
def objFunPixel (gt : Mat FloatV) (gtNormals : Mat Vec3f) (gtEdges : Mat Nat)
    (pose : Mat FloatV) (poseNormals : Mat Vec3f) (poseT : Mat FloatV)
    (s : Sums) (y x : Nat) : Sums :=
  let sumE := if gtEdges.px y x > 0 then s.sumE.add (edgeTerm (poseT.px y x)) else s.sumE
  let sumD := s.sumD.add (depthTerm (gt.px y x) (pose.px y x))
  let sumU := s.sumU.add (normalTerm (gtNormals.px y x) (poseNormals.px y x))
  ⟨sumD, sumU, sumE⟩

/-- The accumulators after the loops of lines 102-125. -/
def objFunSums (gt : Mat FloatV) (gtNormals : Mat Vec3f) (gtEdges : Mat Nat)
    (pose : Mat FloatV) (poseNormals : Mat Vec3f) (poseT : Mat FloatV) : Sums :=
  (List.range gt.rows).foldl
    (fun s y => (List.range gt.cols).foldl
      (fun s x => objFunPixel gt gtNormals gtEdges pose poseNormals poseT s y x) s)
    ⟨some 0, some 0, some 0⟩

/-- Transcription of `Particle::objFun`. `edgeDistance pose` is the image `poseT` of lines
87-91 (`cv::Laplacian`, `cv::threshold`, `convertTo`, `cv::distanceTransform`), of the
geometry of `pose`. -/
def objFun (edgeDistance : Mat FloatV → Nat → Nat → FloatV) (gt : Mat FloatV)
    (gtNormals : Mat Vec3f) (gtEdges : Mat Nat) (pose : Mat FloatV)
    (poseNormals : Mat Vec3f) : FloatV :=
  let poseT : Mat FloatV := ⟨pose.rows, pose.cols, edgeDistance pose⟩
  let s := objFunSums gt gtNormals gtEdges pose poseNormals poseT
  (s.sumD.neg.mul (some 1)).mul s.sumE

/-! ## Sample inputs for the classifier and the particle -/

/-- Sample collaborators: every image read is one black pixel, the parser finds no
template, and the other member calls leave their arguments as they are. -/
def sampleMembers : Members :=
  { cv := sampleOpenCV
    random := sampleRandom
    imreadColor := fun _ => ⟨1, 1, fun _ _ => (0, 0, 0)⟩
    imreadDepth := fun _ => ⟨1, 1, fun _ _ => 0⟩
    bgr2hsv := fun p => p
    bgr2gray := fun p => (p.1 : ℚ)
    parse := fun _ _ _ info => .ok ([], info)
    extractMinEdgels := fun groups info => .ok (groups, info)
    hasherTrain := fun groups tables info g => .ok (groups, tables, info, g)
    extractGradientOrientations := fun groups => .ok groups
    objectness := fun _ windows info => .ok (windows, info)
    verifyTemplateCandidates := fun _ tables windows info => .ok (tables, windows, info) }

/-- Sample classifier object before its constructor runs: nothing loaded, nothing
printed. -/
def blankClassifier : Classifier :=
  { basePath := ""
    templateFolders := []
    scenePath := ""
    sceneName := ""
    templateMatcher := ⟨0, 0, 0, 0, 0⟩
    templateGroups := []
    info := ⟨⟨0, 0⟩, 0⟩
    hashTables := []
    scene := ⟨0, 0, fun _ _ => (0, 0, 0)⟩
    sceneHSV := ⟨0, 0, fun _ _ => (0, 0, 0)⟩
    sceneGray := ⟨0, 0, fun _ _ => 0⟩
    sceneDepth := ⟨0, 0, fun _ _ => 0⟩
    sceneDepthNorm := ⟨0, 0, fun _ _ => 0⟩
    windows := []
    «matches» := []
    generator := 0
    cout := [] }

/-- Sample classifier as the constructor leaves it for the base path `data/`, the one
template folder `01`, the scene path `scene/` and the scene name `0000.png`. -/
def sampleClassifier : Classifier :=
  { blankClassifier with
    basePath := "data/"
    templateFolders := ["01"]
    scenePath := "scene/"
    sceneName := "0000.png"
    templateMatcher := ⟨100, 100, 200, 50, 50⟩ }

/-- Sample depth image: one row with the two values `a` and `b`. -/
def sampleDepthRow (a b : ℚ) : Mat FloatV :=
  ⟨1, 2, fun _ x => if x = 0 then some a else some b⟩

/-- Sample normal map: every component of every normal is NaN. -/
def nanNormals : Mat Vec3f :=
  ⟨1, 2, fun _ _ => ⟨none, none, none⟩⟩

/-- Sample normal map: every normal is the unit vector along the third axis. -/
def unitNormals : Mat Vec3f :=
  ⟨1, 2, fun _ _ => ⟨some 0, some 0, some 1⟩⟩

/-- Sample edge image: the first pixel of the row is an edge pixel. -/
def sampleEdgeRow : Mat Nat :=
  ⟨1, 2, fun _ x => if x = 0 then 255 else 0⟩

/-! ## Positions of the sliding-window scan -/

/-- Positions `(x, y)` at which the body of the inner loop of `Objectness::objectness`
(lines 60-70) runs, in the order in which it runs there, when the stride is at
least 1. -/
def visitedPositions (criteria : ClassifierCriteria) (sSobel : Mat ℚ) : List (Nat × Nat) :=
  (stridePositions criteria.windowStep
    (sSobel.rows - criteria.info.smallestTemplate.height) 0).flatMap
    (fun y => (stridePositions criteria.windowStep
      (sSobel.cols - criteria.info.smallestTemplate.width) 0).map (fun x => (x, y)))

/-- The number of scan positions in the words of the claim:
`ceil(max(0, rows - sizeY) / windowStep) * ceil(max(0, cols - sizeX) / windowStep)`. -/
def referencePositionCount (criteria : ClassifierCriteria) (scene : Mat ℚ) : Int :=
  ⌈((max 0 ((scene.rows : Int) - (criteria.info.smallestTemplate.height : Int)) : Int) : ℚ)
      / (criteria.windowStep : ℚ)⌉
    * ⌈((max 0 ((scene.cols : Int) - (criteria.info.smallestTemplate.width : Int)) : Int) : ℚ)
      / (criteria.windowStep : ℚ)⌉

/-- Row-major order of two windows: strictly increasing `(y, x)`. -/
def Window.before (a b : Window) : Prop :=
  a.y < b.y ∨ (a.y = b.y ∧ a.x < b.x)

/-! ## Particle swarm step (`src/core/particle.cpp`, `Particle::progress`) -/

/-- Personal best of a particle, as `Particle::updatePBest` stores it (`particle.h` is not
among the sources): velocity, pose and fitness. -/
structure PBest where
  v : Nat → ℚ
  pose : Nat → ℚ
  fitness : FloatV

/-- The fields of `Particle` used by `Particle::progress`: `v` and `pose` are the arrays
`float v[6]`, `float pose[6]` (index below 6). -/
structure Particle where
  v : Nat → ℚ
  pose : Nat → ℚ
  fitness : FloatV
  pBest : PBest

/-- Transcription of `Particle::velocity`. -/
def Particle.velocity (w v x pBest gBest c1 c2 r1 r2 : ℚ) : ℚ :=
  w * v + (c1 * r1) * (pBest - x) + (c2 * r2) * (gBest - x)

/-- The `k`-th value (from 0) that `Particle::nextR` returns when its generator is in state
`g` before the first call; `nextR g` is the value drawn in state `g` and the state
after the draw. -/
def drawn (nextR : Nat → ℚ × Nat) : Nat → Nat → ℚ
  | g, 0 => (nextR g).1
  | g, k + 1 => drawn nextR (nextR g).2 k

/-- The generator state after `k` calls of `Particle::nextR` from state `g`. -/
def stateAfter (nextR : Nat → ℚ × Nat) : Nat → Nat → Nat
  | g, 0 => g
  | g, k + 1 => stateAfter nextR (nextR g).2 k

/-- What a call of `Particle::progress` can read and write: the `Particle` objects by
address (`this` and the reference `gBest` are addresses, which may be the same), the
state of the static generator of `Particle::nextR`, and the numbers written to
`std::cout`. -/
structure Swarm where
  particles : Nat → Particle
  gen : Nat
  cout : List ℚ

/-- The assignment `v[i] = velocity(w, v[i], pose[i], pBest.pose[i], gBest.pose[i], c1, c2,
nextR(), nextR())` of lines 62 and 65. C++ leaves open which of the two `nextR()`
arguments is evaluated first; `leftFirst` tells. -/
def Particle.updateVelocity (nextR : Nat → ℚ × Nat) (leftFirst : Bool) (this gBest : Nat)
    (w c1 c2 : ℚ) (s : Swarm) (i : Nat) : Swarm :=
  let p := s.particles this
  let a := nextR s.gen
  let b := nextR a.2
  let r1 := if leftFirst then a.1 else b.1
  let r2 := if leftFirst then b.1 else a.1
  { s with
    particles := Function.update s.particles this
      { p with
        v := Function.update p.v i
          (Particle.velocity w (p.v i) (p.pose i) (p.pBest.pose i)
            ((s.particles gBest).pose i) c1 c2 r1 r2) }
    gen := b.2 }

/-- The assignment `pose[i] = v[i] + pose[i]` of line 70. -/
def Particle.updatePose (this : Nat) (s : Swarm) (i : Nat) : Swarm :=
  let p := s.particles this
  { s with
    particles := Function.update s.particles this
      { p with pose := Function.update p.pose i (p.v i + p.pose i) } }

/-- The statement `if (std::abs(v[i]) > 1) std::cout << v[i] << std::endl` of lines
74-76. -/
def Particle.report (this : Nat) (s : Swarm) (i : Nat) : Swarm :=
  if |(s.particles this).v i| > 1 then
    { s with cout := s.cout ++ [(s.particles this).v i] }
  else s

/-- Transcription of `Particle::progress`, called on the object at address `this` with
the reference `gBest` bound to the object at address `gBest`. The literal `0.96f` is
taken as 96/100. -/
def Particle.progress (nextR : Nat → ℚ × Nat) (leftFirst : Bool) (this gBest : Nat)
    (w c1 c2 : ℚ) (s : Swarm) : Swarm :=
  let s := [0, 1, 2].foldl (Particle.updateVelocity nextR leftFirst this gBest w c1 c2) s
  let s := [3, 4, 5].foldl
    (Particle.updateVelocity nextR leftFirst this gBest (96 / 100) c1 c2) s
  let s := [0, 1, 2, 3, 4, 5].foldl (Particle.updatePose this) s
  [3, 4, 5].foldl (Particle.report this) s

/-- Sample generator: a counter whose `k`-th draw is `(k mod 4) / 4`. -/
def sampleNextR (g : Nat) : ℚ × Nat :=
  (((g % 4 : Nat) : ℚ) / 4, g + 1)

/-- Sample particle: velocity `i + 1` and pose `10 i` in component `i`; its personal best
has pose 10 in component 1 and 0 elsewhere. -/
def sampleParticle : Particle :=
  { v := fun i => (i : ℚ) + 1
    pose := fun i => 10 * (i : ℚ)
    fitness := some 0
    pBest := ⟨fun _ => 0, fun i => if i = 1 then 10 else 0, some 0⟩ }

/-- Sample swarm: `sampleParticle` at address 0 and, at every other address, a resting
particle whose pose is 10 in component 1 and 5 elsewhere; nothing drawn or written
yet. -/
def sampleSwarm : Swarm :=
  { particles := fun a =>
      if a = 0 then sampleParticle
      else ⟨fun _ => 0, fun i => if i = 1 then 10 else 5, some 0,
        ⟨fun _ => 0, fun _ => 5, some 0⟩⟩
    gen := 0
    cout := [] }
/-! # Theorems -/

/-! ### Prefix sums -/

theorem sumBelow_add (n k : Nat) (f : Nat → ℚ) :
    sumBelow (n + k) f = sumBelow n f + sumBelow k (fun i => f (n + i)) := by
  induction k with
  | zero => simp [sumBelow]
  | succ k ih =>
    have e : n + (k + 1) = (n + k) + 1 := rfl
    rw [e]
    simp only [sumBelow]
    rw [ih]
    ring

theorem sumBelow_sub (n : Nat) (f g : Nat → ℚ) :
    sumBelow n (fun i => f i - g i) = sumBelow n f - sumBelow n g := by
  induction n with
  | zero => simp [sumBelow]
  | succ n ih =>
    simp only [sumBelow]
    rw [ih]
    ring

theorem sumBelow_congr (n : Nat) (f g : Nat → ℚ) (h : ∀ i, i < n → f i = g i) :
    sumBelow n f = sumBelow n g := by
  induction n with
  | zero => rfl
  | succ n ih =>
    simp only [sumBelow]
    rw [ih (fun i hi => h i (Nat.lt_succ_of_lt hi)), h n (Nat.lt_succ_self n)]

/-- Inclusion-exclusion over the summed-area table. -/
theorem integral_inclusion_exclusion (m : Mat ℚ) (x y sizeX sizeY : Nat) :
    (integral m).px (y + sizeY) (x + sizeX) - (integral m).px y (x + sizeX)
      - (integral m).px (y + sizeY) x + (integral m).px y x
      = windowSum m x y sizeX sizeY := by
  simp only [integral, windowSum]
  rw [sumBelow_add y sizeY, sumBelow_add y sizeY]
  have h : sumBelow sizeY (fun i => sumBelow sizeX (fun j => m.px (y + i) (x + j)))
      = sumBelow sizeY (fun i => sumBelow (x + sizeX) (fun j => m.px (y + i) j)
          - sumBelow x (fun j => m.px (y + i) j)) := by
    apply sumBelow_congr
    intro i _
    rw [sumBelow_add x sizeX]
    ring
  rw [h, sumBelow_sub]
  ring

theorem fourLookups_eq (m : Mat ℚ) (x y sizeX sizeY : Nat)
    (hx : (x : Int) < (m.cols : Int) - (sizeX : Int))
    (hy : (y : Int) < (m.rows : Int) - (sizeY : Int)) :
    fourLookups (integral m) x y sizeX sizeY = some (windowSum m x y sizeX sizeY) := by
  have h1 : y + sizeY < m.rows + 1 := by omega
  have h2 : x + sizeX < m.cols + 1 := by omega
  have h3 : y < m.rows + 1 := by omega
  have h4 : x < m.cols + 1 := by omega
  have r : (integral m).rows = m.rows + 1 := rfl
  have c : (integral m).cols = m.cols + 1 := rfl
  simp only [fourLookups, Mat.at?, r, c, h1, h2, h3, h4, and_self, if_true]
  rw [integral_inclusion_exclusion]

/-! ### Strided loops -/

theorem tripCount_of_not_lt (step bound start : Nat) (h : ¬ start < bound) :
    tripCount step bound start = 0 := by
  unfold tripCount
  rcases Nat.eq_zero_or_pos step with hs | hs
  · subst hs; simp
  · apply Nat.div_eq_of_lt; omega

theorem tripCount_of_lt (step bound start : Nat) (hs : 1 ≤ step) (h : start < bound) :
    tripCount step bound start = tripCount step bound (start + step) + 1 := by
  unfold tripCount
  have e : bound - start + step - 1 = (bound - start - 1) + step := by omega
  rw [e, Nat.add_div_right _ hs]
  congr 1
  by_cases hb : start + step ≤ bound
  · congr 1; omega
  · rw [Nat.div_eq_of_lt (by omega), Nat.div_eq_of_lt (by omega)]

theorem stridePositions_of_not_lt (step bound start : Nat) (h : ¬ start < bound) :
    stridePositions step bound start = [] := by
  simp [stridePositions, tripCount_of_not_lt step bound start h]

theorem stridePositions_of_lt (step bound start : Nat) (hs : 1 ≤ step) (h : start < bound) :
    stridePositions step bound start = start :: stridePositions step bound (start + step) := by
  unfold stridePositions
  rw [tripCount_of_lt step bound start hs h, List.range_succ_eq_map]
  simp only [List.map_cons, List.map_map, Nat.zero_mul, Nat.add_zero]
  congr 1
  apply List.map_congr_left
  intro k _
  simp only [Function.comp, Nat.succ_mul]
  omega

theorem stridePositions_zero_step (bound start : Nat) :
    stridePositions 0 bound start = [] := by
  simp [stridePositions, tripCount]

theorem mem_stridePositions (step bound v : Nat) (hs : 1 ≤ step) :
    v ∈ stridePositions step bound 0 ↔ step ∣ v ∧ v < bound := by
  unfold stridePositions tripCount
  simp only [List.mem_map, List.mem_range, Nat.zero_add, Nat.sub_zero]
  constructor
  · rintro ⟨k, hk, rfl⟩
    refine ⟨Dvd.intro_left k rfl, ?_⟩
    have h1 : (k + 1) * step ≤ bound + step - 1 := (Nat.le_div_iff_mul_le hs).1 hk
    rw [Nat.succ_mul] at h1
    omega
  · rintro ⟨⟨k, rfl⟩, hv⟩
    refine ⟨k, ?_, Nat.mul_comm k step⟩
    apply (Nat.le_div_iff_mul_le hs).2
    rw [Nat.succ_mul, Nat.mul_comm k step]
    omega

theorem tripCount_le (step bound : Nat) : tripCount step bound 0 ≤ bound := by
  unfold tripCount
  rcases Nat.eq_zero_or_pos step with hs | hs
  · subst hs; simp
  · rcases Nat.eq_zero_or_pos bound with hb | hb
    · subst hb
      rw [Nat.div_eq_of_lt (by omega)]
    · apply Nat.div_le_of_le_mul
      obtain ⟨s, rfl⟩ : ∃ s, step = s + 1 := ⟨step - 1, by omega⟩
      obtain ⟨b, rfl⟩ : ∃ b, bound = b + 1 := ⟨bound - 1, by omega⟩
      have : (s + 1) * (b + 1) = s * b + s + b + 1 := by ring
      omega

/-! ### The scan of `Objectness::objectness` -/

theorem scanRow_eq (criteria : ClassifierCriteria) (m : Mat ℚ) (edgels y : Nat)
    (hs : 1 ≤ criteria.windowStep)
    (hy : (y : Int) < (m.rows : Int) - (criteria.info.smallestTemplate.height : Int)) :
    ∀ (fuel x : Nat) (windows : List Window),
      scanRow criteria m (integral m) edgels y fuel x windows
        = if tripCount criteria.windowStep (m.cols - criteria.info.smallestTemplate.width) x
              ≤ fuel
          then .ok (windows ++ rowWindows criteria m edgels y x)
          else .error .fuel := by
  intro fuel
  induction fuel with
  | zero =>
    intro x windows
    simp only [scanRow]
    by_cases hx : (x : Int) < (m.cols : Int) - (criteria.info.smallestTemplate.width : Int)
    · have hx2 : x < m.cols - criteria.info.smallestTemplate.width := by omega
      rw [if_pos hx, tripCount_of_lt _ _ _ hs hx2]
      simp
    · have hx2 : ¬ x < m.cols - criteria.info.smallestTemplate.width := by omega
      rw [if_neg hx, tripCount_of_not_lt _ _ _ hx2]
      simp [rowWindows, stridePositions_of_not_lt _ _ _ hx2]
  | succ fuel ih =>
    intro x windows
    simp only [scanRow]
    by_cases hx : (x : Int) < (m.cols : Int) - (criteria.info.smallestTemplate.width : Int)
    · have hx2 : x < m.cols - criteria.info.smallestTemplate.width := by omega
      rw [if_pos hx, fourLookups_eq m x y _ _ hx hy]
      simp only [ih]
      rw [tripCount_of_lt _ _ _ hs hx2]
      simp only [Nat.add_le_add_iff_right]
      split
      · congr 1
        simp only [rowWindows, stridePositions_of_lt _ _ _ hs hx2, List.filterMap_cons, windowAt]
        split <;> simp_all
      · rfl
    · have hx2 : ¬ x < m.cols - criteria.info.smallestTemplate.width := by omega
      rw [if_neg hx, tripCount_of_not_lt _ _ _ hx2]
      simp [rowWindows, stridePositions_of_not_lt _ _ _ hx2]

theorem scanRow_zero_step (criteria : ClassifierCriteria) (m : Mat ℚ) (edgels y : Nat)
    (hs : criteria.windowStep = 0)
    (hy : (y : Int) < (m.rows : Int) - (criteria.info.smallestTemplate.height : Int)) :
    ∀ (fuel x : Nat) (windows : List Window),
      scanRow criteria m (integral m) edgels y fuel x windows
        = if (x : Int) < (m.cols : Int) - (criteria.info.smallestTemplate.width : Int)
          then .error .fuel else .ok windows := by
  intro fuel
  induction fuel with
  | zero => intro x windows; simp only [scanRow]
  | succ fuel ih =>
    intro x windows
    simp only [scanRow]
    by_cases hx : (x : Int) < (m.cols : Int) - (criteria.info.smallestTemplate.width : Int)
    · rw [if_pos hx, fourLookups_eq m x y _ _ hx hy]
      simp only [ih, hs, Nat.add_zero, if_pos hx]
    · rw [if_neg hx, if_neg hx]

theorem scanRows_eq (criteria : ClassifierCriteria) (m : Mat ℚ) (edgels budget : Nat)
    (hs : 1 ≤ criteria.windowStep) :
    ∀ (fuel y : Nat) (windows : List Window),
      scanRows criteria m (integral m) edgels budget fuel y windows
        = if tripCount criteria.windowStep (m.rows - criteria.info.smallestTemplate.height) y
              ≤ fuel ∧
            (y < m.rows - criteria.info.smallestTemplate.height →
              tripCount criteria.windowStep (m.cols - criteria.info.smallestTemplate.width) 0
                ≤ budget)
          then .ok (windows ++ scanWindows criteria m edgels y)
          else .error .fuel := by
  intro fuel
  induction fuel with
  | zero =>
    intro y windows
    simp only [scanRows]
    by_cases hy : (y : Int) < (m.rows : Int) - (criteria.info.smallestTemplate.height : Int)
    · have hy2 : y < m.rows - criteria.info.smallestTemplate.height := by omega
      rw [if_pos hy, tripCount_of_lt _ _ _ hs hy2]
      simp
    · have hy2 : ¬ y < m.rows - criteria.info.smallestTemplate.height := by omega
      rw [if_neg hy, tripCount_of_not_lt _ _ _ hy2]
      simp [scanWindows, stridePositions_of_not_lt _ _ _ hy2, hy2]
  | succ fuel ih =>
    intro y windows
    simp only [scanRows]
    by_cases hy : (y : Int) < (m.rows : Int) - (criteria.info.smallestTemplate.height : Int)
    · have hy2 : y < m.rows - criteria.info.smallestTemplate.height := by omega
      rw [if_pos hy, scanRow_eq criteria m edgels y hs hy, tripCount_of_lt _ _ _ hs hy2]
      by_cases hb : tripCount criteria.windowStep
          (m.cols - criteria.info.smallestTemplate.width) 0 ≤ budget
      · rw [if_pos hb]
        simp only [ih, Nat.add_le_add_iff_right, hy2, hb, implies_true, and_true]
        by_cases hf : tripCount criteria.windowStep
            (m.rows - criteria.info.smallestTemplate.height) (y + criteria.windowStep) ≤ fuel
        · rw [if_pos hf, if_pos hf]
          congr 1
          simp only [scanWindows, stridePositions_of_lt _ _ _ hs hy2, List.flatMap_cons,
            List.append_assoc]
        · rw [if_neg hf, if_neg hf]
      · rw [if_neg hb]
        simp [hy2, hb]
    · have hy2 : ¬ y < m.rows - criteria.info.smallestTemplate.height := by omega
      rw [if_neg hy, tripCount_of_not_lt _ _ _ hy2]
      simp [scanWindows, stridePositions_of_not_lt _ _ _ hy2, hy2]

theorem scanRows_zero_step (criteria : ClassifierCriteria) (m : Mat ℚ) (edgels budget : Nat)
    (hs : criteria.windowStep = 0) :
    ∀ (fuel y : Nat) (windows : List Window),
      scanRows criteria m (integral m) edgels budget fuel y windows
        = if (y : Int) < (m.rows : Int) - (criteria.info.smallestTemplate.height : Int)
          then .error .fuel else .ok windows := by
  intro fuel
  induction fuel with
  | zero => intro y windows; simp only [scanRows]
  | succ fuel ih =>
    intro y windows
    simp only [scanRows]
    by_cases hy : (y : Int) < (m.rows : Int) - (criteria.info.smallestTemplate.height : Int)
    · rw [if_pos hy, scanRow_zero_step criteria m edgels y hs hy]
      by_cases hx : ((0 : Nat) : Int)
          < (m.cols : Int) - (criteria.info.smallestTemplate.width : Int)
      · rw [if_pos hx, if_pos hy]
      · rw [if_neg hx]
        simp only [ih, hs, Nat.add_zero, if_pos hy]
    · rw [if_neg hy, if_neg hy]

/-- A scan that returns has appended exactly the windows of `scanWindows`, and
either the stride is positive or no row was entered. -/
theorem objectnessScan_ok (criteria : ClassifierCriteria) (fuel : Nat) (m : Mat ℚ)
    (windows out : List Window)
    (h : objectnessScan criteria fuel m windows = .ok out) :
    out = windows ++ scanWindows criteria m (edgelsThreshold criteria) 0 ∧
    (1 ≤ criteria.windowStep ∨ m.rows ≤ criteria.info.smallestTemplate.height) := by
  unfold objectnessScan at h
  rcases Nat.eq_zero_or_pos criteria.windowStep with hs | hs
  · rw [scanRows_zero_step criteria m _ _ hs] at h
    split at h
    · cases h
    · rename_i hy
      injection h with h
      refine ⟨?_, Or.inr (by omega)⟩
      simp [scanWindows, hs, stridePositions_zero_step, h]
  · rw [scanRows_eq criteria m _ _ hs] at h
    split at h
    · injection h with h
      exact ⟨h.symm, Or.inl hs⟩
    · cases h

/-- With a positive stride and a budget of at least `rows` and `cols`, the scan returns. -/
theorem objectnessScan_of_fuel (criteria : ClassifierCriteria) (fuel : Nat) (m : Mat ℚ)
    (windows : List Window) (hs : 1 ≤ criteria.windowStep)
    (hr : m.rows ≤ fuel) (hc : m.cols ≤ fuel) :
    objectnessScan criteria fuel m windows
      = .ok (windows ++ scanWindows criteria m (edgelsThreshold criteria) 0) := by
  unfold objectnessScan
  rw [scanRows_eq criteria m _ _ hs, if_pos]
  · rfl
  · have h1 := tripCount_le criteria.windowStep (m.rows - criteria.info.smallestTemplate.height)
    have h2 := tripCount_le criteria.windowStep (m.cols - criteria.info.smallestTemplate.width)
    constructor
    · omega
    · intro _; omega

theorem mem_scanWindows (criteria : ClassifierCriteria) (m : Mat ℚ) (edgels : Nat)
    (w : Window)
    (hs : 1 ≤ criteria.windowStep ∨ m.rows ≤ criteria.info.smallestTemplate.height) :
    w ∈ scanWindows criteria m edgels 0 ↔
      ∃ x y, Visits criteria m x y ∧ windowAt criteria m edgels x y = some w := by
  rcases Nat.eq_zero_or_pos criteria.windowStep with h0 | hpos
  · have hr : m.rows ≤ criteria.info.smallestTemplate.height := by omega
    simp only [scanWindows, h0, stridePositions_zero_step, List.flatMap_nil, List.not_mem_nil,
      false_iff]
    rintro ⟨x, y, ⟨_, _, _, hy⟩, _⟩
    omega
  · simp only [scanWindows, rowWindows, List.mem_flatMap, List.mem_filterMap,
      mem_stridePositions _ _ _ hpos, Visits]
    constructor
    · rintro ⟨y, ⟨hy1, hy2⟩, x, ⟨hx1, hx2⟩, hw⟩
      exact ⟨x, y, ⟨hx1, hy1, by omega, by omega⟩, hw⟩
    · rintro ⟨x, y, ⟨hx1, hy1, hx2, hy2⟩, hw⟩
      exact ⟨y, ⟨hy1, by omega⟩, x, ⟨hx1, by omega⟩, hw⟩

theorem objectness_ok (P : Processing) (criteria : ClassifierCriteria) (fuel : Nat)
    (scene : Mat ℚ) (windows out : List Window)
    (h : objectness P criteria fuel scene windows = .ok out) :
    objectnessPre criteria scene ∧
    objectnessScan criteria fuel (sobelMask P scene) windows = .ok out := by
  unfold objectness at h
  unfold objectnessPre
  by_cases h1 : criteria.info.smallestTemplate.area > 0
  · by_cases h2 : criteria.info.minEdgels > 0
    · by_cases h3 : criteria.objectnessFactor > 0
      · cases h4 : scene.empty
        · simp only [h1, h2, h3, h4, not_true_eq_false, if_false] at h
          exact ⟨⟨h1, h2, h3, rfl⟩, by simpa using h⟩
        · simp [h1, h2, h3, h4] at h
      · simp [h1, h2, h3] at h
    · simp [h1, h2] at h
  · simp [h1] at h

theorem objectness_of_pre (P : Processing) (criteria : ClassifierCriteria) (fuel : Nat)
    (scene : Mat ℚ) (windows : List Window) (hp : objectnessPre criteria scene) :
    objectness P criteria fuel scene windows
      = objectnessScan criteria fuel (sobelMask P scene) windows := by
  obtain ⟨h1, h2, h3, h4⟩ := hp
  unfold objectness
  simp [h1, h2, h3, h4]

/-- A run that returns has appended the windows of `scanWindows` over the mask. -/
theorem objectness_ok_windows (P : Processing) (criteria : ClassifierCriteria) (fuel : Nat)
    (scene : Mat ℚ) (windows out : List Window)
    (h : objectness P criteria fuel scene windows = .ok out) :
    0 < criteria.info.minEdgels ∧
    out = windows ++ scanWindows criteria (sobelMask P scene) (edgelsThreshold criteria) 0 ∧
    ∀ w, w ∈ scanWindows criteria (sobelMask P scene) (edgelsThreshold criteria) 0 ↔
      ∃ x y, Visits criteria (sobelMask P scene) x y ∧
        windowAt criteria (sobelMask P scene) (edgelsThreshold criteria) x y = some w := by
  obtain ⟨hp, hscan⟩ := objectness_ok P criteria fuel scene windows out h
  obtain ⟨ho, hs⟩ := objectnessScan_ok criteria fuel _ windows out hscan
  exact ⟨hp.2.1, ho, fun w => mem_scanWindows criteria _ _ w hs⟩

/-- With the assertions satisfied, a positive stride and a budget of at least the
scene's rows and columns, `objectness` returns. -/
theorem objectness_returns (P : Processing) (criteria : ClassifierCriteria) (fuel : Nat)
    (scene : Mat ℚ) (windows : List Window) (hp : objectnessPre criteria scene)
    (hs : 1 ≤ criteria.windowStep) (hr : scene.rows ≤ fuel) (hc : scene.cols ≤ fuel) :
    objectness P criteria fuel scene windows
      = .ok (windows ++ scanWindows criteria (sobelMask P scene) (edgelsThreshold criteria) 0) := by
  rw [objectness_of_pre P criteria fuel scene windows hp]
  exact objectnessScan_of_fuel criteria fuel _ windows hs hr hc

theorem windowAt_eq_some (criteria : ClassifierCriteria) (m : Mat ℚ) (edgels x y : Nat)
    (w : Window) :
    windowAt criteria m edgels x y = some w ↔
      edgels ≤ floatToUInt (windowSum m x y criteria.info.smallestTemplate.width
        criteria.info.smallestTemplate.height) ∧
      w = ⟨x, y, criteria.info.smallestTemplate.width, criteria.info.smallestTemplate.height,
        floatToUInt (windowSum m x y criteria.info.smallestTemplate.width
          criteria.info.smallestTemplate.height), []⟩ := by
  unfold windowAt
  simp only [ge_iff_le]
  split
  · rename_i h
    simp only [Option.some.injEq, h, true_and]
    exact eq_comm
  · rename_i h
    simp [h]

/-! ### Claims about `Objectness::objectness` -/

/-- C1: for every edge mask and every position `(x, y)` the scan visits, the
four-lookup expression over the integral image equals the brute-force sum of
the mask over rows `y .. y+sizeY-1` and columns `x .. x+sizeX-1`, the integral
image has `rows+1` by `cols+1` entries, each the sum of the mask over the rows
and columns before it, and all four lookups are inside it. -/
theorem integral_lookup_eq_window_sum (criteria : ClassifierCriteria) (mask : Mat ℚ)
    (x y : Nat) (h : Visits criteria mask x y) :
    fourLookups (integral mask) x y criteria.info.smallestTemplate.width
        criteria.info.smallestTemplate.height
      = some (windowSum mask x y criteria.info.smallestTemplate.width
          criteria.info.smallestTemplate.height) ∧
    (integral mask).px (y + criteria.info.smallestTemplate.height)
          (x + criteria.info.smallestTemplate.width)
        - (integral mask).px y (x + criteria.info.smallestTemplate.width)
        - (integral mask).px (y + criteria.info.smallestTemplate.height) x
        + (integral mask).px y x
      = windowSum mask x y criteria.info.smallestTemplate.width
          criteria.info.smallestTemplate.height ∧
    (∀ r c, (integral mask).px r c
      = sumBelow r (fun i => sumBelow c (fun j => mask.px i j))) ∧
    (integral mask).rows = mask.rows + 1 ∧ (integral mask).cols = mask.cols + 1 ∧
    y + criteria.info.smallestTemplate.height < (integral mask).rows ∧
    x + criteria.info.smallestTemplate.width < (integral mask).cols := by
  obtain ⟨_, _, hx, hy⟩ := h
  refine ⟨fourLookups_eq mask x y _ _ hx hy, integral_inclusion_exclusion mask x y _ _,
    fun _ _ => rfl, rfl, rfl, ?_, ?_⟩
  · show y + criteria.info.smallestTemplate.height < mask.rows + 1
    omega
  · show x + criteria.info.smallestTemplate.width < mask.cols + 1
    omega

theorem integral_lookup_eq_window_sum_witness :
    Visits (sampleCriteria 1 2 2 1) (sampleMask 3 3) 0 0 ∧
    fourLookups (integral (sampleMask 3 3)) 0 0 2 2 = some (windowSum (sampleMask 3 3) 0 0 2 2) ∧
    windowSum (sampleMask 3 3) 0 0 2 2 = 4 :=
  have hv : Visits (sampleCriteria 1 2 2 1) (sampleMask 3 3) 0 0 :=
    ⟨dvd_zero _, dvd_zero _, by decide, by decide⟩
  ⟨hv, (integral_lookup_eq_window_sum (sampleCriteria 1 2 2 1) (sampleMask 3 3) 0 0 hv).1,
    by decide!⟩

/-- C2: whenever `Objectness::objectness` returns, the output is the input list
followed by new windows such that, for every position `(x, y)` the scan visits,
a window at `(x, y)` was appended if and only if the window's edge sum,
truncated to an unsigned integer, is at least `minEdgels * windowStep`; every
appended window sits at a visited position and holds that truncated edge sum
in `edgels`. With the assertions satisfied and a stride of at least 1 the
function does return. -/
theorem window_appended_iff_threshold (P : Processing) (criteria : ClassifierCriteria)
    (scene : Mat ℚ) (windows : List Window) :
    (∀ fuel out, objectness P criteria fuel scene windows = .ok out →
      ∃ new, out = windows ++ new ∧
        (∀ x y, Visits criteria (sobelMask P scene) x y →
          ((∃ w ∈ new, w.x = x ∧ w.y = y) ↔
            criteria.info.minEdgels * (criteria.windowStep : Int)
              ≤ (floatToUInt (windowSum (sobelMask P scene) x y
                  criteria.info.smallestTemplate.width
                  criteria.info.smallestTemplate.height) : Int))) ∧
        (∀ w ∈ new, ∃ x y, Visits criteria (sobelMask P scene) x y ∧
          w.x = x ∧ w.y = y ∧
          w.edgels = (floatToUInt (windowSum (sobelMask P scene) x y
            criteria.info.smallestTemplate.width
            criteria.info.smallestTemplate.height) : Int))) ∧
    (objectnessPre criteria scene → 1 ≤ criteria.windowStep →
      ∀ fuel, scene.rows ≤ fuel → scene.cols ≤ fuel →
        ∃ out, objectness P criteria fuel scene windows = .ok out) := by
  constructor
  · intro fuel out h
    obtain ⟨hmin, ho, hmem⟩ := objectness_ok_windows P criteria fuel scene windows out h
    have hthr : ∀ n : Nat, edgelsThreshold criteria ≤ n ↔
        criteria.info.minEdgels * (criteria.windowStep : Int) ≤ (n : Int) := by
      intro n
      have hnn : 0 ≤ criteria.info.minEdgels * (criteria.windowStep : Int) :=
        Int.mul_nonneg (Int.le_of_lt hmin) (Int.ofNat_nonneg _)
      unfold edgelsThreshold intToUInt
      omega
    refine ⟨_, ho, ?_, ?_⟩
    · intro x y hv
      constructor
      · rintro ⟨w, hw, hx, hy⟩
        obtain ⟨x', y', _, hat⟩ := (hmem w).1 hw
        obtain ⟨hle, rfl⟩ := (windowAt_eq_some _ _ _ _ _ _).1 hat
        have ex : x' = x := Int.ofNat.inj hx
        have ey : y' = y := Int.ofNat.inj hy
        subst ex ey
        exact (hthr _).1 hle
      · intro hle
        refine ⟨_, (hmem _).2 ⟨x, y, hv, (windowAt_eq_some _ _ _ _ _ _).2
          ⟨(hthr _).2 hle, rfl⟩⟩, rfl, rfl⟩
    · intro w hw
      obtain ⟨x, y, hv, hat⟩ := (hmem w).1 hw
      obtain ⟨_, rfl⟩ := (windowAt_eq_some _ _ _ _ _ _).1 hat
      exact ⟨x, y, hv, rfl, rfl, rfl⟩
  · intro hp hs fuel hr hc
    exact ⟨_, objectness_returns P criteria fuel scene windows hp hs hr hc⟩

theorem window_appended_iff_threshold_witness :
    objectness sampleProcessing (sampleCriteria 1 2 2 4) 3 (sampleMask 3 4) []
      = .ok [⟨0, 0, 2, 2, 4, []⟩, ⟨1, 0, 2, 2, 4, []⟩] ∧
    objectness sampleProcessing (sampleCriteria 1 2 2 5) 3 (sampleMask 3 4) [] = .ok [] ∧
    ∃ new, [⟨0, 0, 2, 2, 4, []⟩, ⟨1, 0, 2, 2, 4, []⟩] = ([] : List Window) ++ new ∧
      ∀ w ∈ new, ∃ x y,
        Visits (sampleCriteria 1 2 2 4) (sobelMask sampleProcessing (sampleMask 3 4)) x y ∧
        w.x = (x : Int) ∧ w.y = (y : Int) ∧
        w.edgels = (floatToUInt (windowSum (sobelMask sampleProcessing (sampleMask 3 4)) x y
          2 2) : Int) :=
  have h : objectness sampleProcessing (sampleCriteria 1 2 2 4) 3 (sampleMask 3 4) []
      = .ok [⟨0, 0, 2, 2, 4, []⟩, ⟨1, 0, 2, 2, 4, []⟩] := by decide!
  ⟨h, by decide!,
    ((window_appended_iff_threshold sampleProcessing (sampleCriteria 1 2 2 4)
      (sampleMask 3 4) []).1 3 _ h).imp (fun _ hn => ⟨hn.1, hn.2.2⟩)⟩

/-- C3: every window `Objectness::objectness` appends has the width and height
of `info.smallestTemplate` and lies fully inside the scene (`x ≥ 0`, `y ≥ 0`,
`x + width ≤ cols`, `y + height ≤ rows`), for every scene size; a scene with
fewer rows or fewer columns than the template yields no window. With the
assertions satisfied and a stride of at least 1 the function does return. -/
theorem emitted_windows_inside_scene (P : Processing) (criteria : ClassifierCriteria)
    (scene : Mat ℚ) (windows : List Window) :
    (∀ fuel out, objectness P criteria fuel scene windows = .ok out →
      ∃ new, out = windows ++ new ∧
        (∀ w ∈ new,
          w.width = criteria.info.smallestTemplate.width ∧
          w.height = criteria.info.smallestTemplate.height ∧
          0 ≤ w.x ∧ 0 ≤ w.y ∧
          w.x + w.width ≤ scene.cols ∧ w.y + w.height ≤ scene.rows) ∧
        (scene.rows < criteria.info.smallestTemplate.height ∨
          scene.cols < criteria.info.smallestTemplate.width → new = [])) ∧
    (objectnessPre criteria scene → 1 ≤ criteria.windowStep →
      ∀ fuel, scene.rows ≤ fuel → scene.cols ≤ fuel →
        ∃ out, objectness P criteria fuel scene windows = .ok out) := by
  constructor
  · intro fuel out h
    obtain ⟨_, ho, hmem⟩ := objectness_ok_windows P criteria fuel scene windows out h
    have inside : ∀ w ∈ scanWindows criteria (sobelMask P scene) (edgelsThreshold criteria) 0,
        w.width = criteria.info.smallestTemplate.width ∧
        w.height = criteria.info.smallestTemplate.height ∧
        0 ≤ w.x ∧ 0 ≤ w.y ∧
        w.x + w.width < scene.cols ∧ w.y + w.height < scene.rows := by
      intro w hw
      obtain ⟨x, y, ⟨_, _, hx, hy⟩, hat⟩ := (hmem w).1 hw
      obtain ⟨_, rfl⟩ := (windowAt_eq_some _ _ _ _ _ _).1 hat
      have hc : (sobelMask P scene).cols = scene.cols := rfl
      have hr : (sobelMask P scene).rows = scene.rows := rfl
      rw [hc] at hx
      rw [hr] at hy
      refine ⟨rfl, rfl, Int.ofNat_nonneg x, Int.ofNat_nonneg y, ?_, ?_⟩
      · show (x : Int) + (criteria.info.smallestTemplate.width : Int) < _
        omega
      · show (y : Int) + (criteria.info.smallestTemplate.height : Int) < _
        omega
    refine ⟨_, ho, ?_, ?_⟩
    · intro w hw
      obtain ⟨h1, h2, h3, h4, h5, h6⟩ := inside w hw
      exact ⟨h1, h2, h3, h4, Int.le_of_lt h5, Int.le_of_lt h6⟩
    · intro hsmall
      apply List.eq_nil_iff_forall_not_mem.2
      intro w hw
      obtain ⟨h1, h2, h3, h4, h5, h6⟩ := inside w hw
      rw [h1] at h5
      rw [h2] at h6
      omega
  · intro hp hs fuel hr hc
    exact ⟨_, objectness_returns P criteria fuel scene windows hp hs hr hc⟩

theorem emitted_windows_inside_scene_witness :
    objectness sampleProcessing (sampleCriteria 2 2 1 1) 5 (sampleMask 2 5) []
      = .ok [⟨0, 0, 2, 1, 2, []⟩, ⟨2, 0, 2, 1, 2, []⟩] ∧
    objectness sampleProcessing (sampleCriteria 2 2 3 1) 5 (sampleMask 2 5) [] = .ok [] ∧
    ∃ new, [⟨0, 0, 2, 1, 2, []⟩, ⟨2, 0, 2, 1, 2, []⟩] = ([] : List Window) ++ new ∧
      ∀ w ∈ new, w.width = 2 ∧ w.height = 1 ∧ 0 ≤ w.x ∧ 0 ≤ w.y ∧
        w.x + w.width ≤ 5 ∧ w.y + w.height ≤ 2 :=
  have h : objectness sampleProcessing (sampleCriteria 2 2 1 1) 5 (sampleMask 2 5) []
      = .ok [⟨0, 0, 2, 1, 2, []⟩, ⟨2, 0, 2, 1, 2, []⟩] := by decide!
  ⟨h, by decide!,
    ((emitted_windows_inside_scene sampleProcessing (sampleCriteria 2 2 1 1)
      (sampleMask 2 5) []).1 5 _ h).imp (fun _ hn => ⟨hn.1, hn.2.1⟩)⟩

/-- C4 (the code at the failing input): a 2-by-2 scene whose every pixel is an
edge pixel, a 2-by-2 template, stride 1 and `minEdgels = 4`. The window at
`(0, 0)` is stride-aligned, fits entirely in the scene and its edge sum 4 meets
the threshold 4, yet `Objectness::objectness` returns without any window: the
loop conditions `y < rows - sizeY` and `x < cols - sizeX` stop one position
short of the last window that fits. -/
theorem border_window_not_evaluated :
    (sampleCriteria 1 2 2 4).windowStep ∣ 0 ∧
    0 + (sampleCriteria 1 2 2 4).info.smallestTemplate.width ≤ (sampleMask 2 2).cols ∧
    0 + (sampleCriteria 1 2 2 4).info.smallestTemplate.height ≤ (sampleMask 2 2).rows ∧
    edgelsThreshold (sampleCriteria 1 2 2 4) = 4 ∧
    floatToUInt (windowSum (sobelMask sampleProcessing (sampleMask 2 2)) 0 0 2 2) = 4 ∧
    objectnessPre (sampleCriteria 1 2 2 4) (sampleMask 2 2) ∧
    ∀ fuel, objectness sampleProcessing (sampleCriteria 1 2 2 4) fuel (sampleMask 2 2) []
      = .ok [] := by
  have hp : objectnessPre (sampleCriteria 1 2 2 4) (sampleMask 2 2) :=
    ⟨by decide, by decide, by decide!, rfl⟩
  refine ⟨dvd_zero _, by decide, by decide, by decide, by decide!, hp, ?_⟩
  · intro fuel
    rw [objectness_of_pre _ _ _ _ _ hp]
    unfold objectnessScan
    cases fuel <;> simp [scanRows, sampleCriteria, sobelMask, sampleMask]

/-! ### Orientation quantization -/

theorem floor_div_pos_int (a : ℚ) (n : Int) (hn : 0 < n) : ⌊a / (n : ℚ)⌋ = ⌊a⌋ / n := by
  have hnq : (0 : ℚ) < (n : ℚ) := by exact_mod_cast hn
  rw [Int.floor_eq_iff]
  have h1 : ((⌊a⌋ : Int) : ℚ) ≤ a := Int.floor_le a
  have h2 : a < ((⌊a⌋ : Int) : ℚ) + 1 := Int.lt_floor_add_one a
  have h3 : n * (⌊a⌋ / n) ≤ ⌊a⌋ := Int.mul_ediv_self_le (Int.ne_of_gt hn)
  have h4 : ⌊a⌋ < n * (⌊a⌋ / n) + n := Int.lt_mul_ediv_self_add hn
  have h3q : (n : ℚ) * ((⌊a⌋ / n : Int) : ℚ) ≤ ((⌊a⌋ : Int) : ℚ) := by exact_mod_cast h3
  have h4q : ((⌊a⌋ : Int) : ℚ) + 1 ≤ (n : ℚ) * ((⌊a⌋ / n : Int) : ℚ) + (n : ℚ) := by
    exact_mod_cast h4
  constructor
  · rw [le_div_iff₀ hnq]
    linarith
  · rw [div_lt_iff₀ hnq]
    linarith

theorem referenceOrientationBin_eq (deg : ℚ) :
    referenceOrientationBin deg = (⌊deg⌋ % 180) / 36 := by
  unfold referenceOrientationBin
  have h180 : ⌊deg / 180⌋ = ⌊deg⌋ / 180 := by
    have := floor_div_pos_int deg 180 (by decide)
    simpa using this
  have h36 : ∀ a : ℚ, ⌊a / 36⌋ = ⌊a⌋ / 36 := by
    intro a
    have := floor_div_pos_int a 36 (by decide)
    simpa using this
  rw [h36, h180]
  have e : deg - 180 * ((⌊deg⌋ / 180 : Int) : ℚ) = deg + ((-(180 * (⌊deg⌋ / 180)) : Int) : ℚ) := by
    push_cast
    ring
  rw [e, Int.floor_add_int, Int.emod_def]
  congr 1

theorem truncToInt_of_nonneg (deg : ℚ) (h : 0 ≤ deg) : truncToInt deg = ⌊deg⌋ := by
  simp [truncToInt, h]

theorem quantizeOrientationGradients_eq (deg : ℚ) (h0 : 0 ≤ deg) (h360 : deg ≤ 360) :
    quantizeOrientationGradients deg = .ok ((⌊deg⌋ % 180) / 36) := by
  have hk : 0 ≤ ⌊deg⌋ := Int.floor_nonneg.2 h0
  unfold quantizeOrientationGradients
  rw [if_neg (not_not.2 h0), if_neg (not_not.2 h360)]
  simp only [truncToInt_of_nonneg deg h0, Int.tmod_eq_emod hk (by decide : (0 : Int) ≤ 180)]
  have hr0 : 0 ≤ ⌊deg⌋ % 180 := Int.emod_nonneg _ (by decide)
  have hr1 : ⌊deg⌋ % 180 < 180 := Int.emod_lt_of_pos _ (by decide)
  generalize ⌊deg⌋ % 180 = r at hr0 hr1
  split_ifs <;> (congr 1; omega)

/-- C5: for every angle `deg` with `0 ≤ deg ≤ 360`,
`quantizeOrientationGradients` returns the bin of the reference quantizer
`floor((deg mod 180) / 36)`; truncating `deg` to an integer first gives the
same bin; the bin `b` is the one with `36 b ≤ deg mod 180 < 36 (b + 1)`; the
result lies in `[0, 5)`, so the range assertions after feature extraction do
not fire; and every bin `0 .. 4` is attained. -/
theorem quantize_matches_reference :
    (∀ deg : ℚ, 0 ≤ deg → deg ≤ 360 →
      quantizeOrientationGradients deg = .ok (referenceOrientationBin deg) ∧
      referenceOrientationBin ((truncToInt deg : Int) : ℚ) = referenceOrientationBin deg ∧
      (36 * (referenceOrientationBin deg : ℚ) ≤ deg - 180 * (⌊deg / 180⌋ : ℚ) ∧
        deg - 180 * (⌊deg / 180⌋ : ℚ) < 36 * ((referenceOrientationBin deg : ℚ) + 1)) ∧
      0 ≤ referenceOrientationBin deg ∧ referenceOrientationBin deg < 5 ∧
      orientationFeature deg = .ok (referenceOrientationBin deg)) ∧
    (∀ bin : Int, 0 ≤ bin → bin < 5 →
      ∃ deg : ℚ, 0 ≤ deg ∧ deg ≤ 360 ∧ quantizeOrientationGradients deg = .ok bin) := by
  constructor
  · intro deg h0 h360
    have hq := quantizeOrientationGradients_eq deg h0 h360
    have hr := referenceOrientationBin_eq deg
    have hr0 : 0 ≤ ⌊deg⌋ % 180 := Int.emod_nonneg _ (by decide)
    have hr1 : ⌊deg⌋ % 180 < 180 := Int.emod_lt_of_pos _ (by decide)
    have hb0 : 0 ≤ referenceOrientationBin deg := by rw [hr]; omega
    have hb5 : referenceOrientationBin deg < 5 := by rw [hr]; omega
    refine ⟨by rw [hq, hr], ?_, ?_, hb0, hb5, ?_⟩
    · rw [truncToInt_of_nonneg deg h0, referenceOrientationBin_eq, hr, Int.floor_intCast]
    · have hfl := Int.floor_le ((deg - 180 * (⌊deg / 180⌋ : ℚ)) / 36)
      have hlt := Int.lt_floor_add_one ((deg - 180 * (⌊deg / 180⌋ : ℚ)) / 36)
      unfold referenceOrientationBin
      constructor
      · linarith
      · linarith
    · unfold orientationFeature
      rw [hq, ← hr]
      simp only [ge_iff_le, hb0, hb5, not_true_eq_false, if_false]
  · intro bin hb0 hb5
    refine ⟨((36 * bin : Int) : ℚ), ?_, ?_, ?_⟩
    · exact_mod_cast (by omega : (0 : Int) ≤ 36 * bin)
    · exact_mod_cast (by omega : (36 * bin : Int) ≤ 360)
    · rw [quantizeOrientationGradients_eq]
      · rw [Int.floor_intCast]
        congr 1
        omega
      · exact_mod_cast (by omega : (0 : Int) ≤ 36 * bin)
      · exact_mod_cast (by omega : (36 * bin : Int) ≤ 360)

theorem quantize_matches_reference_witness :
    (0 : ℚ) ≤ 215 / 2 ∧ (215 / 2 : ℚ) ≤ 360 ∧
    quantizeOrientationGradients (215 / 2) = .ok (referenceOrientationBin (215 / 2)) ∧
    quantizeOrientationGradients (215 / 2) = .ok 2 ∧
    quantizeOrientationGradients 360 = .ok 0 ∧
    quantizeOrientationGradients (719 / 2) = .ok 4 :=
  ⟨by norm_num, by norm_num,
    (quantize_matches_reference.1 (215 / 2) (by norm_num) (by norm_num)).1,
    by decide!, by decide!, by decide!⟩

/-- C6: quantization is symmetric under a half turn: for every `x` with
`0 ≤ x ≤ 180` (so for `0 ≤ x < 180` and for `x = 180`),
`quantizeOrientationGradients (180 + x) = quantizeOrientationGradients x`, and
both return a bin; the function is total on `[0, 360)` (there it returns a bin,
never a fault) and, being a function, returns one bin per angle. -/
theorem quantize_half_turn_symmetric :
    (∀ x : ℚ, 0 ≤ x → x ≤ 180 →
      quantizeOrientationGradients (180 + x) = quantizeOrientationGradients x ∧
      ∃ bin, quantizeOrientationGradients x = .ok bin) ∧
    (∀ deg : ℚ, 0 ≤ deg → deg < 360 →
      ∃ bin, quantizeOrientationGradients deg = .ok bin ∧
        ∀ bin', quantizeOrientationGradients deg = .ok bin' → bin' = bin) := by
  constructor
  · intro x h0 h180
    rw [quantizeOrientationGradients_eq x h0 (by linarith),
      quantizeOrientationGradients_eq (180 + x) (by linarith) (by linarith)]
    refine ⟨?_, _, rfl⟩
    have e : (180 : ℚ) + x = x + ((180 : Int) : ℚ) := by push_cast; ring
    rw [e, Int.floor_add_int]
    congr 2
    omega
  · intro deg h0 h360
    rw [quantizeOrientationGradients_eq deg h0 (le_of_lt h360)]
    refine ⟨_, rfl, ?_⟩
    intro bin' h
    injection h with h
    exact h.symm

theorem quantize_half_turn_symmetric_witness :
    (0 : ℚ) ≤ 100 ∧ (100 : ℚ) ≤ 180 ∧
    quantizeOrientationGradients (180 + 100) = quantizeOrientationGradients 100 ∧
    quantizeOrientationGradients 100 = .ok 2 ∧
    quantizeOrientationGradients (180 + 180) = quantizeOrientationGradients 180 :=
  ⟨by norm_num, by norm_num,
    (quantize_half_turn_symmetric.1 100 (by norm_num) (by norm_num)).1,
    by decide!,
    (quantize_half_turn_symmetric.1 180 (by norm_num) (by norm_num)).1⟩

/-! ### Feature-point generation -/

theorem vectorAt_mem (v : List Point) (i : Int) (h0 : 0 ≤ i) (h1 : i ≤ (v.length : Int) - 1) :
    vectorAt v i ∈ v := by
  have hlt : i.toNat < v.length := by omega
  unfold vectorAt
  rw [if_pos h0, List.getD_eq_getElem v _ hlt]
  exact List.getElem_mem hlt

theorem pickPoints_spec (R : RandomSources) (s c : List Point) :
    ∀ (count g : Nat) (t : Template),
      ∃ newS newE,
        (pickPoints R s c count g t).1.stablePoints = t.stablePoints ++ newS ∧
        (pickPoints R s c count g t).1.edgePoints = t.edgePoints ++ newE ∧
        newS.length = count ∧ newE.length = count ∧
        (pickPoints R s c count g t).1.src = t.src ∧
        (RandomInRange R → 0 < s.length → ∀ p ∈ newS, p ∈ s) ∧
        (RandomInRange R → 0 < c.length → ∀ p ∈ newE, p ∈ c) := by
  intro count
  induction count with
  | zero =>
    intro g t
    exact ⟨[], [], by simp [pickPoints], by simp [pickPoints], rfl, rfl, rfl,
      fun _ _ p hp => (by cases hp), fun _ _ p hp => (by cases hp)⟩
  | succ count ih =>
    intro g t
    simp only [pickPoints]
    obtain ⟨newS, newE, hS, hE, hlS, hlE, hsrc, hmS, hmE⟩ :=
      ih (R.random (R.random g 0 ((s.length : Int) - 1)).2 0 ((c.length : Int) - 1)).2
        { t with
          stablePoints := t.stablePoints
            ++ [vectorAt s (R.random g 0 ((s.length : Int) - 1)).1]
          edgePoints := t.edgePoints
            ++ [vectorAt c (R.random (R.random g 0 ((s.length : Int) - 1)).2 0
              ((c.length : Int) - 1)).1] }
    refine ⟨vectorAt s (R.random g 0 ((s.length : Int) - 1)).1 :: newS,
      vectorAt c (R.random (R.random g 0 ((s.length : Int) - 1)).2 0
        ((c.length : Int) - 1)).1 :: newE,
      ?_, ?_, by simp [hlS], by simp [hlE], hsrc, ?_, ?_⟩
    · rw [hS]; simp
    · rw [hE]; simp
    · intro hr hpos p hp
      rcases List.mem_cons.1 hp with rfl | hp
      · have := hr g 0 ((s.length : Int) - 1) (by omega)
        exact vectorAt_mem s _ this.1 this.2
      · exact hmS hr hpos p hp
    · intro hr hpos p hp
      rcases List.mem_cons.1 hp with rfl | hp
      · have := hr (R.random g 0 ((s.length : Int) - 1)).2 0 ((c.length : Int) - 1) (by omega)
        exact vectorAt_mem c _ this.1 this.2
      · exact hmE hr hpos p hp

theorem generateTemplatePoints_of_enough (tm : TemplateMatcher) (cv : OpenCV)
    (R : RandomSources) (g : Nat) (t : Template) (h : enoughPoints tm cv t) :
    generateTemplatePoints tm cv R g t
      = .ok (pickPoints R (R.shuffle (stableCandidates tm cv t))
          (R.shuffle (cannyCandidates tm cv t)) tm.featurePointsCount g t) := by
  unfold generateTemplatePoints
  simp only [h.1, h.2, not_true_eq_false, if_false]

theorem generateTemplatePoints_of_not_enough (tm : TemplateMatcher) (cv : OpenCV)
    (R : RandomSources) (g : Nat) (t : Template) (h : ¬ enoughPoints tm cv t) :
    generateTemplatePoints tm cv R g t = .error .assertion := by
  unfold generateTemplatePoints
  by_cases h1 : (stableCandidates tm cv t).length > tm.featurePointsCount
  · have h2 : ¬ (cannyCandidates tm cv t).length > tm.featurePointsCount :=
      fun h2 => h ⟨h1, h2⟩
    simp only [h1, h2, not_true_eq_false, not_false_eq_true, if_true, if_false]
  · simp only [h1, not_false_eq_true, if_true]

theorem generateTemplatesPoints_cases (tm : TemplateMatcher) (cv : OpenCV)
    (R : RandomSources) :
    ∀ (ts : List Template) (g : Nat),
      ((∀ t ∈ ts, enoughPoints tm cv t) ∧
        ∃ r, generateTemplatesPoints tm cv R g ts = .ok r) ∨
      ((∃ t ∈ ts, ¬ enoughPoints tm cv t) ∧
        generateTemplatesPoints tm cv R g ts = .error .assertion) := by
  intro ts
  induction ts with
  | nil => intro g; exact Or.inl ⟨fun _ h => (by cases h), _, rfl⟩
  | cons t ts ih =>
    intro g
    by_cases ht : enoughPoints tm cv t
    · simp only [generateTemplatesPoints, generateTemplatePoints_of_enough tm cv R g t ht]
      rcases ih (pickPoints R (R.shuffle (stableCandidates tm cv t))
          (R.shuffle (cannyCandidates tm cv t)) tm.featurePointsCount g t).2 with
        ⟨hall, r, hr⟩ | ⟨⟨t', ht', hn⟩, he⟩
      · left
        refine ⟨?_, ?_⟩
        · intro t' ht'
          rcases List.mem_cons.1 ht' with rfl | ht'
          · exact ht
          · exact hall t' ht'
        · rw [hr]; exact ⟨_, rfl⟩
      · right
        refine ⟨⟨t', List.mem_cons_of_mem _ ht', hn⟩, ?_⟩
        rw [he]
    · right
      refine ⟨⟨t, List.mem_cons_self _ _, ht⟩, ?_⟩
      simp only [generateTemplatesPoints, generateTemplatePoints_of_not_enough tm cv R g t ht]

theorem generateFeaturePoints_cases (tm : TemplateMatcher) (cv : OpenCV)
    (R : RandomSources) :
    ∀ (groups : List TemplateGroup) (g : Nat),
      ((∀ group ∈ groups, ∀ t ∈ group.templates, enoughPoints tm cv t) ∧
        ∃ r, generateFeaturePoints tm cv R g groups = .ok r) ∨
      ((∃ group ∈ groups, ∃ t ∈ group.templates, ¬ enoughPoints tm cv t) ∧
        generateFeaturePoints tm cv R g groups = .error .assertion) := by
  intro groups
  induction groups with
  | nil => intro g; exact Or.inl ⟨fun _ h => (by cases h), _, rfl⟩
  | cons group groups ih =>
    intro g
    rcases generateTemplatesPoints_cases tm cv R group.templates g with
      ⟨hall, r, hr⟩ | ⟨⟨t, ht, hn⟩, he⟩
    · simp only [generateFeaturePoints, hr]
      rcases ih r.2 with ⟨hall', r', hr'⟩ | ⟨⟨group', hg', t, ht, hn⟩, he⟩
      · left
        refine ⟨?_, ?_⟩
        · intro group' hg'
          rcases List.mem_cons.1 hg' with rfl | hg'
          · exact hall
          · exact hall' group' hg'
        · rw [hr']; exact ⟨_, rfl⟩
      · right
        refine ⟨⟨group', List.mem_cons_of_mem _ hg', t, ht, hn⟩, ?_⟩
        rw [he]
    · right
      refine ⟨⟨group, List.mem_cons_self _ _, t, ht, hn⟩, ?_⟩
      simp only [generateFeaturePoints, he]

theorem generateTemplatePoints_ok (tm : TemplateMatcher) (cv : OpenCV) (R : RandomSources)
    (g : Nat) (t : Template) (r : Template × Nat)
    (h : generateTemplatePoints tm cv R g t = .ok r) :
    enoughPoints tm cv t ∧
    r = pickPoints R (R.shuffle (stableCandidates tm cv t))
      (R.shuffle (cannyCandidates tm cv t)) tm.featurePointsCount g t := by
  by_cases he : enoughPoints tm cv t
  · rw [generateTemplatePoints_of_enough tm cv R g t he] at h
    injection h with h
    exact ⟨he, h.symm⟩
  · rw [generateTemplatePoints_of_not_enough tm cv R g t he] at h
    cases h

theorem generateTemplatesPoints_ok_mem (tm : TemplateMatcher) (cv : OpenCV)
    (R : RandomSources) :
    ∀ (ts : List Template) (g : Nat) (r : List Template × Nat),
      generateTemplatesPoints tm cv R g ts = .ok r →
      ∀ t' ∈ r.1, ∃ t ∈ ts, ∃ g0 g1, generateTemplatePoints tm cv R g0 t = .ok (t', g1) := by
  intro ts
  induction ts with
  | nil =>
    intro g r h t' ht'
    simp only [generateTemplatesPoints] at h
    injection h with h
    subst h
    cases ht'
  | cons t ts ih =>
    intro g r h t' ht'
    simp only [generateTemplatesPoints] at h
    cases h1 : generateTemplatePoints tm cv R g t with
    | error e => rw [h1] at h; cases h
    | ok r1 =>
      obtain ⟨t1, g1⟩ := r1
      rw [h1] at h
      simp only at h
      cases h2 : generateTemplatesPoints tm cv R g1 ts with
      | error e => rw [h2] at h; cases h
      | ok r2 =>
        obtain ⟨ts2, g2⟩ := r2
        rw [h2] at h
        simp only at h
        injection h with h
        subst h
        rcases List.mem_cons.1 ht' with rfl | ht'
        · exact ⟨t, List.mem_cons_self _ _, g, g1, h1⟩
        · obtain ⟨t0, ht0, g0, g1', h0⟩ := ih g1 (ts2, g2) h2 t' ht'
          exact ⟨t0, List.mem_cons_of_mem _ ht0, g0, g1', h0⟩

theorem generateFeaturePoints_ok_mem (tm : TemplateMatcher) (cv : OpenCV)
    (R : RandomSources) :
    ∀ (groups : List TemplateGroup) (g : Nat) (r : List TemplateGroup × Nat),
      generateFeaturePoints tm cv R g groups = .ok r →
      ∀ group' ∈ r.1, ∀ t' ∈ group'.templates, ∃ group ∈ groups, ∃ t ∈ group.templates,
        ∃ g0 g1, generateTemplatePoints tm cv R g0 t = .ok (t', g1) := by
  intro groups
  induction groups with
  | nil =>
    intro g r h group' hg'
    simp only [generateFeaturePoints] at h
    injection h with h
    subst h
    cases hg'
  | cons group groups ih =>
    intro g r h group' hg' t' ht'
    simp only [generateFeaturePoints] at h
    cases h1 : generateTemplatesPoints tm cv R g group.templates with
    | error e => rw [h1] at h; cases h
    | ok r1 =>
      obtain ⟨ts1, g1⟩ := r1
      rw [h1] at h
      simp only at h
      cases h2 : generateFeaturePoints tm cv R g1 groups with
      | error e => rw [h2] at h; cases h
      | ok r2 =>
        obtain ⟨groups2, g2⟩ := r2
        rw [h2] at h
        simp only at h
        injection h with h
        subst h
        rcases List.mem_cons.1 hg' with rfl | hg'
        · obtain ⟨t0, ht0, g0, g1', h0⟩ :=
            generateTemplatesPoints_ok_mem tm cv R group.templates g (ts1, g1) h1 t' ht'
          exact ⟨group, List.mem_cons_self _ _, t0, ht0, g0, g1', h0⟩
        · obtain ⟨group0, hgr0, t0, ht0, g0, g1', h0⟩ := ih g1 (groups2, g2) h2 group' hg' t' ht'
          exact ⟨group0, List.mem_cons_of_mem _ hgr0, t0, ht0, g0, g1', h0⟩

/-! ### Claims about `TemplateMatcher::generateFeaturePoints` -/

/-- C7 (counterexample): a template with exactly `featurePointsCount = 2`
qualifying stable points and exactly 2 qualifying edge points is not trained:
the run aborts on the assertion of line 65. -/
theorem exact_count_template_rejected :
    (sampleMatcher 2).featurePointsCount = 2 ∧
    (stableCandidates (sampleMatcher 2) sampleOpenCV (sampleTemplate 2)).length = 2 ∧
    (cannyCandidates (sampleMatcher 2) sampleOpenCV (sampleTemplate 2)).length = 2 ∧
    generateTemplatePoints (sampleMatcher 2) sampleOpenCV sampleRandom 0 (sampleTemplate 2)
      = .error .assertion ∧
    generateFeaturePoints (sampleMatcher 2) sampleOpenCV sampleRandom 0
      [⟨[sampleTemplate 2]⟩] = .error .assertion := by
  have hn : ¬ enoughPoints (sampleMatcher 2) sampleOpenCV (sampleTemplate 2) := by
    unfold enoughPoints
    decide!
  have ht := generateTemplatePoints_of_not_enough (sampleMatcher 2) sampleOpenCV sampleRandom 0
    (sampleTemplate 2) hn
  refine ⟨rfl, by decide!, by decide!, ht, ?_⟩
  simp only [generateFeaturePoints, generateTemplatesPoints, ht]

/-- C7 (amended): `generateFeaturePoints` accepts a template exactly when it has
strictly more qualifying stable points and strictly more qualifying edge points
than `featurePointsCount`; a template with `featurePointsCount` or fewer
points of either kind aborts training with a fatal error, whichever group it
is in; it is never skipped: the run returns only if every template is accepted. -/
theorem template_accepted_iff_more_points (tm : TemplateMatcher) (cv : OpenCV)
    (R : RandomSources) :
    (∀ g t, (∃ r, generateTemplatePoints tm cv R g t = .ok r) ↔
      ((stableCandidates tm cv t).length > tm.featurePointsCount ∧
        (cannyCandidates tm cv t).length > tm.featurePointsCount)) ∧
    (∀ g t, ¬ ((stableCandidates tm cv t).length > tm.featurePointsCount ∧
        (cannyCandidates tm cv t).length > tm.featurePointsCount) →
      generateTemplatePoints tm cv R g t = .error .assertion) ∧
    (∀ g groups, (∃ r, generateFeaturePoints tm cv R g groups = .ok r) ↔
      ∀ group ∈ groups, ∀ t ∈ group.templates,
        ((stableCandidates tm cv t).length > tm.featurePointsCount ∧
          (cannyCandidates tm cv t).length > tm.featurePointsCount)) ∧
    (∀ g groups, (∃ group ∈ groups, ∃ t ∈ group.templates,
        ¬ ((stableCandidates tm cv t).length > tm.featurePointsCount ∧
          (cannyCandidates tm cv t).length > tm.featurePointsCount)) →
      generateFeaturePoints tm cv R g groups = .error .assertion) := by
  refine ⟨?_, ?_, ?_, ?_⟩
  · intro g t
    constructor
    · rintro ⟨r, hr⟩
      exact (generateTemplatePoints_ok tm cv R g t r hr).1
    · intro h
      exact ⟨_, generateTemplatePoints_of_enough tm cv R g t h⟩
  · intro g t h
    exact generateTemplatePoints_of_not_enough tm cv R g t h
  · intro g groups
    rcases generateFeaturePoints_cases tm cv R groups g with
      ⟨hall, hr⟩ | ⟨⟨group, hg, t, ht, hn⟩, he⟩
    · exact ⟨fun _ => hall, fun _ => hr⟩
    · constructor
      · rintro ⟨r, hr⟩
        rw [he] at hr
        cases hr
      · intro hall
        exact absurd (hall group hg t ht) hn
  · rintro g groups ⟨group, hg, t, ht, hn⟩
    rcases generateFeaturePoints_cases tm cv R groups g with ⟨hall, _⟩ | ⟨_, he⟩
    · exact absurd (hall group hg t ht) hn
    · exact he

theorem template_accepted_iff_more_points_witness :
    (∃ r, generateTemplatePoints (sampleMatcher 2) sampleOpenCV sampleRandom 0
      (sampleTemplate 3) = .ok r) ∧
    generateTemplatePoints (sampleMatcher 2) sampleOpenCV sampleRandom 0 (sampleTemplate 1)
      = .error .assertion :=
  ⟨((template_accepted_iff_more_points (sampleMatcher 2) sampleOpenCV sampleRandom).1 0
      (sampleTemplate 3)).2 (by decide!),
    (template_accepted_iff_more_points (sampleMatcher 2) sampleOpenCV sampleRandom).2.1 0
      (sampleTemplate 1) (by decide!)⟩

/-- C8 (counterexample): with three qualifying pixels of each kind,
`featurePointsCount = 2` and a random index source that stays within
`[0, size - 1]` (it always draws 0), the two chosen stable points are the same
pixel, and so are the two chosen edge points. -/
theorem chosen_points_repeat :
    RandomInRange sampleRandomMin ∧
    (generateFeaturePoints (sampleMatcher 2) sampleOpenCV sampleRandomMin 0
        [⟨[sampleTemplate 3]⟩]).map (fun r => selectedPoints r.1)
      = .ok [[([⟨2, 0⟩, ⟨2, 0⟩], [⟨2, 0⟩, ⟨2, 0⟩])]] ∧
    ¬ ([⟨2, 0⟩, ⟨2, 0⟩] : List Point).Nodup := by
  refine ⟨?_, by decide!, by decide⟩
  intro g lo hi h
  exact ⟨Int.le_refl lo, h⟩

/-- C8 (amended): the feature points chosen for a template form two lists of
fixed size: exactly `featurePointsCount` stable points and exactly
`featurePointsCount` edge points are appended, and, when the random index
source stays within `[0, size - 1]`, each of them is a qualifying pixel of its
kind. The indices are drawn independently, so a pixel may be chosen more than
once. -/
theorem chosen_points_fixed_size_qualifying (tm : TemplateMatcher) (cv : OpenCV)
    (R : RandomSources) (g : Nat) (t t' : Template) (g' : Nat)
    (hperm : ShufflePermutes R) (hrange : RandomInRange R)
    (h : generateTemplatePoints tm cv R g t = .ok (t', g')) :
    ∃ newStable newEdge,
      t'.stablePoints = t.stablePoints ++ newStable ∧
      t'.edgePoints = t.edgePoints ++ newEdge ∧
      newStable.length = tm.featurePointsCount ∧
      newEdge.length = tm.featurePointsCount ∧
      (∀ p ∈ newStable, p ∈ stableCandidates tm cv t) ∧
      (∀ p ∈ newEdge, p ∈ cannyCandidates tm cv t) := by
  obtain ⟨he, hr⟩ := generateTemplatePoints_ok tm cv R g t (t', g') h
  obtain ⟨newS, newE, hS, hE, hlS, hlE, _, hmS, hmE⟩ :=
    pickPoints_spec R (R.shuffle (stableCandidates tm cv t))
      (R.shuffle (cannyCandidates tm cv t)) tm.featurePointsCount g t
  rw [← hr] at hS hE
  have hposS : 0 < (R.shuffle (stableCandidates tm cv t)).length := by
    rw [(hperm _).length_eq]
    exact Nat.lt_of_le_of_lt (Nat.zero_le _) he.1
  have hposE : 0 < (R.shuffle (cannyCandidates tm cv t)).length := by
    rw [(hperm _).length_eq]
    exact Nat.lt_of_le_of_lt (Nat.zero_le _) he.2
  refine ⟨newS, newE, hS, hE, hlS, hlE, ?_, ?_⟩
  · intro p hp
    exact (hperm _).mem_iff.1 (hmS hrange hposS p hp)
  · intro p hp
    exact (hperm _).mem_iff.1 (hmE hrange hposE p hp)

theorem sampleRandom_inRange : RandomInRange sampleRandom := by
  intro g lo hi h
  have h1 : 0 ≤ (g : Int) % (hi - lo + 1) := Int.emod_nonneg _ (by omega)
  have h2 : (g : Int) % (hi - lo + 1) < hi - lo + 1 := Int.emod_lt_of_pos _ (by omega)
  constructor
  · show lo ≤ lo + (g : Int) % (hi - lo + 1)
    omega
  · show lo + (g : Int) % (hi - lo + 1) ≤ hi
    omega

theorem chosen_points_fixed_size_qualifying_witness :
    ShufflePermutes sampleRandom ∧ RandomInRange sampleRandom ∧
    ∃ t' g', generateTemplatePoints (sampleMatcher 2) sampleOpenCV sampleRandom 0
        (sampleTemplate 3) = .ok (t', g') ∧
      ∃ newStable newEdge,
        t'.stablePoints = (sampleTemplate 3).stablePoints ++ newStable ∧
        t'.edgePoints = (sampleTemplate 3).edgePoints ++ newEdge ∧
        newStable.length = (sampleMatcher 2).featurePointsCount ∧
        newEdge.length = (sampleMatcher 2).featurePointsCount ∧
        (∀ p ∈ newStable, p ∈ stableCandidates (sampleMatcher 2) sampleOpenCV
          (sampleTemplate 3)) ∧
        (∀ p ∈ newEdge, p ∈ cannyCandidates (sampleMatcher 2) sampleOpenCV
          (sampleTemplate 3)) :=
  have hp : ShufflePermutes sampleRandom := fun v => List.reverse_perm v
  have he : enoughPoints (sampleMatcher 2) sampleOpenCV (sampleTemplate 3) := by
    unfold enoughPoints
    decide!
  have h := generateTemplatePoints_of_enough (sampleMatcher 2) sampleOpenCV sampleRandom 0
    (sampleTemplate 3) he
  ⟨hp, sampleRandom_inRange, _, _, h,
    chosen_points_fixed_size_qualifying (sampleMatcher 2) sampleOpenCV sampleRandom 0
      (sampleTemplate 3) _ _ hp sampleRandom_inRange h⟩

theorem ReproducibleSequence.next (R : RandomSources) (g1 g2 : Nat)
    (h : ReproducibleSequence R g1 g2) (lo hi : Int) :
    (R.random g1 lo hi).1 = (R.random g2 lo hi).1 ∧
    ReproducibleSequence R (R.random g1 lo hi).2 (R.random g2 lo hi).2 :=
  ⟨(h 1 lo hi).1, fun n => (h (n + 1) lo hi).2⟩

/-- The chosen points follow the values that `Triplet::random` returns: from two states
in which the sample generator is at different places of its sequence, the same template
gets different points. -/
theorem other_draws_select_other_points :
    (generateFeaturePoints (sampleMatcher 2) sampleOpenCV sampleRandomCycle 0
        [⟨[sampleTemplate 3]⟩]).map (fun r => selectedPoints r.1)
      = .ok [[([⟨2, 0⟩, ⟨0, 0⟩], [⟨1, 0⟩, ⟨2, 0⟩])]] ∧
    (generateFeaturePoints (sampleMatcher 2) sampleOpenCV sampleRandomCycle 1
        [⟨[sampleTemplate 3]⟩]).map (fun r => selectedPoints r.1)
      = .ok [[([⟨1, 0⟩, ⟨2, 0⟩], [⟨0, 0⟩, ⟨2, 0⟩])]] := by
  refine ⟨by decide!, by decide!⟩

/-- C10: for every template that passes the point-count precondition and starts
with empty point lists, `generateFeaturePoints` leaves it with exactly
`featurePointsCount` stable points and exactly `featurePointsCount` edge
points (its source image unchanged), so that for every index
`i < featurePointsCount` the reads `t.edgePoints[i]` and `t.stablePoints[i]`
of feature extraction are inside the lists; the same holds for every template
of a whole run that returns. -/
theorem generated_point_counts (tm : TemplateMatcher) (cv : OpenCV) (R : RandomSources) :
    (∀ (g : Nat) (t : Template), enoughPoints tm cv t →
      t.stablePoints = [] → t.edgePoints = [] →
      ∃ t' g', generateTemplatePoints tm cv R g t = .ok (t', g') ∧
        t'.stablePoints.length = tm.featurePointsCount ∧
        t'.edgePoints.length = tm.featurePointsCount ∧
        t'.src = t.src ∧
        ∀ i, i < tm.featurePointsCount →
          i < t'.edgePoints.length ∧ i < t'.stablePoints.length) ∧
    (∀ (g : Nat) (groups out : List TemplateGroup) (g' : Nat),
      (∀ group ∈ groups, ∀ t ∈ group.templates, t.stablePoints = [] ∧ t.edgePoints = []) →
      generateFeaturePoints tm cv R g groups = .ok (out, g') →
      ∀ group' ∈ out, ∀ t' ∈ group'.templates,
        t'.stablePoints.length = tm.featurePointsCount ∧
        t'.edgePoints.length = tm.featurePointsCount) := by
  have one : ∀ (g : Nat) (t t' : Template) (g' : Nat),
      t.stablePoints = [] → t.edgePoints = [] →
      generateTemplatePoints tm cv R g t = .ok (t', g') →
      t'.stablePoints.length = tm.featurePointsCount ∧
      t'.edgePoints.length = tm.featurePointsCount ∧ t'.src = t.src := by
    intro g t t' g' hS hE h
    obtain ⟨_, hr⟩ := generateTemplatePoints_ok tm cv R g t (t', g') h
    obtain ⟨newS, newE, hnS, hnE, hlS, hlE, hsrc, _, _⟩ :=
      pickPoints_spec R (R.shuffle (stableCandidates tm cv t))
        (R.shuffle (cannyCandidates tm cv t)) tm.featurePointsCount g t
    rw [← hr] at hnS hnE hsrc
    simp only at hnS hnE hsrc
    rw [hnS, hnE, hS, hE]
    exact ⟨by simpa using hlS, by simpa using hlE, hsrc⟩
  constructor
  · intro g t he hS hE
    have h := generateTemplatePoints_of_enough tm cv R g t he
    obtain ⟨h1, h2, h3⟩ := one g t _ _ hS hE h
    refine ⟨_, _, h, h1, h2, h3, ?_⟩
    intro i hi
    rw [h1, h2]
    exact ⟨hi, hi⟩
  · intro g groups out g' hempty h group' hg' t' ht'
    obtain ⟨group, hgr, t, ht, g0, g1, h0⟩ :=
      generateFeaturePoints_ok_mem tm cv R groups g (out, g') h group' hg' t' ht'
    obtain ⟨hS, hE⟩ := hempty group hgr t ht
    obtain ⟨h1, h2, _⟩ := one g0 t t' g1 hS hE h0
    exact ⟨h1, h2⟩

theorem generated_point_counts_witness :
    enoughPoints (sampleMatcher 2) sampleOpenCV (sampleTemplate 3) ∧
    (sampleTemplate 3).stablePoints = [] ∧ (sampleTemplate 3).edgePoints = [] ∧
    ∃ t' g', generateTemplatePoints (sampleMatcher 2) sampleOpenCV sampleRandom 0
        (sampleTemplate 3) = .ok (t', g') ∧
      t'.stablePoints.length = 2 ∧ t'.edgePoints.length = 2 :=
  have he : enoughPoints (sampleMatcher 2) sampleOpenCV (sampleTemplate 3) := by
    unfold enoughPoints
    decide!
  ⟨he, rfl, rfl,
    ((generated_point_counts (sampleMatcher 2) sampleOpenCV sampleRandom).1 0
      (sampleTemplate 3) he rfl rfl).imp
      (fun _ ht => ht.imp (fun _ hg => ⟨hg.1, hg.2.1, hg.2.2.1⟩))⟩

/-! ### Classifier stages -/

theorem Run.andThen_of_fault {σ : Type} (r : Run σ) (next : σ → Run σ) (e : Fault)
    (h : r.fault = some e) : r.andThen next = r := by
  unfold Run.andThen
  rw [h]

theorem Run.andThen_of_ok {σ : Type} (r : Run σ) (next : σ → Run σ)
    (h : r.fault = none) : r.andThen next = next r.state := by
  unfold Run.andThen
  rw [h]

/-- C12: whenever `info.minEdgels` is not positive, `Objectness::objectness`
aborts on an assertion for every scene and every loop budget, so before any
scanning, and never returns a window list; `Classifier::detectObjectness`
aborts on its own assertion in the state it was called in: no window is
appended and nothing is printed. -/
theorem objectness_fails_fast_without_min_edgels :
    (∀ (P : Processing) (criteria : ClassifierCriteria) (fuel : Nat) (scene : Mat ℚ)
        (windows : List Window), ¬ (criteria.info.minEdgels > 0) →
      objectness P criteria fuel scene windows = .error .assertion) ∧
    (∀ (M : Members) (c : Classifier), ¬ (c.info.minEdgels > 0) →
      (Classifier.detectObjectness M c).fault = some .assertion ∧
      (Classifier.detectObjectness M c).state.windows = c.windows ∧
      (Classifier.detectObjectness M c).state.cout = c.cout) := by
  constructor
  · intro P criteria fuel scene windows h
    unfold objectness
    by_cases h1 : criteria.info.smallestTemplate.area > 0
    · simp only [h1, h, not_true_eq_false, not_false_eq_true, if_true, if_false]
    · simp only [h1, not_false_eq_true, if_true]
  · intro M c h
    unfold Classifier.detectObjectness
    by_cases h1 : c.info.smallestTemplate.area > 0
    · simp [h1, h]
    · simp [h1]

theorem objectness_fails_fast_without_min_edgels_witness :
    ¬ ((sampleCriteria 1 2 2 0).info.minEdgels > 0) ∧
    objectness sampleProcessing (sampleCriteria 1 2 2 0) 9 (sampleMask 3 3) []
      = .error .assertion ∧
    ¬ (sampleClassifier.info.minEdgels > 0) ∧
    (Classifier.detectObjectness sampleMembers sampleClassifier).fault = some .assertion :=
  ⟨by decide,
    objectness_fails_fast_without_min_edgels.1 sampleProcessing (sampleCriteria 1 2 2 0) 9
      (sampleMask 3 3) [] (by decide),
    by decide,
    (objectness_fails_fast_without_min_edgels.2 sampleMembers sampleClassifier
      (by decide)).1⟩

/-- C13 (the code at the failing input): with `featurePointsCount = 100` stored,
`setCannyThreshold1(0)`, `setCannyThreshold2(0)`, `setSobelMaxThreshold(0)` and
`setGrayscaleMinThreshold(0)` all return normally and store 0, because their
assertions test the member `featurePointsCount` and not the argument; only
`setFeaturePointsCount(0)` fails. With `featurePointsCount = 300` stored the
same setters reject the positive value 100. -/
theorem threshold_setters_accept_zero :
    (sampleMatcher 100).setCannyThreshold1 0 = .ok ⟨100, 0, 200, 50, 50⟩ ∧
    (sampleMatcher 100).setCannyThreshold2 0 = .ok ⟨100, 100, 0, 50, 50⟩ ∧
    (sampleMatcher 100).setSobelMaxThreshold 0 = .ok ⟨100, 100, 200, 0, 50⟩ ∧
    (sampleMatcher 100).setGrayscaleMinThreshold 0 = .ok ⟨100, 100, 200, 50, 0⟩ ∧
    ((sampleMatcher 100).setCannyThreshold1 0).map TemplateMatcher.getCannyThreshold1
      = .ok 0 ∧
    (sampleMatcher 100).setFeaturePointsCount 0 = .error .assertion ∧
    (sampleMatcher 300).setCannyThreshold1 100 = .error .assertion ∧
    (sampleMatcher 300).setGrayscaleMinThreshold 100 = .error .assertion := by
  decide

theorem loadScene_ok (M : Members) (c : Classifier)
    (h : (Classifier.loadScene M c).fault = none) :
    (Classifier.loadScene M c).state.cout = c.cout ++ ["Loading scene... ", "DONE!"] ∧
    (Classifier.loadScene M c).state.scene
      = M.imreadColor (c.basePath ++ c.scenePath ++ "rgb/" ++ c.sceneName) ∧
    (Classifier.loadScene M c).state.basePath = c.basePath ∧
    (Classifier.loadScene M c).state.templateFolders = c.templateFolders ∧
    (Classifier.loadScene M c).state.templateGroups = c.templateGroups ∧
    (Classifier.loadScene M c).state.info = c.info := by
  generalize hr : Classifier.loadScene M c = r at h ⊢
  unfold Classifier.loadScene at hr
  split_ifs at hr with h1 h2 h3 h4 h5
  all_goals try (exfalso; subst hr; simp at h; done)
  unfold Classifier.setScene at hr
  cases hs : (M.imreadColor (c.basePath ++ c.scenePath ++ "rgb/" ++ c.sceneName)).empty
  · simp only [hs, Bool.false_eq_true, if_false] at hr
    unfold Classifier.setSceneDepth at hr
    cases hd : (M.imreadDepth (c.basePath ++ c.scenePath ++ "depth/" ++ c.sceneName)).empty
    · simp only [hd, Bool.false_eq_true, if_false] at hr
      split_ifs at hr
      all_goals try (exfalso; subst hr; simp at h; done)
      subst hr
      simp
    · simp only [hd, if_true] at hr
      subst hr
      simp at h
  · simp only [hs, if_true] at hr
    subst hr
    simp at h

theorem parseTemplates_of_no_folder (M : Members) (c : Classifier)
    (h : c.templateFolders = []) :
    Classifier.parseTemplates M c = ⟨c, some .assertion⟩ := by
  unfold Classifier.parseTemplates
  have h2 : ¬ (c.templateFolders.length > 0) := by rw [h]; simp
  by_cases h1 : c.basePath.length > 0
  · rw [if_neg (not_not.2 h1), if_pos h2]
  · rw [if_pos h1]

theorem parseTemplates_of_no_group (M : Members) (c : Classifier) (info : DataSetInfo)
    (h : M.parse c.basePath c.templateFolders c.templateGroups c.info = .ok ([], info)) :
    (Classifier.parseTemplates M c).fault = some .assertion ∧
    ((Classifier.parseTemplates M c).state.cout = c.cout ∨
      (Classifier.parseTemplates M c).state.cout = c.cout ++ ["Parsing... "]) ∧
    (Classifier.parseTemplates M c).state.scene = c.scene := by
  unfold Classifier.parseTemplates
  by_cases h1 : c.basePath.length > 0
  · by_cases h2 : c.templateFolders.length > 0
    · rw [if_neg (not_not.2 h1), if_neg (not_not.2 h2)]
      simp [h]
    · rw [if_neg (not_not.2 h1), if_pos h2]
      exact ⟨rfl, Or.inl rfl, rfl⟩
  · rw [if_pos h1]
    exact ⟨rfl, Or.inl rfl, rfl⟩

theorem classify_of_parse_fault (M : Members) (c : Classifier) (e : Fault)
    (hl : (Classifier.loadScene M c).fault = none)
    (hp : (Classifier.parseTemplates M (Classifier.loadScene M c).state).fault = some e) :
    Classifier.classify M c = Classifier.parseTemplates M (Classifier.loadScene M c).state := by
  unfold Classifier.classify
  rw [Run.andThen_of_ok _ _ hl, Run.andThen_of_fault _ _ e hp, Run.andThen_of_fault _ _ e hp,
    Run.andThen_of_fault _ _ e hp, Run.andThen_of_fault _ _ e hp,
    Run.andThen_of_fault _ _ e hp, Run.andThen_of_fault _ _ e hp]

/-- C14 (counterexample): a classifier constructed with one template folder whose
parser finds no template group. `Classifier::classify` loads the scene first
(both `loadScene` messages are printed and the scene image is set) and only
then, in `parseTemplates`, aborts on the empty template set. -/
theorem scene_loaded_before_empty_template_set :
    ∃ c, blankClassifier.init "data/" ["01"] "scene/" "0000.png" = .ok c ∧
      sampleMembers.parse c.basePath c.templateFolders c.templateGroups c.info
        = .ok ([], c.info) ∧
      (Classifier.classify sampleMembers c).fault = some .assertion ∧
      (Classifier.classify sampleMembers c).state.cout
        = ["Loading scene... ", "DONE!", "Parsing... "] ∧
      (Classifier.classify sampleMembers c).state.scene.rows = 1 ∧
      blankClassifier.scene.rows = 0 :=
  ⟨_, rfl, rfl, by decide, by decide, by decide, rfl⟩

/-- C14 (amended): constructing a `Classifier`, or calling `setTemplateFolders` or
`setTemplateGroups`, with an empty list fails. In `Classifier::classify` scene
loading runs first; when it has returned and the template folder list is empty
or the parser yields no template group, `classify` aborts in `parseTemplates`:
the scene has been loaded, and none of min-edgel extraction, hash training,
template training, objectness detection and matching has started. -/
theorem empty_template_set_detected_after_scene_loading :
    (∀ (c : Classifier) (basePath scenePath sceneName : String),
      c.init basePath [] scenePath sceneName = .error .assertion) ∧
    (∀ c : Classifier, c.setTemplateFolders [] = .error .assertion ∧
      c.setTemplateGroups [] = .error .assertion) ∧
    (∀ (M : Members) (c : Classifier), (Classifier.loadScene M c).fault = none →
      (c.templateFolders = [] ∨
        ∃ info, M.parse c.basePath c.templateFolders c.templateGroups c.info
          = .ok ([], info)) →
      (Classifier.classify M c).fault = some .assertion ∧
      (Classifier.classify M c).state.scene
        = M.imreadColor (c.basePath ++ c.scenePath ++ "rgb/" ++ c.sceneName) ∧
      ((Classifier.classify M c).state.cout = c.cout ++ ["Loading scene... ", "DONE!"] ∨
        (Classifier.classify M c).state.cout
          = c.cout ++ ["Loading scene... ", "DONE!", "Parsing... "])) := by
  refine ⟨?_, ?_, ?_⟩
  · intro c basePath scenePath sceneName
    unfold Classifier.init Classifier.setBasePath
    split_ifs <;> simp [Classifier.setTemplateFolders]
  · intro c
    exact ⟨by simp [Classifier.setTemplateFolders], by simp [Classifier.setTemplateGroups]⟩
  · intro M c hl hempty
    obtain ⟨hcout, hscene, hbase, hfold, hgroups, hinfo⟩ := loadScene_ok M c hl
    rcases hempty with hf | ⟨info, hparse⟩
    · have hp := parseTemplates_of_no_folder M (Classifier.loadScene M c).state
        (by rw [hfold, hf])
      rw [classify_of_parse_fault M c .assertion hl (by rw [hp]), hp]
      exact ⟨rfl, hscene, Or.inl hcout⟩
    · have hp := parseTemplates_of_no_group M (Classifier.loadScene M c).state info
        (by rw [hbase, hfold, hgroups, hinfo]; exact hparse)
      rw [classify_of_parse_fault M c .assertion hl hp.1]
      refine ⟨hp.1, by rw [hp.2.2, hscene], ?_⟩
      rcases hp.2.1 with h | h
      · exact Or.inl (by rw [h, hcout])
      · exact Or.inr (by rw [h, hcout]; simp)

theorem empty_template_set_detected_after_scene_loading_witness :
    (Classifier.loadScene sampleMembers sampleClassifier).fault = none ∧
    (Classifier.classify sampleMembers sampleClassifier).fault = some .assertion ∧
    blankClassifier.init "data/" [] "scene/" "0000.png" = .error .assertion :=
  ⟨by decide,
    (empty_template_set_detected_after_scene_loading.2.2 sampleMembers sampleClassifier
      (by decide) (Or.inr ⟨_, rfl⟩)).1,
    empty_template_set_detected_after_scene_loading.1 blankClassifier "data/" "scene/"
      "0000.png"⟩

/-- C15: for every list of windows, `TemplateMatcher::match` hands back as many windows
as it was given, each at its position with its geometry and with a candidate
list that is a subset of the one it had before the call: no candidate and no
window is added or removed. -/
theorem match_keeps_candidate_subsets (tm : TemplateMatcher) (srcColor : Mat Color)
    (srcGrayscale srcDepth : Mat ℚ) (windows : List Window)
    (found : List TemplateMatch) :
    (tm.«match» srcColor srcGrayscale srcDepth windows found).1.length = windows.length ∧
    List.Forall₂
      (fun before after =>
        (∀ candidate ∈ after.candidates, candidate ∈ before.candidates) ∧
        after.x = before.x ∧ after.y = before.y ∧
        after.width = before.width ∧ after.height = before.height)
      windows (tm.«match» srcColor srcGrayscale srcDepth windows found).1 := by
  refine ⟨rfl, ?_⟩
  show List.Forall₂ _ windows windows
  induction windows with
  | nil => exact List.Forall₂.nil
  | cons w ws ih => exact List.Forall₂.cons ⟨fun _ h => h, rfl, rfl, rfl, rfl⟩ ih

/-- C16 (counterexample): one window that holds the candidate 7 and an empty match
list. After `TemplateMatcher::match` the window still holds its candidate and
the match list is still empty. -/
theorem surviving_candidate_without_match :
    ((sampleMatcher 100).«match» ⟨1, 1, fun _ _ => (0, 0, 0)⟩ ⟨1, 1, fun _ _ => 0⟩
        ⟨1, 1, fun _ _ => 0⟩ [⟨0, 0, 2, 2, 4, [7]⟩] []).1 = [⟨0, 0, 2, 2, 4, [7]⟩] ∧
    ((sampleMatcher 100).«match» ⟨1, 1, fun _ _ => (0, 0, 0)⟩ ⟨1, 1, fun _ _ => 0⟩
        ⟨1, 1, fun _ _ => 0⟩ [⟨0, 0, 2, 2, 4, [7]⟩] []).2 = [] :=
  ⟨rfl, rfl⟩

/-- C16 (amended): `TemplateMatcher::match` produces no match: for every input the
match list after the call is the match list before the call, whatever
candidates the windows hold; it is non-empty afterwards exactly when it was
non-empty before. -/
theorem match_leaves_matches_unchanged (tm : TemplateMatcher) (srcColor : Mat Color)
    (srcGrayscale srcDepth : Mat ℚ) (windows : List Window)
    (found : List TemplateMatch) :
    (tm.«match» srcColor srcGrayscale srcDepth windows found).2 = found ∧
    ((tm.«match» srcColor srcGrayscale srcDepth windows found).2 ≠ [] ↔ found ≠ []) :=
  ⟨rfl, Iff.rfl⟩

/-! ### Qualifying pixels -/

theorem mem_collectPoints (rows cols : Nat) (test : Nat → Nat → Bool) (p : Point) :
    p ∈ collectPoints rows cols test ↔
      ∃ y x : Nat, y < rows ∧ x < cols ∧ test y x = true ∧ p = ⟨x, y⟩ := by
  unfold collectPoints
  simp only [List.mem_flatMap, List.mem_filterMap, List.mem_range]
  constructor
  · rintro ⟨y, hy, x, hx, h⟩
    by_cases ht : test y x = true
    · rw [if_pos ht] at h
      injection h with h
      exact ⟨y, x, hy, hx, ht, h.symm⟩
    · rw [if_neg ht] at h
      cases h
  · rintro ⟨y, x, hy, hx, ht, rfl⟩
    exact ⟨y, hy, x, hx, by rw [if_pos ht]⟩

/-- C17: every stable point chosen by `generateFeaturePoints` passes the dual
threshold (its blurred 8-bit intensity is strictly above
`grayscaleMinThreshold` and its Sobel response is at most `sobelMaxThreshold`)
and every chosen edge point is a Canny edge pixel (value above 0), provided the
random index source returns indices within `[0, size - 1]` (and `std::shuffle`
permutes); all chosen points lie inside the template image. -/
theorem chosen_points_pass_thresholds (tm : TemplateMatcher) (cv : OpenCV)
    (R : RandomSources) (g : Nat) (t t' : Template) (g' : Nat)
    (hperm : ShufflePermutes R) (hrange : RandomInRange R)
    (h : generateTemplatePoints tm cv R g t = .ok (t', g')) :
    ∃ newStable newEdge,
      t'.stablePoints = t.stablePoints ++ newStable ∧
      t'.edgePoints = t.edgePoints ++ newEdge ∧
      (∀ p ∈ newStable, ∃ x y : Nat, p = ⟨x, y⟩ ∧ x < t.src.cols ∧ y < t.src.rows ∧
        (blurred8u cv t).px y x > tm.grayscaleMinThreshold ∧
        (sobelImage cv t).px y x ≤ tm.sobelMaxThreshold) ∧
      (∀ p ∈ newEdge, ∃ x y : Nat, p = ⟨x, y⟩ ∧ x < t.src.cols ∧ y < t.src.rows ∧
        (cannyImage tm cv t).px y x > 0) := by
  obtain ⟨he, hr⟩ := generateTemplatePoints_ok tm cv R g t (t', g') h
  obtain ⟨newS, newE, hS, hE, _, _, _, hmS, hmE⟩ :=
    pickPoints_spec R (R.shuffle (stableCandidates tm cv t))
      (R.shuffle (cannyCandidates tm cv t)) tm.featurePointsCount g t
  rw [← hr] at hS hE
  have hposS : 0 < (R.shuffle (stableCandidates tm cv t)).length := by
    rw [(hperm _).length_eq]
    exact Nat.lt_of_le_of_lt (Nat.zero_le _) he.1
  have hposE : 0 < (R.shuffle (cannyCandidates tm cv t)).length := by
    rw [(hperm _).length_eq]
    exact Nat.lt_of_le_of_lt (Nat.zero_le _) he.2
  refine ⟨newS, newE, hS, hE, ?_, ?_⟩
  · intro p hp
    have hmem : p ∈ stableCandidates tm cv t := (hperm _).mem_iff.1 (hmS hrange hposS p hp)
    unfold stableCandidates at hmem
    obtain ⟨y, x, hy, hx, ht, hpe⟩ := (mem_collectPoints _ _ _ p).1 hmem
    have ht' := of_decide_eq_true ht
    exact ⟨x, y, hpe, hx, hy, ht'.1, ht'.2⟩
  · intro p hp
    have hmem : p ∈ cannyCandidates tm cv t := (hperm _).mem_iff.1 (hmE hrange hposE p hp)
    unfold cannyCandidates at hmem
    obtain ⟨y, x, hy, hx, ht, hpe⟩ := (mem_collectPoints _ _ _ p).1 hmem
    exact ⟨x, y, hpe, hx, hy, of_decide_eq_true ht⟩

theorem chosen_points_pass_thresholds_witness :
    ShufflePermutes sampleRandom ∧ RandomInRange sampleRandom ∧
    ∃ t' g', generateTemplatePoints (sampleMatcher 2) sampleOpenCV sampleRandom 0
        (sampleTemplate 3) = .ok (t', g') ∧
      ∃ newStable newEdge,
        t'.stablePoints = (sampleTemplate 3).stablePoints ++ newStable ∧
        t'.edgePoints = (sampleTemplate 3).edgePoints ++ newEdge ∧
        (∀ p ∈ newStable, ∃ x y : Nat, p = ⟨x, y⟩ ∧ x < (sampleTemplate 3).src.cols ∧
          y < (sampleTemplate 3).src.rows ∧
          (blurred8u sampleOpenCV (sampleTemplate 3)).px y x
            > (sampleMatcher 2).grayscaleMinThreshold ∧
          (sobelImage sampleOpenCV (sampleTemplate 3)).px y x
            ≤ (sampleMatcher 2).sobelMaxThreshold) ∧
        (∀ p ∈ newEdge, ∃ x y : Nat, p = ⟨x, y⟩ ∧ x < (sampleTemplate 3).src.cols ∧
          y < (sampleTemplate 3).src.rows ∧
          (cannyImage (sampleMatcher 2) sampleOpenCV (sampleTemplate 3)).px y x > 0) :=
  have hp : ShufflePermutes sampleRandom := fun v => List.reverse_perm v
  have he : enoughPoints (sampleMatcher 2) sampleOpenCV (sampleTemplate 3) := by
    unfold enoughPoints
    decide!
  have h := generateTemplatePoints_of_enough (sampleMatcher 2) sampleOpenCV sampleRandom 0
    (sampleTemplate 3) he
  ⟨hp, sampleRandom_inRange, _, _, h,
    chosen_points_pass_thresholds (sampleMatcher 2) sampleOpenCV sampleRandom 0
      (sampleTemplate 3) _ _ hp sampleRandom_inRange h⟩

/-! ### Min-edgel extraction -/

theorem templateEdgels_eq (P : Processing) (t : Template) :
    templateEdgels P t
      = match normalizedCrop t with
        | none => .error .outOfBounds
        | some tNorm => .ok (truncToInt (windowSum tNorm 0 0 tNorm.cols tNorm.rows)) := by
  unfold templateEdgels
  cases normalizedCrop t with
  | none => rfl
  | some tNorm =>
    have hr : (integral tNorm).rows - 1 = tNorm.rows := rfl
    have hc : (integral tNorm).cols - 1 = tNorm.cols := rfl
    have hr' : tNorm.rows < (integral tNorm).rows := Nat.lt_succ_self _
    have hc' : tNorm.cols < (integral tNorm).cols := Nat.lt_succ_self _
    simp only [hr, hc, Mat.at?, hr', hc', and_self, if_true]
    simp only [integral, windowSum, Nat.zero_add]

theorem normalizedCrop_isSome (t : Template)
    (h : t.objBB.x + t.objBB.width ≤ t.srcDepth.cols ∧
      t.objBB.y + t.objBB.height ≤ t.srcDepth.rows) :
    ∃ tNorm, normalizedCrop t = some tNorm := by
  unfold normalizedCrop Mat.roi
  have h' : t.objBB.x + t.objBB.width ≤ (convertTo t.srcDepth (1 / 65536)).cols ∧
      t.objBB.y + t.objBB.height ≤ (convertTo t.srcDepth (1 / 65536)).rows := h
  rw [if_pos h']
  exact ⟨_, rfl⟩

theorem foldl_min_le (counts : List Int) :
    ∀ m : Int, counts.foldl min m ≤ m ∧ (∀ e ∈ counts, counts.foldl min m ≤ e) ∧
      (counts.foldl min m = m ∨ counts.foldl min m ∈ counts) := by
  induction counts with
  | nil => intro m; exact ⟨le_refl m, fun _ h => (by cases h), Or.inl rfl⟩
  | cons e es ih =>
    intro m
    obtain ⟨h1, h2, h3⟩ := ih (min m e)
    simp only [List.foldl_cons]
    refine ⟨le_trans h1 (min_le_left m e), ?_, ?_⟩
    · intro e' he'
      rcases List.mem_cons.1 he' with rfl | he'
      · exact le_trans h1 (min_le_right m e')
      · exact h2 e' he'
    · rcases h3 with h3 | h3
      · rcases min_choice m e with hm | hm
        · left; rw [h3, hm]
        · right; rw [h3, hm]; exact List.mem_cons_self _ _
      · right; exact List.mem_cons_of_mem _ h3

theorem extractMinEdgelsLoop_ok (P : Processing) :
    ∀ (templates : List Template) (criteria criteria' : ClassifierCriteria),
      extractMinEdgelsLoop P criteria templates = .ok criteria' →
      ∃ counts, List.Forall₂ (fun t e => templateEdgels P t = .ok e) templates counts ∧
        criteria'.info.minEdgels = counts.foldl min criteria.info.minEdgels ∧
        criteria'.info.smallestTemplate = criteria.info.smallestTemplate ∧
        criteria'.windowStep = criteria.windowStep ∧
        criteria'.objectnessFactor = criteria.objectnessFactor := by
  intro templates
  induction templates with
  | nil =>
    intro criteria criteria' h
    simp only [extractMinEdgelsLoop] at h
    injection h with h
    subst h
    exact ⟨[], List.Forall₂.nil, rfl, rfl, rfl, rfl⟩
  | cons t ts ih =>
    intro criteria criteria' h
    simp only [extractMinEdgelsLoop] at h
    cases he : templateEdgels P t with
    | error e => rw [he] at h; cases h
    | ok edgels =>
      rw [he] at h
      simp only at h
      obtain ⟨counts, hf, hmin, hs, hw, ho⟩ := ih _ criteria' h
      refine ⟨edgels :: counts, List.Forall₂.cons he hf, ?_, ?_, ?_, ?_⟩
      · rw [hmin, List.foldl_cons]
        congr 1
        by_cases hlt : edgels < criteria.info.minEdgels
        · rw [if_pos hlt]
          exact (min_eq_right (le_of_lt hlt)).symm
        · rw [if_neg hlt]
          exact (min_eq_left (not_lt.1 hlt)).symm
      · rw [hs]; split <;> rfl
      · rw [hw]; split <;> rfl
      · rw [ho]; split <;> rfl

theorem extractMinEdgelsLoop_returns (P : Processing) :
    ∀ (templates : List Template) (criteria : ClassifierCriteria),
      (∀ t ∈ templates, t.objBB.x + t.objBB.width ≤ t.srcDepth.cols ∧
        t.objBB.y + t.objBB.height ≤ t.srcDepth.rows) →
      ∃ criteria', extractMinEdgelsLoop P criteria templates = .ok criteria' := by
  intro templates
  induction templates with
  | nil => intro criteria _; exact ⟨criteria, rfl⟩
  | cons t ts ih =>
    intro criteria h
    obtain ⟨tNorm, hn⟩ := normalizedCrop_isSome t (h t (List.mem_cons_self _ _))
    have he := templateEdgels_eq P t
    rw [hn] at he
    simp only [extractMinEdgelsLoop, he]
    exact ih _ (fun t' ht' => h t' (List.mem_cons_of_mem _ ht'))

/-- C18 (the code at the failing input): a template whose depth image is 2 by 2 with
the raw value 32768 everywhere and whose bounding box covers it. The normalized
depth is 0.5 everywhere, so the thresholded Sobel edge mask is 0 everywhere and
the bounding box holds 0 edgels, which is also what the four lookups of
`Objectness::objectness` give for that region; `Objectness::extractMinEdgels`
counts 2, the sum of the normalized depth, and trains `minEdgels = 2`. For
every template the count is the same whatever the Sobel filter and the
threshold are. -/
theorem min_edgels_counts_depth_not_edges :
    boundingBoxEdgels gradientProcessing (sampleTemplate 3) = some 0 ∧
    (∃ tNorm, normalizedCrop (sampleTemplate 3) = some tNorm ∧
      fourLookups (integral (sobelMask gradientProcessing tNorm)) 0 0 2 2 = some 0) ∧
    templateEdgels gradientProcessing (sampleTemplate 3) = .ok 2 ∧
    (extractMinEdgels gradientProcessing (sampleCriteria 1 2 2 100)
        [sampleTemplate 3]).map (fun criteria => criteria.info.minEdgels) = .ok 2 ∧
    (∀ (P P' : Processing) (t : Template), templateEdgels P t = templateEdgels P' t) := by
  refine ⟨by decide!, ⟨_, rfl, by decide!⟩, by decide!, by decide!, ?_⟩
  intro P P' t
  rw [templateEdgels_eq, templateEdgels_eq]

/-- C19: for every non-empty template list, when `Objectness::extractMinEdgels`
returns, `info.minEdgels` is the minimum of its previous value and of the
edgel counts the function takes of the templates (the value of `edgels` at
line 26): it is at most every template's count, at most its previous value,
and equal to one of them; nothing else in the criteria changes. The function
returns whenever every bounding box lies inside its depth image. On an empty
list it fails, and `Classifier::extractMinEdgels` fails on an empty group
list. -/
theorem min_edgels_is_minimum (P : Processing) (criteria : ClassifierCriteria)
    (templates : List Template) :
    (∀ criteria', extractMinEdgels P criteria templates = .ok criteria' →
      templates ≠ [] ∧
      ∃ counts, List.Forall₂ (fun t e => templateEdgels P t = .ok e) templates counts ∧
        criteria'.info.minEdgels = counts.foldl min criteria.info.minEdgels ∧
        (∀ e ∈ counts, criteria'.info.minEdgels ≤ e) ∧
        criteria'.info.minEdgels ≤ criteria.info.minEdgels ∧
        (criteria'.info.minEdgels = criteria.info.minEdgels ∨
          criteria'.info.minEdgels ∈ counts) ∧
        criteria'.info.smallestTemplate = criteria.info.smallestTemplate ∧
        criteria'.windowStep = criteria.windowStep ∧
        criteria'.objectnessFactor = criteria.objectnessFactor) ∧
    (templates ≠ [] →
      (∀ t ∈ templates, t.objBB.x + t.objBB.width ≤ t.srcDepth.cols ∧
        t.objBB.y + t.objBB.height ≤ t.srcDepth.rows) →
      ∃ criteria', extractMinEdgels P criteria templates = .ok criteria') ∧
    extractMinEdgels P criteria [] = .error .assertion ∧
    (∀ (M : Members) (c : Classifier), c.templateGroups = [] →
      (Classifier.extractMinEdgels M c).fault = some .assertion) := by
  refine ⟨?_, ?_, rfl, ?_⟩
  · intro criteria' h
    unfold extractMinEdgels at h
    cases templates with
    | nil => simp at h
    | cons t ts =>
      simp only [List.isEmpty_cons, Bool.false_eq_true, if_false] at h
      obtain ⟨counts, hf, hmin, hs, hw, ho⟩ := extractMinEdgelsLoop_ok P _ criteria criteria' h
      obtain ⟨h1, h2, h3⟩ := foldl_min_le counts criteria.info.minEdgels
      rw [← hmin] at h1 h2 h3
      exact ⟨List.cons_ne_nil _ _, counts, hf, hmin, h2, h1, h3, hs, hw, ho⟩
  · intro hne hin
    unfold extractMinEdgels
    cases templates with
    | nil => exact absurd rfl hne
    | cons t ts =>
      simp only [List.isEmpty_cons, Bool.false_eq_true, if_false]
      exact extractMinEdgelsLoop_returns P _ criteria hin
  · intro M c h
    unfold Classifier.extractMinEdgels
    simp [h]

theorem min_edgels_is_minimum_witness :
    (extractMinEdgels gradientProcessing (sampleCriteria 1 2 2 3)
        [sampleTemplate 3,
          { sampleTemplate 3 with objBB := ⟨0, 0, 2, 1⟩ }]).map
      (fun criteria => criteria.info.minEdgels) = .ok 1 ∧
    ∃ criteria', extractMinEdgels gradientProcessing (sampleCriteria 1 2 2 3)
        [sampleTemplate 3, { sampleTemplate 3 with objBB := ⟨0, 0, 2, 1⟩ }] = .ok criteria' ∧
      criteria'.info.minEdgels ≤ (sampleCriteria 1 2 2 3).info.minEdgels :=
  have hret := (min_edgels_is_minimum gradientProcessing (sampleCriteria 1 2 2 3)
    [sampleTemplate 3, { sampleTemplate 3 with objBB := ⟨0, 0, 2, 1⟩ }]).2.1
    (by simp) (by decide)
  ⟨by decide!,
    hret.imp (fun criteria' h =>
      ⟨h, ((min_edgels_is_minimum gradientProcessing (sampleCriteria 1 2 2 3)
        [sampleTemplate 3, { sampleTemplate 3 with objBB := ⟨0, 0, 2, 1⟩ }]).1
        criteria' h).2.choose_spec.2.2.2.1⟩)⟩

/-! ### Particle fitness -/

theorem foldl_rel {α β γ : Type} (R : α → β → Prop) (f : α → γ → α) (g : β → γ → β)
    (l : List γ) (hstep : ∀ a b x, x ∈ l → R a b → R (f a x) (g b x)) :
    ∀ a b, R a b → R (l.foldl f a) (l.foldl g b) := by
  induction l with
  | nil => intro a b h; exact h
  | cons x xs ih =>
    intro a b h
    simp only [List.foldl_cons]
    exact ih (fun a b y hy hab => hstep a b y (List.mem_cons_of_mem _ hy) hab) _ _
      (hstep a b x (List.mem_cons_self _ _) h)

theorem objFunSums_rel (R : Sums → Sums → Prop) (gt : Mat FloatV) (n1 n2 : Mat Vec3f)
    (gtEdges : Mat Nat) (pose : Mat FloatV) (n1' n2' : Mat Vec3f) (poseT : Mat FloatV)
    (hstep : ∀ s s' y x, y < gt.rows → x < gt.cols → R s s' →
      R (objFunPixel gt n1 gtEdges pose n1' poseT s y x)
        (objFunPixel gt n2 gtEdges pose n2' poseT s' y x))
    (h0 : R ⟨some 0, some 0, some 0⟩ ⟨some 0, some 0, some 0⟩) :
    R (objFunSums gt n1 gtEdges pose n1' poseT) (objFunSums gt n2 gtEdges pose n2' poseT) := by
  unfold objFunSums
  apply foldl_rel R _ _ _ _ _ _ h0
  intro s s' y hy hs
  apply foldl_rel R _ _ _ _ _ _ hs
  intro s s' x hx hs
  exact hstep s s' y x (List.mem_range.1 hy) (List.mem_range.1 hx) hs

theorem normalTerm_pos (a b : Vec3f) : ∃ q, normalTerm a b = some q ∧ 0 < q ∧ q ≤ 1 := by
  unfold normalTerm
  cases hd : (a.dot b).abs with
  | none =>
    refine ⟨1 / (340282346638528859811704183484516925440 + 1), ?_, by norm_num, by norm_num⟩
    simp [FloatV.isnan, FloatV.div, FloatV.add, inf]
  | some d =>
    have hd0 : 0 ≤ d := by
      unfold FloatV.abs at hd
      cases hv : a.dot b with
      | none => rw [hv] at hd; cases hd
      | some v =>
        rw [hv] at hd
        simp only [Option.map_some', Option.some.injEq] at hd
        rw [← hd]
        exact abs_nonneg v
    refine ⟨1 / (d + 1), ?_, by positivity, ?_⟩
    · simp [FloatV.isnan, FloatV.div, FloatV.add]
    · rw [div_le_one (by linarith)]
      linarith

theorem depthTerm_denominator (a b : ℚ) :
    ∃ k : ℚ, 1 ≤ k ∧ depthTerm (some a) (some b) = some (1 / k) := by
  unfold depthTerm
  by_cases hgt : |a - b| > 200
  · refine ⟨340282346638528859811704183484516925440 + 1, by norm_num, ?_⟩
    simp [FloatV.sub, FloatV.abs, FloatV.gt, tD, hgt, FloatV.div, FloatV.add, inf]
  · refine ⟨|a - b| + 1, by linarith [abs_nonneg (a - b)], ?_⟩
    simp [FloatV.sub, FloatV.abs, FloatV.gt, tD, hgt, FloatV.div, FloatV.add]

theorem edgeTerm_denominator (d : ℚ) (h : 0 ≤ d) :
    ∃ k : ℚ, 1 ≤ k ∧ edgeTerm (some d) = some (1 / k) :=
  ⟨d + 1, by linarith, by simp [edgeTerm, FloatV.div, FloatV.add]⟩

theorem objFunPixel_sumU (gt : Mat FloatV) (gtNormals : Mat Vec3f) (gtEdges : Mat Nat)
    (pose : Mat FloatV) (poseNormals : Mat Vec3f) (poseT : Mat FloatV) (s : Sums)
    (y x : Nat) (u : ℚ) (hu : s.sumU = some u) :
    (objFunPixel gt gtNormals gtEdges pose poseNormals poseT s y x).sumU
      = some (u + (normalTerm (gtNormals.px y x) (poseNormals.px y x)).getD 0) := by
  obtain ⟨q, hq, _, _⟩ := normalTerm_pos (gtNormals.px y x) (poseNormals.px y x)
  simp only [objFunPixel, hu, hq, FloatV.add, Option.getD_some]

theorem foldl_cols_sumU (gt : Mat FloatV) (gtNormals : Mat Vec3f) (gtEdges : Mat Nat)
    (pose : Mat FloatV) (poseNormals : Mat Vec3f) (poseT : Mat FloatV) (y : Nat) :
    ∀ (l : List Nat) (s : Sums) (u : ℚ), s.sumU = some u →
      (l.foldl (fun s x => objFunPixel gt gtNormals gtEdges pose poseNormals poseT s y x)
        s).sumU
        = some (u + (l.map (fun x =>
            (normalTerm (gtNormals.px y x) (poseNormals.px y x)).getD 0)).sum) := by
  intro l
  induction l with
  | nil => intro s u hu; simp only [List.foldl_nil, hu, List.map_nil, List.sum_nil, add_zero]
  | cons x xs ih =>
    intro s u hu
    simp only [List.foldl_cons, List.map_cons, List.sum_cons]
    rw [ih _ _ (objFunPixel_sumU gt gtNormals gtEdges pose poseNormals poseT s y x u hu),
      add_assoc]

theorem foldl_rows_sumU (gt : Mat FloatV) (gtNormals : Mat Vec3f) (gtEdges : Mat Nat)
    (pose : Mat FloatV) (poseNormals : Mat Vec3f) (poseT : Mat FloatV) (cols : List Nat) :
    ∀ (l : List Nat) (s : Sums) (u : ℚ), s.sumU = some u →
      (l.foldl (fun s y => cols.foldl
        (fun s x => objFunPixel gt gtNormals gtEdges pose poseNormals poseT s y x) s)
        s).sumU
        = some (u + (l.map (fun y => (cols.map (fun x =>
            (normalTerm (gtNormals.px y x) (poseNormals.px y x)).getD 0)).sum)).sum) := by
  intro l
  induction l with
  | nil => intro s u hu; simp only [List.foldl_nil, hu, List.map_nil, List.sum_nil, add_zero]
  | cons y ys ih =>
    intro s u hu
    simp only [List.foldl_cons, List.map_cons, List.sum_cons]
    rw [ih _ _ (foldl_cols_sumU gt gtNormals gtEdges pose poseNormals poseT y cols s u hu),
      add_assoc]

/-- C20: `Particle::objFun` handles a NaN normal dot product locally. For every
depth and edge input: a pixel whose dot product is NaN adds the number
`1 / (inf + 1)` to `sumU`, every pixel adds a number in `(0, 1]`, and `sumU` is
never NaN; the returned fitness is the same for any two pairs of normal maps,
and it is a number whenever the depths and the edge distances are numbers,
whatever the normals are. Every depth term is `1 / k` with `k ≥ 1`, and so is
every edge term whose distance is not negative. The loop body adds the normal term
of its pixel to `sumU` (`u + 1 / (inf + 1)` after a NaN pixel that found `sumU = u`),
and after the loops `sumU` is the sum of the normal terms of all pixels; it adds the
depth term of the pixel to `sumD` and, at an edge pixel, the edge term to `sumE`. -/
theorem objFun_handles_nan_normals (edgeDistance : Mat FloatV → Nat → Nat → FloatV)
    (gt : Mat FloatV) (gtEdges : Mat Nat) (pose : Mat FloatV) :
    (∀ a b : Vec3f, (a.dot b).abs.isnan = true →
      normalTerm a b = some (1 / (340282346638528859811704183484516925440 + 1))) ∧
    (∀ a b : Vec3f, ∃ q, normalTerm a b = some q ∧ 0 < q ∧ q ≤ 1) ∧
    (∀ (gtNormals poseNormals : Mat Vec3f) (poseT : Mat FloatV),
      ∃ q, (objFunSums gt gtNormals gtEdges pose poseNormals poseT).sumU = some q) ∧
    (∀ gtNormals poseNormals gtNormals' poseNormals' : Mat Vec3f,
      objFun edgeDistance gt gtNormals gtEdges pose poseNormals
        = objFun edgeDistance gt gtNormals' gtEdges pose poseNormals') ∧
    ((∀ y x, y < gt.rows → x < gt.cols →
        (∃ v, gt.px y x = some v) ∧ (∃ v, pose.px y x = some v) ∧
        (∃ v, edgeDistance pose y x = some v)) →
      ∀ gtNormals poseNormals : Mat Vec3f,
        ∃ q, objFun edgeDistance gt gtNormals gtEdges pose poseNormals = some q) ∧
    (∀ a b : ℚ, ∃ k : ℚ, 1 ≤ k ∧ depthTerm (some a) (some b) = some (1 / k)) ∧
    (∀ d : ℚ, 0 ≤ d → ∃ k : ℚ, 1 ≤ k ∧ edgeTerm (some d) = some (1 / k)) ∧
    (∀ (gtNormals poseNormals : Mat Vec3f) (poseT : Mat FloatV) (s : Sums) (y x : Nat),
      (objFunPixel gt gtNormals gtEdges pose poseNormals poseT s y x).sumU
        = s.sumU.add (normalTerm (gtNormals.px y x) (poseNormals.px y x))) ∧
    (∀ (gtNormals poseNormals : Mat Vec3f) (poseT : Mat FloatV) (s : Sums) (y x : Nat)
        (u : ℚ), s.sumU = some u →
      ((gtNormals.px y x).dot (poseNormals.px y x)).abs.isnan = true →
      (objFunPixel gt gtNormals gtEdges pose poseNormals poseT s y x).sumU
        = some (u + 1 / (340282346638528859811704183484516925440 + 1))) ∧
    (∀ (gtNormals poseNormals : Mat Vec3f) (poseT : Mat FloatV),
      (objFunSums gt gtNormals gtEdges pose poseNormals poseT).sumU
        = some (((List.range gt.rows).map (fun y => ((List.range gt.cols).map (fun x =>
            (normalTerm (gtNormals.px y x) (poseNormals.px y x)).getD 0)).sum)).sum)) ∧
    (∀ (gtNormals poseNormals : Mat Vec3f) (poseT : Mat FloatV) (s : Sums) (y x : Nat),
      (objFunPixel gt gtNormals gtEdges pose poseNormals poseT s y x).sumD
        = s.sumD.add (depthTerm (gt.px y x) (pose.px y x)) ∧
      (objFunPixel gt gtNormals gtEdges pose poseNormals poseT s y x).sumE
        = if gtEdges.px y x > 0 then s.sumE.add (edgeTerm (poseT.px y x)) else s.sumE) := by
  have hnan : ∀ a b : Vec3f, (a.dot b).abs.isnan = true →
      normalTerm a b = some (1 / (340282346638528859811704183484516925440 + 1)) := by
    intro a b h
    unfold normalTerm
    simp [h, FloatV.div, FloatV.add, inf]
  refine ⟨hnan, normalTerm_pos, ?_, ?_, ?_, depthTerm_denominator, edgeTerm_denominator,
    fun _ _ _ _ _ _ => rfl, ?_, ?_, fun _ _ _ _ _ _ => ⟨rfl, rfl⟩⟩
  rotate_left 3
  · intro gtNormals poseNormals poseT s y x u hu hdot
    rw [objFunPixel_sumU gt gtNormals gtEdges pose poseNormals poseT s y x u hu,
      hnan _ _ hdot, Option.getD_some]
  · intro gtNormals poseNormals poseT
    unfold objFunSums
    rw [foldl_rows_sumU gt gtNormals gtEdges pose poseNormals poseT (List.range gt.cols)
      (List.range gt.rows) ⟨some 0, some 0, some 0⟩ 0 rfl, zero_add]
  · intro gtNormals poseNormals poseT
    have h := objFunSums_rel (fun s _ => ∃ q, s.sumU = some q) gt gtNormals gtNormals gtEdges
      pose poseNormals poseNormals poseT
      (by
        intro s s' y x _ _ hs
        obtain ⟨q, hq⟩ := hs
        obtain ⟨u, hu, _, _⟩ := normalTerm_pos (gtNormals.px y x) (poseNormals.px y x)
        exact ⟨q + u, by simp [objFunPixel, hq, hu, FloatV.add]⟩)
      ⟨0, rfl⟩
    exact h
  · intro n1 n1' n2 n2'
    have h := objFunSums_rel (fun s s' => s.sumD = s'.sumD ∧ s.sumE = s'.sumE) gt n1 n2 gtEdges
      pose n1' n2' ⟨pose.rows, pose.cols, edgeDistance pose⟩
      (by
        intro s s' y x _ _ hs
        simp only [objFunPixel, hs.1, hs.2, and_self])
      ⟨rfl, rfl⟩
    unfold objFun
    simp only [h.1, h.2]
  · intro hnum gtNormals poseNormals
    have h := objFunSums_rel
      (fun s _ => (∃ q, s.sumD = some q) ∧ (∃ q, s.sumE = some q)) gt gtNormals gtNormals
      gtEdges pose poseNormals poseNormals ⟨pose.rows, pose.cols, edgeDistance pose⟩
      (by
        intro s s' y x hy hx hs
        obtain ⟨⟨d, hd⟩, ⟨e, he⟩⟩ := hs
        obtain ⟨⟨a, ha⟩, ⟨b, hb⟩, ⟨v, hv⟩⟩ := hnum y x hy hx
        obtain ⟨k, _, hk⟩ := depthTerm_denominator a b
        constructor
        · exact ⟨d + 1 / k, by simp [objFunPixel, hd, ha, hb, hk, FloatV.add]⟩
        · by_cases hedge : gtEdges.px y x > 0
          · exact ⟨e + 1 / (v + 1),
              by simp [objFunPixel, he, hv, hedge, edgeTerm, FloatV.add, FloatV.div]⟩
          · exact ⟨e, by simp [objFunPixel, he, hedge]⟩)
      ⟨⟨0, rfl⟩, ⟨0, rfl⟩⟩
    obtain ⟨⟨d, hd⟩, ⟨e, he⟩⟩ := h
    unfold objFun
    exact ⟨-d * 1 * e, by simp [hd, he, FloatV.neg, FloatV.mul]⟩

theorem sampleDepthRow_px (a b : ℚ) (y x : Nat) :
    ∃ v, (sampleDepthRow a b).px y x = some v := by
  show ∃ v, (if x = 0 then some a else some b) = some v
  by_cases h : x = 0
  · exact ⟨a, by rw [if_pos h]⟩
  · exact ⟨b, by rw [if_neg h]⟩

theorem objFun_handles_nan_normals_witness :
    objFun (fun _ _ _ => some 1) (sampleDepthRow 10 20) nanNormals sampleEdgeRow
        (sampleDepthRow 10 25) nanNormals = some (-7 / 12) ∧
    objFun (fun _ _ _ => some 1) (sampleDepthRow 10 20) nanNormals sampleEdgeRow
        (sampleDepthRow 10 25) nanNormals
      = objFun (fun _ _ _ => some 1) (sampleDepthRow 10 20) unitNormals sampleEdgeRow
        (sampleDepthRow 10 25) unitNormals ∧
    (∃ q, objFun (fun _ _ _ => some 1) (sampleDepthRow 10 20) nanNormals sampleEdgeRow
        (sampleDepthRow 10 25) nanNormals = some q) ∧
    ((nanNormals.px 0 0).dot (nanNormals.px 0 0)).abs.isnan = true ∧
    (objFunPixel (sampleDepthRow 10 20) nanNormals sampleEdgeRow (sampleDepthRow 10 25)
        nanNormals ⟨1, 2, fun _ _ => some 1⟩ ⟨some 0, some 5, some 0⟩ 0 0).sumU
      = some (5 + 1 / (340282346638528859811704183484516925440 + 1)) ∧
    (objFunSums (sampleDepthRow 10 20) nanNormals sampleEdgeRow (sampleDepthRow 10 25)
        nanNormals ⟨1, 2, fun _ _ => some 1⟩).sumU
      = some (2 / 340282346638528859811704183484516925441) ∧
    (objFunSums (sampleDepthRow 10 20) unitNormals sampleEdgeRow (sampleDepthRow 10 25)
        unitNormals ⟨1, 2, fun _ _ => some 1⟩).sumU = some 1 :=
  ⟨by decide!,
    (objFun_handles_nan_normals (fun _ _ _ => some 1) (sampleDepthRow 10 20) sampleEdgeRow
      (sampleDepthRow 10 25)).2.2.2.1 nanNormals nanNormals unitNormals unitNormals,
    (objFun_handles_nan_normals (fun _ _ _ => some 1) (sampleDepthRow 10 20) sampleEdgeRow
      (sampleDepthRow 10 25)).2.2.2.2.1
      (fun y x _ _ => ⟨sampleDepthRow_px 10 20 y x, sampleDepthRow_px 10 25 y x, ⟨_, rfl⟩⟩)
      nanNormals nanNormals,
    rfl,
    (objFun_handles_nan_normals (fun _ _ _ => some 1) (sampleDepthRow 10 20) sampleEdgeRow
      (sampleDepthRow 10 25)).2.2.2.2.2.2.2.2.1 nanNormals nanNormals
      ⟨1, 2, fun _ _ => some 1⟩ ⟨some 0, some 5, some 0⟩ 0 0 5 rfl rfl,
    by decide!, by decide!⟩

/-! ### Order and number of the scan positions -/

theorem pairwise_lt_stridePositions (step bound start : Nat) (hs : 1 ≤ step) :
    (stridePositions step bound start).Pairwise (fun a b => a < b) := by
  unfold stridePositions
  rw [List.pairwise_map]
  refine List.Pairwise.imp ?_ (List.pairwise_lt_range _)
  intro a b hab
  have : a * step < b * step := Nat.mul_lt_mul_of_pos_right hab hs
  omega

theorem length_stridePositions (step bound start : Nat) :
    (stridePositions step bound start).length = tripCount step bound start := by
  simp [stridePositions]

theorem length_flatMap_const {α β : Type} (l : List α) (f : α → List β) (n : Nat)
    (h : ∀ a ∈ l, (f a).length = n) : (l.flatMap f).length = l.length * n := by
  induction l with
  | nil => simp
  | cons a as ih =>
    rw [List.flatMap_cons, List.length_append, h a (List.mem_cons_self _ _),
      ih (fun b hb => h b (List.mem_cons_of_mem _ hb)), List.length_cons, Nat.succ_mul]
    omega

theorem length_visitedPositions (criteria : ClassifierCriteria) (m : Mat ℚ) :
    (visitedPositions criteria m).length
      = tripCount criteria.windowStep (m.rows - criteria.info.smallestTemplate.height) 0
        * tripCount criteria.windowStep (m.cols - criteria.info.smallestTemplate.width) 0 := by
  unfold visitedPositions
  rw [length_flatMap_const _ _
    (tripCount criteria.windowStep (m.cols - criteria.info.smallestTemplate.width) 0),
    length_stridePositions]
  intro y _
  rw [List.length_map, length_stridePositions]

theorem mem_visitedPositions (criteria : ClassifierCriteria) (m : Mat ℚ) (x y : Nat)
    (hs : 1 ≤ criteria.windowStep) :
    (x, y) ∈ visitedPositions criteria m ↔ Visits criteria m x y := by
  unfold visitedPositions Visits
  simp only [List.mem_flatMap, List.mem_map, mem_stridePositions _ _ _ hs, Prod.mk.injEq]
  constructor
  · rintro ⟨y', ⟨hy1, hy2⟩, x', ⟨hx1, hx2⟩, rfl, rfl⟩
    exact ⟨hx1, hy1, by omega, by omega⟩
  · rintro ⟨hx1, hy1, hx2, hy2⟩
    exact ⟨y, ⟨hy1, by omega⟩, x, ⟨hx1, by omega⟩, rfl, rfl⟩

theorem nodup_visitedPositions (criteria : ClassifierCriteria) (m : Mat ℚ)
    (hs : 1 ≤ criteria.windowStep) : (visitedPositions criteria m).Nodup := by
  unfold visitedPositions
  have hx := pairwise_lt_stridePositions criteria.windowStep
    (m.cols - criteria.info.smallestTemplate.width) 0 hs
  have hy := pairwise_lt_stridePositions criteria.windowStep
    (m.rows - criteria.info.smallestTemplate.height) 0 hs
  unfold List.Nodup
  rw [List.pairwise_flatMap]
  constructor
  · intro y _
    rw [List.pairwise_map]
    refine List.Pairwise.imp ?_ hx
    intro a b hab h
    injection h with h1 _
    omega
  · refine List.Pairwise.imp ?_ hy
    intro a b hab p hp q hq h
    obtain ⟨_, _, rfl⟩ := List.mem_map.1 hp
    obtain ⟨_, _, rfl⟩ := List.mem_map.1 hq
    injection h with _ h2
    omega

theorem scanWindows_eq_filterMap (criteria : ClassifierCriteria) (m : Mat ℚ) (edgels : Nat) :
    scanWindows criteria m edgels 0
      = (visitedPositions criteria m).filterMap
          (fun p => windowAt criteria m edgels p.1 p.2) := by
  unfold scanWindows visitedPositions rowWindows
  generalize stridePositions criteria.windowStep
    (m.rows - criteria.info.smallestTemplate.height) 0 = ys
  induction ys with
  | nil => rfl
  | cons y ys ih =>
    rw [List.flatMap_cons, List.flatMap_cons, List.filterMap_append, ih, List.filterMap_map]
    rfl

theorem tripCount_eq_ceil (step bound : Nat) (hs : 1 ≤ step) :
    ((tripCount step bound 0 : Nat) : Int) = ⌈((bound : Int) : ℚ) / (step : ℚ)⌉ := by
  symm
  rw [Int.ceil_eq_iff]
  have hsq : (0 : ℚ) < (step : ℚ) := by exact_mod_cast hs
  unfold tripCount
  simp only [Nat.sub_zero, Int.cast_natCast]
  have h1 : (bound + step - 1) / step * step ≤ bound + step - 1 := Nat.div_mul_le_self _ _
  have h2 : bound + step - 1 < ((bound + step - 1) / step + 1) * step := by
    rw [Nat.mul_comm]
    exact Nat.lt_mul_div_succ _ hs
  rw [Nat.succ_mul] at h2
  generalize (bound + step - 1) / step = t at h1 h2 ⊢
  have h1' : (t : ℚ) * step ≤ (bound : ℚ) + step - 1 := by
    have : t * step + 1 ≤ bound + step := by omega
    have hq : ((t * step + 1 : Nat) : ℚ) ≤ ((bound + step : Nat) : ℚ) := by exact_mod_cast this
    push_cast at hq
    linarith
  have h2' : (bound : ℚ) ≤ (t : ℚ) * step := by
    have : bound ≤ t * step := by omega
    exact_mod_cast this
  constructor
  · rw [lt_div_iff₀ hsq]
    have : ((t : ℚ) - 1) * step = (t : ℚ) * step - step := by ring
    linarith
  · rw [div_le_iff₀ hsq]
    exact h2'

theorem objectness_eq_of_positive_step (P : Processing) (criteria : ClassifierCriteria)
    (fuel : Nat) (scene : Mat ℚ) (windows : List Window) (hp : objectnessPre criteria scene)
    (hs : 1 ≤ criteria.windowStep) :
    objectness P criteria fuel scene windows
      = if tripCount criteria.windowStep
              (scene.rows - criteria.info.smallestTemplate.height) 0 ≤ fuel ∧
            (0 < scene.rows - criteria.info.smallestTemplate.height →
              tripCount criteria.windowStep
                (scene.cols - criteria.info.smallestTemplate.width) 0 ≤ fuel)
        then .ok (windows
          ++ scanWindows criteria (sobelMask P scene) (edgelsThreshold criteria) 0)
        else .error .fuel := by
  rw [objectness_of_pre P criteria fuel scene windows hp]
  unfold objectnessScan
  rw [scanRows_eq criteria (sobelMask P scene) _ fuel hs fuel 0 windows]
  rfl

theorem objectness_of_zero_step (P : Processing) (criteria : ClassifierCriteria)
    (fuel : Nat) (scene : Mat ℚ) (windows : List Window) (hp : objectnessPre criteria scene)
    (hs : criteria.windowStep = 0)
    (hrows : criteria.info.smallestTemplate.height < scene.rows) :
    objectness P criteria fuel scene windows = .error .fuel := by
  rw [objectness_of_pre P criteria fuel scene windows hp]
  unfold objectnessScan
  rw [scanRows_zero_step criteria (sobelMask P scene) _ fuel hs fuel 0 windows, if_pos]
  show ((0 : Nat) : Int) < (scene.rows : Int) - (criteria.info.smallestTemplate.height : Int)
  omega

theorem natCast_sub_eq_max (a b : Nat) : ((a - b : Nat) : Int) = max 0 ((a : Int) - (b : Int)) := by
  rw [max_def]
  split <;> omega

/-! ### Claims about the scan as a whole -/

/-- C21: whenever `criteria.windowStep ≥ 1` (and the assertions hold) the scan of
`Objectness::objectness` terminates for every scene: it returns as soon as the
loop budget covers `ceil(max(0, rows - sizeY) / windowStep)` outer and
`ceil(max(0, cols - sizeX) / windowStep)` inner iterations, and not with less;
it visits each position that passes both loop headers once, that is
`ceil(max(0, rows - sizeY) / windowStep) * ceil(max(0, cols - sizeX) / windowStep)`
positions, and appends the windows of those that meet the threshold. No
assertion constrains `windowStep` (the third one is on `objectnessFactor`): with
`windowStep = 0` and a scene with more rows than the template the assertions
pass and the scan does not terminate, whatever the budget. -/
theorem scan_terminates_iff_step_positive (P : Processing) (criteria : ClassifierCriteria)
    (scene : Mat ℚ) (windows : List Window) :
    (1 ≤ criteria.windowStep → objectnessPre criteria scene →
      (∀ fuel, scene.rows ≤ fuel → scene.cols ≤ fuel →
        ∃ out, objectness P criteria fuel scene windows = .ok out) ∧
      (∀ fuel, (∃ out, objectness P criteria fuel scene windows = .ok out) ↔
        (⌈((max 0 ((scene.rows : Int) - (criteria.info.smallestTemplate.height : Int)) : Int)
            : ℚ) / (criteria.windowStep : ℚ)⌉ ≤ (fuel : Int) ∧
          (criteria.info.smallestTemplate.height < scene.rows →
            ⌈((max 0 ((scene.cols : Int) - (criteria.info.smallestTemplate.width : Int)) : Int)
              : ℚ) / (criteria.windowStep : ℚ)⌉ ≤ (fuel : Int)))) ∧
      (∀ fuel out, objectness P criteria fuel scene windows = .ok out →
        out = windows ++ (visitedPositions criteria (sobelMask P scene)).filterMap
          (fun p => windowAt criteria (sobelMask P scene) (edgelsThreshold criteria)
            p.1 p.2))) ∧
    (1 ≤ criteria.windowStep →
      (∀ x y, (x, y) ∈ visitedPositions criteria (sobelMask P scene) ↔
        Visits criteria (sobelMask P scene) x y) ∧
      (visitedPositions criteria (sobelMask P scene)).Nodup ∧
      ((visitedPositions criteria (sobelMask P scene)).length : Int)
        = referencePositionCount criteria scene) ∧
    (∀ step : Nat, objectnessPre criteria scene ↔
      objectnessPre { criteria with windowStep := step } scene) ∧
    (criteria.windowStep = 0 → objectnessPre criteria scene →
      criteria.info.smallestTemplate.height < scene.rows →
      ∀ fuel, objectness P criteria fuel scene windows = .error .fuel) := by
  have hceilY : ∀ hs : 1 ≤ criteria.windowStep,
      ((tripCount criteria.windowStep
        (scene.rows - criteria.info.smallestTemplate.height) 0 : Nat) : Int)
      = ⌈((max 0 ((scene.rows : Int) - (criteria.info.smallestTemplate.height : Int)) : Int)
          : ℚ) / (criteria.windowStep : ℚ)⌉ := by
    intro hs
    rw [tripCount_eq_ceil _ _ hs, natCast_sub_eq_max]
  have hceilX : ∀ hs : 1 ≤ criteria.windowStep,
      ((tripCount criteria.windowStep
        (scene.cols - criteria.info.smallestTemplate.width) 0 : Nat) : Int)
      = ⌈((max 0 ((scene.cols : Int) - (criteria.info.smallestTemplate.width : Int)) : Int)
          : ℚ) / (criteria.windowStep : ℚ)⌉ := by
    intro hs
    rw [tripCount_eq_ceil _ _ hs, natCast_sub_eq_max]
  refine ⟨?_, ?_, ?_, ?_⟩
  · intro hs hp
    refine ⟨?_, ?_, ?_⟩
    · intro fuel hr hc
      exact ⟨_, objectness_returns P criteria fuel scene windows hp hs hr hc⟩
    · intro fuel
      rw [objectness_eq_of_positive_step P criteria fuel scene windows hp hs,
        ← hceilY hs, ← hceilX hs]
      constructor
      · rintro ⟨out, hout⟩
        split at hout
        · rename_i hcond
          exact ⟨by exact_mod_cast hcond.1,
            fun hlt => by exact_mod_cast hcond.2 (by omega)⟩
        · cases hout
      · rintro ⟨h1, h2⟩
        have hcond : tripCount criteria.windowStep
              (scene.rows - criteria.info.smallestTemplate.height) 0 ≤ fuel ∧
            (0 < scene.rows - criteria.info.smallestTemplate.height →
              tripCount criteria.windowStep
                (scene.cols - criteria.info.smallestTemplate.width) 0 ≤ fuel) :=
          ⟨by exact_mod_cast h1, fun hlt => by exact_mod_cast h2 (by omega)⟩
        rw [if_pos hcond]
        exact ⟨_, rfl⟩
    · intro fuel out hout
      rw [(objectness_ok_windows P criteria fuel scene windows out hout).2.1,
        scanWindows_eq_filterMap]
  · intro hs
    refine ⟨fun x y => mem_visitedPositions criteria _ x y hs,
      nodup_visitedPositions criteria _ hs, ?_⟩
    rw [length_visitedPositions]
    unfold referencePositionCount
    rw [← hceilY hs, ← hceilX hs]
    push_cast
    rfl
  · intro step
    exact Iff.rfl
  · intro hs hp hrows fuel
    exact objectness_of_zero_step P criteria fuel scene windows hp hs hrows

theorem scan_terminates_iff_step_positive_witness :
    1 ≤ (sampleCriteria 2 2 1 1).windowStep ∧
    objectnessPre (sampleCriteria 2 2 1 1) (sampleMask 3 7) ∧
    (∃ out, objectness sampleProcessing (sampleCriteria 2 2 1 1) 7 (sampleMask 3 7) []
      = .ok out) ∧
    visitedPositions (sampleCriteria 2 2 1 1) (sobelMask sampleProcessing (sampleMask 3 7))
      = [(0, 0), (2, 0), (4, 0)] ∧
    referencePositionCount (sampleCriteria 2 2 1 1) (sampleMask 3 7) = 3 ∧
    objectness sampleProcessing (sampleCriteria 2 2 1 1) 2 (sampleMask 3 7) []
      = .error .fuel ∧
    (sampleCriteria 0 2 1 1).windowStep = 0 ∧
    objectnessPre (sampleCriteria 0 2 1 1) (sampleMask 3 7) ∧
    objectness sampleProcessing (sampleCriteria 0 2 1 1) 1000 (sampleMask 3 7) []
      = .error .fuel :=
  have hp : objectnessPre (sampleCriteria 2 2 1 1) (sampleMask 3 7) :=
    ⟨by decide, by decide, by decide!, rfl⟩
  have hp0 : objectnessPre (sampleCriteria 0 2 1 1) (sampleMask 3 7) :=
    ⟨by decide, by decide, by decide!, rfl⟩
  ⟨by decide, hp,
    ((scan_terminates_iff_step_positive sampleProcessing (sampleCriteria 2 2 1 1)
      (sampleMask 3 7) []).1 (by decide) hp).1 7 (by decide) (by decide),
    by decide, by decide!, by decide!, rfl, hp0,
    (scan_terminates_iff_step_positive sampleProcessing (sampleCriteria 0 2 1 1)
      (sampleMask 3 7) []).2.2.2 rfl hp0 (by decide) 1000⟩

theorem pairwise_visitedPositions (criteria : ClassifierCriteria) (m : Mat ℚ)
    (hs : 1 ≤ criteria.windowStep) :
    (visitedPositions criteria m).Pairwise
      (fun p q => p.2 < q.2 ∨ (p.2 = q.2 ∧ p.1 < q.1)) := by
  unfold visitedPositions
  rw [List.pairwise_flatMap]
  refine ⟨fun y _ => ?_, ?_⟩
  · rw [List.pairwise_map]
    exact (pairwise_lt_stridePositions criteria.windowStep
      (m.cols - criteria.info.smallestTemplate.width) 0 hs).imp
        (fun h => Or.inr ⟨rfl, h⟩)
  · refine (pairwise_lt_stridePositions criteria.windowStep
      (m.rows - criteria.info.smallestTemplate.height) 0 hs).imp ?_
    intro a b hab p hp q hq
    simp only [List.mem_map] at hp hq
    obtain ⟨_, _, rfl⟩ := hp
    obtain ⟨_, _, rfl⟩ := hq
    exact Or.inl hab

theorem pairwise_before_scanWindows (criteria : ClassifierCriteria) (m : Mat ℚ)
    (edgels : Nat) : (scanWindows criteria m edgels 0).Pairwise Window.before := by
  rcases Nat.eq_zero_or_pos criteria.windowStep with h0 | hpos
  · simp only [scanWindows, h0, stridePositions_zero_step, List.flatMap_nil,
      List.Pairwise.nil]
  · rw [scanWindows_eq_filterMap]
    refine List.Pairwise.filterMap _ ?_ (pairwise_visitedPositions criteria m hpos)
    intro p q hpq w hw w' hw'
    rw [Option.mem_def, windowAt_eq_some] at hw hw'
    obtain ⟨_, rfl⟩ := hw
    obtain ⟨_, rfl⟩ := hw'
    unfold Window.before
    simp only [Nat.cast_lt, Nat.cast_inj]
    exact hpq

theorem nodup_of_pairwise_before (l : List Window) (h : l.Pairwise Window.before) :
    (l.map (fun w => (w.x, w.y))).Nodup := by
  unfold List.Nodup
  rw [List.pairwise_map]
  refine h.imp ?_
  intro a b hab heq
  simp only [Prod.mk.injEq] at heq
  unfold Window.before at hab
  omega

/-- C22: `Objectness::objectness` only appends to its output list. With the assertions
satisfied, a positive `criteria.windowStep` and a loop budget of at least the scene's
rows and columns the call returns; and whenever it returns, the windows it was given are
a prefix of the output and the new windows follow in strictly increasing row-major
`(y, x)` order, so no position is emitted twice, and the `x` and `y` of every new window
are multiples of `criteria.windowStep`. -/
theorem objectness_appends_in_row_major_order (P : Processing)
    (criteria : ClassifierCriteria) (fuel : Nat) (scene : Mat ℚ)
    (windows : List Window) :
    (objectnessPre criteria scene → 1 ≤ criteria.windowStep →
      scene.rows ≤ fuel → scene.cols ≤ fuel →
      ∃ out, objectness P criteria fuel scene windows = .ok out) ∧
    ∀ out, objectness P criteria fuel scene windows = .ok out →
      ∃ new : List Window,
        out = windows ++ new ∧
        out.take windows.length = windows ∧
        new.Pairwise Window.before ∧
        (new.map (fun w => (w.x, w.y))).Nodup ∧
        new.Nodup ∧
        ∀ w ∈ new,
          (criteria.windowStep : Int) ∣ w.x ∧ (criteria.windowStep : Int) ∣ w.y := by
  refine ⟨fun hp hs hr hc =>
    ⟨_, objectness_returns P criteria fuel scene windows hp hs hr hc⟩, ?_⟩
  intro out h
  obtain ⟨_, hout, hmem⟩ := objectness_ok_windows P criteria fuel scene windows out h
  have hpw := pairwise_before_scanWindows criteria (sobelMask P scene)
    (edgelsThreshold criteria)
  have hnd := nodup_of_pairwise_before _ hpw
  refine ⟨_, hout, ?_, hpw, hnd, hnd.of_map _, ?_⟩
  · rw [hout, List.take_left]
  · intro w hw
    obtain ⟨x, y, hv, hw⟩ := (hmem w).1 hw
    obtain ⟨_, rfl⟩ := (windowAt_eq_some _ _ _ _ _ _).1 hw
    exact ⟨Int.natCast_dvd_natCast.2 hv.1, Int.natCast_dvd_natCast.2 hv.2.1⟩

theorem objectness_appends_in_row_major_order_witness :
    objectnessPre (sampleCriteria 2 2 1 1) (sampleMask 3 7) ∧
    1 ≤ (sampleCriteria 2 2 1 1).windowStep ∧
    (∃ out, objectness sampleProcessing (sampleCriteria 2 2 1 1) 7 (sampleMask 3 7)
      [⟨9, 9, 1, 1, 5, []⟩] = .ok out) ∧
    objectness sampleProcessing (sampleCriteria 2 2 1 1) 7 (sampleMask 3 7)
        [⟨9, 9, 1, 1, 5, []⟩]
      = .ok [⟨9, 9, 1, 1, 5, []⟩, ⟨0, 0, 2, 1, 2, []⟩, ⟨2, 0, 2, 1, 2, []⟩,
          ⟨4, 0, 2, 1, 2, []⟩] ∧
    ∃ new : List Window,
      [⟨9, 9, 1, 1, 5, []⟩, ⟨0, 0, 2, 1, 2, []⟩, ⟨2, 0, 2, 1, 2, []⟩, ⟨4, 0, 2, 1, 2, []⟩]
        = [⟨9, 9, 1, 1, 5, []⟩] ++ new ∧
      ([⟨9, 9, 1, 1, 5, []⟩, ⟨0, 0, 2, 1, 2, []⟩, ⟨2, 0, 2, 1, 2, []⟩,
          ⟨4, 0, 2, 1, 2, []⟩] : List Window).take
        ([⟨9, 9, 1, 1, 5, []⟩] : List Window).length = [⟨9, 9, 1, 1, 5, []⟩] ∧
      new.Pairwise Window.before ∧
      (new.map (fun w => (w.x, w.y))).Nodup ∧
      new.Nodup ∧
      ∀ w ∈ new, ((sampleCriteria 2 2 1 1).windowStep : Int) ∣ w.x ∧
        ((sampleCriteria 2 2 1 1).windowStep : Int) ∣ w.y :=
  have hp : objectnessPre (sampleCriteria 2 2 1 1) (sampleMask 3 7) :=
    ⟨by decide, by decide, by decide!, rfl⟩
  ⟨hp, by decide,
    (objectness_appends_in_row_major_order sampleProcessing (sampleCriteria 2 2 1 1) 7
      (sampleMask 3 7) [⟨9, 9, 1, 1, 5, []⟩]).1 hp (by decide) (by decide) (by decide),
    by decide!,
    (objectness_appends_in_row_major_order sampleProcessing (sampleCriteria 2 2 1 1) 7
      (sampleMask 3 7) [⟨9, 9, 1, 1, 5, []⟩]).2 _ (by decide!)⟩

/-! ### One step of the particle swarm (`Particle::progress`) -/

theorem stateAfter_add (nextR : Nat → ℚ × Nat) (g a b : Nat) :
    stateAfter nextR (stateAfter nextR g a) b = stateAfter nextR g (a + b) := by
  induction a generalizing g with
  | zero => simp only [stateAfter, Nat.zero_add]
  | succ a ih =>
    rw [Nat.succ_add]
    exact ih _

theorem drawn_stateAfter (nextR : Nat → ℚ × Nat) (g a b : Nat) :
    drawn nextR (stateAfter nextR g a) b = drawn nextR g (a + b) := by
  induction a generalizing g with
  | zero => simp only [stateAfter, Nat.zero_add]
  | succ a ih =>
    rw [Nat.succ_add]
    exact ih _

theorem updateVelocity_gen (nextR : Nat → ℚ × Nat) (leftFirst : Bool) (this gBest : Nat)
    (w c1 c2 : ℚ) (s : Swarm) (i : Nat) :
    (Particle.updateVelocity nextR leftFirst this gBest w c1 c2 s i).gen
      = stateAfter nextR s.gen 2 := rfl

theorem updateVelocity_cout (nextR : Nat → ℚ × Nat) (leftFirst : Bool) (this gBest : Nat)
    (w c1 c2 : ℚ) (s : Swarm) (i : Nat) :
    (Particle.updateVelocity nextR leftFirst this gBest w c1 c2 s i).cout = s.cout := rfl

theorem updateVelocity_other (nextR : Nat → ℚ × Nat) (leftFirst : Bool) (this gBest : Nat)
    (w c1 c2 : ℚ) (s : Swarm) (i a : Nat) (h : a ≠ this) :
    (Particle.updateVelocity nextR leftFirst this gBest w c1 c2 s i).particles a
      = s.particles a := by
  simp only [Particle.updateVelocity, Function.update_noteq h]

theorem updateVelocity_pose (nextR : Nat → ℚ × Nat) (leftFirst : Bool) (this gBest : Nat)
    (w c1 c2 : ℚ) (s : Swarm) (i a : Nat) :
    ((Particle.updateVelocity nextR leftFirst this gBest w c1 c2 s i).particles a).pose
      = (s.particles a).pose := by
  by_cases h : a = this
  · subst h
    simp only [Particle.updateVelocity, Function.update_same]
  · rw [updateVelocity_other _ _ _ _ _ _ _ _ _ _ h]

theorem updateVelocity_pBest (nextR : Nat → ℚ × Nat) (leftFirst : Bool) (this gBest : Nat)
    (w c1 c2 : ℚ) (s : Swarm) (i a : Nat) :
    ((Particle.updateVelocity nextR leftFirst this gBest w c1 c2 s i).particles a).pBest
      = (s.particles a).pBest := by
  by_cases h : a = this
  · subst h
    simp only [Particle.updateVelocity, Function.update_same]
  · rw [updateVelocity_other _ _ _ _ _ _ _ _ _ _ h]

theorem updateVelocity_fitness (nextR : Nat → ℚ × Nat) (leftFirst : Bool)
    (this gBest : Nat) (w c1 c2 : ℚ) (s : Swarm) (i a : Nat) :
    ((Particle.updateVelocity nextR leftFirst this gBest w c1 c2 s i).particles a).fitness
      = (s.particles a).fitness := by
  by_cases h : a = this
  · subst h
    simp only [Particle.updateVelocity, Function.update_same]
  · rw [updateVelocity_other _ _ _ _ _ _ _ _ _ _ h]

theorem updateVelocity_v (nextR : Nat → ℚ × Nat) (leftFirst : Bool) (this gBest : Nat)
    (w c1 c2 : ℚ) (s : Swarm) (i j : Nat) :
    ((Particle.updateVelocity nextR leftFirst this gBest w c1 c2 s i).particles this).v j
      = if j = i then
          Particle.velocity w ((s.particles this).v i) ((s.particles this).pose i)
            ((s.particles this).pBest.pose i) ((s.particles gBest).pose i) c1 c2
            (if leftFirst then drawn nextR s.gen 0 else drawn nextR s.gen 1)
            (if leftFirst then drawn nextR s.gen 1 else drawn nextR s.gen 0)
        else (s.particles this).v j := by
  simp only [Particle.updateVelocity, Function.update_same, Function.update_apply, drawn]

theorem updatePose_gen (this : Nat) (s : Swarm) (i : Nat) :
    (Particle.updatePose this s i).gen = s.gen := rfl

theorem updatePose_cout (this : Nat) (s : Swarm) (i : Nat) :
    (Particle.updatePose this s i).cout = s.cout := rfl

theorem updatePose_other (this : Nat) (s : Swarm) (i a : Nat) (h : a ≠ this) :
    (Particle.updatePose this s i).particles a = s.particles a := by
  simp only [Particle.updatePose, Function.update_noteq h]

theorem updatePose_v (this : Nat) (s : Swarm) (i a : Nat) :
    ((Particle.updatePose this s i).particles a).v = (s.particles a).v := by
  by_cases h : a = this
  · subst h
    simp only [Particle.updatePose, Function.update_same]
  · rw [updatePose_other _ _ _ _ h]

theorem updatePose_pBest (this : Nat) (s : Swarm) (i a : Nat) :
    ((Particle.updatePose this s i).particles a).pBest = (s.particles a).pBest := by
  by_cases h : a = this
  · subst h
    simp only [Particle.updatePose, Function.update_same]
  · rw [updatePose_other _ _ _ _ h]

theorem updatePose_fitness (this : Nat) (s : Swarm) (i a : Nat) :
    ((Particle.updatePose this s i).particles a).fitness = (s.particles a).fitness := by
  by_cases h : a = this
  · subst h
    simp only [Particle.updatePose, Function.update_same]
  · rw [updatePose_other _ _ _ _ h]

theorem updatePose_pose (this : Nat) (s : Swarm) (i j : Nat) :
    ((Particle.updatePose this s i).particles this).pose j
      = if j = i then (s.particles this).v i + (s.particles this).pose i
        else (s.particles this).pose j := by
  simp only [Particle.updatePose, Function.update_same, Function.update_apply]

theorem report_particles (this : Nat) (s : Swarm) (i : Nat) :
    (Particle.report this s i).particles = s.particles := by
  unfold Particle.report
  split <;> rfl

theorem report_gen (this : Nat) (s : Swarm) (i : Nat) :
    (Particle.report this s i).gen = s.gen := by
  unfold Particle.report
  split <;> rfl

theorem report_cout (this : Nat) (s : Swarm) (i : Nat) :
    (Particle.report this s i).cout
      = s.cout ++ (if |(s.particles this).v i| > 1 then [(s.particles this).v i] else []) := by
  unfold Particle.report
  split <;> simp

theorem progress_gen (nextR : Nat → ℚ × Nat) (leftFirst : Bool) (this gBest : Nat)
    (w c1 c2 : ℚ) (s : Swarm) :
    (Particle.progress nextR leftFirst this gBest w c1 c2 s).gen
      = stateAfter nextR s.gen 12 := by
  simp only [Particle.progress, List.foldl, report_gen, updatePose_gen, updateVelocity_gen,
    stateAfter_add]

theorem progress_other (nextR : Nat → ℚ × Nat) (leftFirst : Bool) (this gBest : Nat)
    (w c1 c2 : ℚ) (s : Swarm) (a : Nat) (h : a ≠ this) :
    (Particle.progress nextR leftFirst this gBest w c1 c2 s).particles a
      = s.particles a := by
  simp only [Particle.progress, List.foldl, report_particles,
    updatePose_other _ _ _ _ h, updateVelocity_other _ _ _ _ _ _ _ _ _ _ h]

theorem progress_pBest (nextR : Nat → ℚ × Nat) (leftFirst : Bool) (this gBest : Nat)
    (w c1 c2 : ℚ) (s : Swarm) (a : Nat) :
    ((Particle.progress nextR leftFirst this gBest w c1 c2 s).particles a).pBest
      = (s.particles a).pBest := by
  simp only [Particle.progress, List.foldl, report_particles, updatePose_pBest,
    updateVelocity_pBest]

theorem progress_fitness (nextR : Nat → ℚ × Nat) (leftFirst : Bool) (this gBest : Nat)
    (w c1 c2 : ℚ) (s : Swarm) (a : Nat) :
    ((Particle.progress nextR leftFirst this gBest w c1 c2 s).particles a).fitness
      = (s.particles a).fitness := by
  simp only [Particle.progress, List.foldl, report_particles, updatePose_fitness,
    updateVelocity_fitness]

theorem progress_v (nextR : Nat → ℚ × Nat) (leftFirst : Bool) (this gBest : Nat)
    (w c1 c2 : ℚ) (s : Swarm) (i : Nat) :
    ((Particle.progress nextR leftFirst this gBest w c1 c2 s).particles this).v i
      = if i < 6 then
          Particle.velocity (if i < 3 then w else 96 / 100) ((s.particles this).v i)
            ((s.particles this).pose i) ((s.particles this).pBest.pose i)
            ((s.particles gBest).pose i) c1 c2
            (if leftFirst then drawn nextR s.gen (2 * i) else drawn nextR s.gen (2 * i + 1))
            (if leftFirst then drawn nextR s.gen (2 * i + 1) else drawn nextR s.gen (2 * i))
        else (s.particles this).v i := by
  by_cases hi : i < 6
  · rw [if_pos hi]
    interval_cases i <;>
    simp [Particle.progress, report_particles, updatePose_v, updateVelocity_v,
      updateVelocity_pose, updateVelocity_pBest, updateVelocity_gen, stateAfter_add,
      drawn_stateAfter]
  · rw [if_neg hi]
    have h0 : i ≠ 0 := by omega
    have h1 : i ≠ 1 := by omega
    have h2 : i ≠ 2 := by omega
    have h3 : i ≠ 3 := by omega
    have h4 : i ≠ 4 := by omega
    have h5 : i ≠ 5 := by omega
    simp [Particle.progress, report_particles, updatePose_v, updateVelocity_v, h0, h1, h2,
      h3, h4, h5]

theorem progress_pose (nextR : Nat → ℚ × Nat) (leftFirst : Bool) (this gBest : Nat)
    (w c1 c2 : ℚ) (s : Swarm) (i : Nat) :
    ((Particle.progress nextR leftFirst this gBest w c1 c2 s).particles this).pose i
      = if i < 6 then
          ((Particle.progress nextR leftFirst this gBest w c1 c2 s).particles this).v i
            + (s.particles this).pose i
        else (s.particles this).pose i := by
  by_cases hi : i < 6
  · rw [if_pos hi]
    interval_cases i <;>
    simp [Particle.progress, report_particles, updatePose_v, updatePose_pose,
      updateVelocity_pose]
  · rw [if_neg hi]
    have h0 : i ≠ 0 := by omega
    have h1 : i ≠ 1 := by omega
    have h2 : i ≠ 2 := by omega
    have h3 : i ≠ 3 := by omega
    have h4 : i ≠ 4 := by omega
    have h5 : i ≠ 5 := by omega
    simp [Particle.progress, report_particles, updatePose_pose, updateVelocity_pose, h0, h1,
      h2, h3, h4, h5]

theorem progress_cout (nextR : Nat → ℚ × Nat) (leftFirst : Bool) (this gBest : Nat)
    (w c1 c2 : ℚ) (s : Swarm) :
    (Particle.progress nextR leftFirst this gBest w c1 c2 s).cout
      = s.cout ++ [3, 4, 5].flatMap (fun i =>
          if |((Particle.progress nextR leftFirst this gBest w c1 c2 s).particles this).v i|
              > 1 then
            [((Particle.progress nextR leftFirst this gBest w c1 c2 s).particles this).v i]
          else []) := by
  simp [Particle.progress, report_particles, report_cout, updatePose_cout, updatePose_v,
    updateVelocity_cout]

/-- C23: `Particle::progress(w, c1, c2, gBest)` performs one step of the particle swarm.
For each component `i < 6` the new velocity is
`wi * v[i] + c1 * r1 * (pBest.pose[i] - pose[i]) + c2 * r2 * (gBest.pose[i] - pose[i])`,
where `wi` is `w` for `i < 3` and the constant 0.96 for `i ≥ 3`, and `r1`, `r2` are the
two values `nextR()` returns for that component (the draws `2 i` and `2 i + 1` of the
call, in the order in which the compiler evaluates the two arguments); the new pose is
`pose[i] + v'[i]`, so a component with `pose[i] = pBest.pose[i] = gBest.pose[i]` moves by
`wi * v[i]`. `pBest` and `fitness` keep their values, every other `Particle` object is
left as it was, among them `gBest` when it is not the particle itself, and twelve
random numbers are drawn. -/
theorem progress_is_one_pso_step (nextR : Nat → ℚ × Nat) (leftFirst : Bool)
    (this gBest : Nat) (w c1 c2 : ℚ) (s : Swarm) :
    (∀ i, i < 6 →
      ((Particle.progress nextR leftFirst this gBest w c1 c2 s).particles this).v i
        = (if i < 3 then w else 96 / 100) * (s.particles this).v i
          + c1 * (if leftFirst then drawn nextR s.gen (2 * i)
              else drawn nextR s.gen (2 * i + 1))
            * ((s.particles this).pBest.pose i - (s.particles this).pose i)
          + c2 * (if leftFirst then drawn nextR s.gen (2 * i + 1)
              else drawn nextR s.gen (2 * i))
            * ((s.particles gBest).pose i - (s.particles this).pose i) ∧
      ((Particle.progress nextR leftFirst this gBest w c1 c2 s).particles this).pose i
        = (s.particles this).pose i
          + ((Particle.progress nextR leftFirst this gBest w c1 c2 s).particles this).v i ∧
      ((s.particles this).pose i = (s.particles this).pBest.pose i →
        (s.particles this).pose i = (s.particles gBest).pose i →
        ((Particle.progress nextR leftFirst this gBest w c1 c2 s).particles this).pose i
            - (s.particles this).pose i
          = (if i < 3 then w else 96 / 100) * (s.particles this).v i)) ∧
    (∀ i, 6 ≤ i →
      ((Particle.progress nextR leftFirst this gBest w c1 c2 s).particles this).v i
        = (s.particles this).v i ∧
      ((Particle.progress nextR leftFirst this gBest w c1 c2 s).particles this).pose i
        = (s.particles this).pose i) ∧
    (∀ a,
      ((Particle.progress nextR leftFirst this gBest w c1 c2 s).particles a).pBest
        = (s.particles a).pBest ∧
      ((Particle.progress nextR leftFirst this gBest w c1 c2 s).particles a).fitness
        = (s.particles a).fitness) ∧
    (∀ a, a ≠ this →
      (Particle.progress nextR leftFirst this gBest w c1 c2 s).particles a
        = s.particles a) ∧
    (gBest ≠ this →
      (Particle.progress nextR leftFirst this gBest w c1 c2 s).particles gBest
        = s.particles gBest) ∧
    (Particle.progress nextR leftFirst this gBest w c1 c2 s).gen
      = stateAfter nextR s.gen 12 := by
  have hv : ∀ i, i < 6 →
      ((Particle.progress nextR leftFirst this gBest w c1 c2 s).particles this).v i
        = (if i < 3 then w else 96 / 100) * (s.particles this).v i
          + c1 * (if leftFirst then drawn nextR s.gen (2 * i)
              else drawn nextR s.gen (2 * i + 1))
            * ((s.particles this).pBest.pose i - (s.particles this).pose i)
          + c2 * (if leftFirst then drawn nextR s.gen (2 * i + 1)
              else drawn nextR s.gen (2 * i))
            * ((s.particles gBest).pose i - (s.particles this).pose i) := by
    intro i hi
    rw [progress_v, if_pos hi]
    rfl
  have hpose : ∀ i, i < 6 →
      ((Particle.progress nextR leftFirst this gBest w c1 c2 s).particles this).pose i
        = (s.particles this).pose i
          + ((Particle.progress nextR leftFirst this gBest w c1 c2 s).particles this).v i := by
    intro i hi
    rw [progress_pose, if_pos hi, add_comm]
  refine ⟨?_, ?_, ?_, ?_, ?_, ?_⟩
  · intro i hi
    refine ⟨hv i hi, hpose i hi, ?_⟩
    intro h1 h2
    rw [hpose i hi, hv i hi, ← h1, ← h2]
    ring
  · intro i hi
    have hn : ¬ i < 6 := by omega
    exact ⟨by rw [progress_v, if_neg hn], by rw [progress_pose, if_neg hn]⟩
  · intro a
    exact ⟨progress_pBest _ _ _ _ _ _ _ _ _, progress_fitness _ _ _ _ _ _ _ _ _⟩
  · intro a ha
    exact progress_other _ _ _ _ _ _ _ _ _ ha
  · intro hg
    exact progress_other _ _ _ _ _ _ _ _ _ hg
  · exact progress_gen _ _ _ _ _ _ _ _

theorem progress_is_one_pso_step_witness :
    (3 : Nat) < 6 ∧
    ((Particle.progress sampleNextR true 0 1 (1 / 2) 2 2 sampleSwarm).particles 0).v 3
      = (if 3 < 3 then 1 / 2 else 96 / 100) * (sampleSwarm.particles 0).v 3
        + 2 * (if true = true then drawn sampleNextR sampleSwarm.gen (2 * 3)
            else drawn sampleNextR sampleSwarm.gen (2 * 3 + 1))
          * ((sampleSwarm.particles 0).pBest.pose 3 - (sampleSwarm.particles 0).pose 3)
        + 2 * (if true = true then drawn sampleNextR sampleSwarm.gen (2 * 3 + 1)
            else drawn sampleNextR sampleSwarm.gen (2 * 3))
          * ((sampleSwarm.particles 1).pose 3 - (sampleSwarm.particles 0).pose 3) ∧
    ((Particle.progress sampleNextR true 0 1 (1 / 2) 2 2 sampleSwarm).particles 0).v 3
      = -3183 / 50 ∧
    ((Particle.progress sampleNextR true 0 1 (1 / 2) 2 2 sampleSwarm).particles 0).pose 3
      = -1683 / 50 ∧
    (sampleSwarm.particles 0).pose 1 = (sampleSwarm.particles 0).pBest.pose 1 ∧
    (sampleSwarm.particles 0).pose 1 = (sampleSwarm.particles 1).pose 1 ∧
    ((Particle.progress sampleNextR true 0 1 (1 / 2) 2 2 sampleSwarm).particles 0).pose 1
        - (sampleSwarm.particles 0).pose 1
      = (if 1 < 3 then 1 / 2 else 96 / 100) * (sampleSwarm.particles 0).v 1 ∧
    (1 : Nat) ≠ 0 ∧
    (Particle.progress sampleNextR true 0 1 (1 / 2) 2 2 sampleSwarm).particles 1
      = sampleSwarm.particles 1 :=
  ⟨by decide,
    ((progress_is_one_pso_step sampleNextR true 0 1 (1 / 2) 2 2 sampleSwarm).1 3
      (by decide)).1,
    by decide!, by decide!, by decide!, by decide!,
    ((progress_is_one_pso_step sampleNextR true 0 1 (1 / 2) 2 2 sampleSwarm).1 1
      (by decide)).2.2 (by decide!) (by decide!),
    by decide,
    (progress_is_one_pso_step sampleNextR true 0 1 (1 / 2) 2 2 sampleSwarm).2.2.2.2.1
      (by decide)⟩

end tless
